import Mathlib

set_option maxRecDepth 100000

/-!
# The gphoto camera session worker

A shallow embedding of `src/gphotocameraworker.cpp` (class `GPhotoCameraWorker`).

* The libgphoto2 C library is an explicit parameter: a deterministic machine over an
  arbitrary state type `L` that answers every call with a `Reply` (return code and
  out-parameters).  Quantifying over `L` and over the machine covers every behaviour
  of the library.
* The worker is a record of its member variables together with the library state and a
  chronological trace of the library calls it made and the Qt signals it emitted.
* Qt string/number conversions (`QString::toInt`, `QString::toDouble`, the `double`
  comparison) are parameters collected in `Qt`.
-/

namespace GPhoto

/-! ## Enumerations of Qt and libgphoto2 -/

/-- The values of `QCamera::Status`. -/
inductive Status
  | UnavailableStatus
  | UnloadedStatus
  | LoadingStatus
  | UnloadingStatus
  | LoadedStatus
  | StandbyStatus
  | StartingStatus
  | StoppingStatus
  | ActiveStatus
  deriving DecidableEq, Repr

/-- The values of `CameraWidgetType` (libgphoto2). -/
inductive CameraWidgetType
  | GP_WIDGET_WINDOW
  | GP_WIDGET_SECTION
  | GP_WIDGET_TEXT
  | GP_WIDGET_RANGE
  | GP_WIDGET_TOGGLE
  | GP_WIDGET_RADIO
  | GP_WIDGET_MENU
  | GP_WIDGET_BUTTON
  | GP_WIDGET_DATE
  deriving DecidableEq, Repr

/-- The values of `CameraEventType` (libgphoto2). -/
inductive CameraEventType
  | GP_EVENT_UNKNOWN
  | GP_EVENT_TIMEOUT
  | GP_EVENT_FILE_ADDED
  | GP_EVENT_FOLDER_ADDED
  | GP_EVENT_CAPTURE_COMPLETE
  deriving DecidableEq, Repr

/-- The value of `QCamera::Error` used by the worker. -/
inductive CameraErrorKind
  | CameraError
  deriving DecidableEq, Repr

/-- The value of `QCameraImageCapture::Error` used by the worker. -/
inductive CaptureErrorKind
  | ResourceError
  deriving DecidableEq, Repr

/-- The libgphoto2 success code `GP_OK`. -/
def GP_OK : Int := 0

/-- The constant `capturingFailLimit` of the anonymous namespace (line 6). -/
def capturingFailLimit : Int := 10

/-! ## The library interface -/

/-- One call into libgphoto2, with the arguments the worker passes.  A camera argument is
`true` for a non-null `Camera*`; widget arguments are the handles returned earlier. -/
inductive Call
  | gp_context_new
  | gp_camera_new
  | gp_camera_set_abilities
  | gp_camera_set_port_info
  | gp_file_new
  | gp_camera_exit
  | gp_file_free
  | gp_camera_free (camera : Bool)
  | gp_file_clean
  | gp_camera_capture_preview (camera : Bool)
  | gp_file_get_data_and_size
  | gp_camera_capture (camera : Bool)
  | gp_camera_file_get (camera : Bool) (folder name : String)
  | gp_camera_wait_for_event (camera : Bool) (timeout : Nat)
  | gp_camera_get_config (camera : Bool)
  | gp_camera_set_config (camera : Bool) (root : Nat)
  | gp_widget_get_child_by_name (root : Nat) (name : String)
  | gp_widget_get_type (widget : Nat)
  | gp_widget_get_value_str (widget : Nat)
  | gp_widget_get_value_int (widget : Nat)
  | gp_widget_set_value_str (widget : Nat) (value : String)
  | gp_widget_set_value_int (widget : Nat) (value : Int)
  | gp_widget_count_choices (widget : Nat)
  | gp_widget_get_choice (widget : Nat) (index : Int)
  | gp_widget_free (widget : Nat)
  deriving DecidableEq, Repr

/-- What a library call hands back: the `int` return value and the out-parameters.  A call
site reads only the fields its C function fills in; after a failed call they hold whatever
the library left there. -/
structure Reply where
  ret : Int
  handle : Nat := 0
  text : String := ""
  text2 : String := ""
  num : Int := 0
  bytes : List Nat := []
  wtype : CameraWidgetType := CameraWidgetType.GP_WIDGET_WINDOW
  event : CameraEventType := CameraEventType.GP_EVENT_UNKNOWN
  deriving DecidableEq, Repr

/-- The library as a deterministic machine over its own state `L`.  `pending` bounds the
number of events the camera still has queued: every `gp_camera_wait_for_event` that
does not report `GP_EVENT_TIMEOUT` consumes one, so both event drains of the worker
terminate. -/
structure Library (L : Type) where
  call : L → Call → Reply × L
  pending : L → Nat
  pending_dec : ∀ (l : L) (camera : Bool) (timeout : Nat),
    (call l (Call.gp_camera_wait_for_event camera timeout)).1.event
        ≠ CameraEventType.GP_EVENT_TIMEOUT →
      pending (call l (Call.gp_camera_wait_for_event camera timeout)).2 < pending l

/-! ## Qt values -/

/-- The `QVariant` values a parameter can carry; `D` is the type of C++ `double`. -/
inductive QVariant (D : Type)
  | invalid
  | ofBool (b : Bool)
  | ofInt (i : Int)
  | ofDouble (d : D)
  | ofString (s : String)
  deriving DecidableEq, Repr

/-- Mirrors `QVariant::isValid`. -/
def QVariant.isValid {D : Type} : QVariant D → Bool
  | QVariant.invalid => false
  | _ => true

/-- The Qt conversions the worker relies on, over the type `D` of C++ `double`:
`toInt` is `QString::toInt(&ok)` (`none` when `ok` is false), `toDouble` is
`QString::toDouble(&ok)`, `near c v` is the `double` test `qAbs(c - v) < 0.1`, and
`doubleToInt` is the `double` to `int` conversion of `QVariant::toInt`. -/
structure Qt (D : Type) where
  toInt : String → Option Int
  toDouble : String → Option D
  near : D → D → Bool
  doubleToInt : D → Int

/-- Mirrors `QVariant::canConvert<int>()` on the modelled variants. -/
def QVariant.canConvertInt {D : Type} : QVariant D → Bool
  | QVariant.invalid => false
  | _ => true

/-- Mirrors `QVariant::toInt()` on the modelled variants. -/
def QVariant.toInt {D : Type} (qt : Qt D) : QVariant D → Int
  | QVariant.invalid => 0
  | QVariant.ofBool b => if b then 1 else 0
  | QVariant.ofInt i => i
  | QVariant.ofDouble d => qt.doubleToInt d
  | QVariant.ofString s => (qt.toInt s).getD 0

/-- Mirrors `QString::replace(',', '.')`. -/
def replaceComma (s : String) : String :=
  String.mk (s.data.map fun c => if c = ',' then '.' else c)

/-! ## Signals and trace -/

/-- The Qt signals of the worker.  The preview frame is the byte span the image is
decoded from (`none` for the null image of a failed preview); decoding and mirroring
happen inside Qt. -/
inductive Signal
  | statusChanged (status : Status)
  | error (kind : CameraErrorKind) (message : String)
  | previewCaptured (frame : Option (List Nat))
  | imageCaptured (id : Int) (bytes : List Nat) (fileName : String)
  | imageCaptureError (id : Int) (kind : CaptureErrorKind) (message : String)
  deriving DecidableEq, Repr

/-- One observable action of the worker: a library call with its return code, or an
emitted signal. -/
inductive Ev
  | call (c : Call) (ret : Int)
  | emit (s : Signal)
  deriving DecidableEq, Repr

/-! ## The worker -/

/-- The member variables of `GPhotoCameraWorker` (handles are `true` when non-null),
the library state, and the trace so far.  `m_capturingFailCount` is a C++ `int`; it is kept
as an unbounded integer, and no run considered here brings it near the range of `int`. -/
structure Worker (L : Type) where
  lib : L
  m_context : Bool
  m_camera : Bool
  m_file : Bool
  m_capturingFailCount : Int
  m_status : Status
  trace : List Ev

variable {L D : Type}

/-- Perform one library call: advance the library and record the call. -/
def libcall (g : Library L) (c : Call) (w : Worker L) : Reply × Worker L :=
  ((g.call w.lib c).1,
   { w with lib := (g.call w.lib c).2, trace := w.trace ++ [Ev.call c (g.call w.lib c).1.ret] })

/-- Emit one signal. -/
def emit (s : Signal) (w : Worker L) : Worker L :=
  { w with trace := w.trace ++ [Ev.emit s] }

/-- The constructor (lines 44-56). -/
def construct (g : Library L) (l : L) : Worker L :=
  let r := g.call l Call.gp_context_new
  { lib := r.2
    m_context := decide (r.1.handle ≠ 0)
    m_camera := false
    m_file := false
    m_capturingFailCount := 0
    m_status := if r.1.handle ≠ 0 then Status.UnloadedStatus else Status.UnavailableStatus
    trace := [Ev.call Call.gp_context_new r.1.ret] }

/-- The loop of `waitForOperationCompleted` (lines 507-509), at most `fuel` rounds. -/
def waitLoop (g : Library L) : Nat → Worker L → Worker L
  | 0, w => w
  | fuel + 1, w =>
    let r := libcall g (Call.gp_camera_wait_for_event w.m_camera 10) w
    if r.1.ret = GP_OK ∧ r.1.event ≠ CameraEventType.GP_EVENT_TIMEOUT then
      waitLoop g fuel r.2
    else r.2

/-- Mirrors `waitForOperationCompleted` (lines 501-510).  The do-while loop runs at
least once and at most `pending + 1` times. -/
def waitForOperationCompleted (g : Library L) (w : Worker L) : Worker L :=
  waitLoop g (g.pending w.lib + 1) w

/-- Mirrors `parameter` (lines 251-297). -/
def parameter (g : Library L) (name : String) (w : Worker L) : QVariant D × Worker L :=
  let r1 := libcall g (Call.gp_camera_get_config w.m_camera) w
  if r1.1.ret < GP_OK then (QVariant.invalid, r1.2) else
  let root := r1.1.handle
  let r2 := libcall g (Call.gp_widget_get_child_by_name root name) r1.2
  if r2.1.ret < GP_OK then (QVariant.invalid, r2.2) else
  let option := r2.1.handle
  let r3 := libcall g (Call.gp_widget_get_type option) r2.2
  if r3.1.ret < GP_OK then (QVariant.invalid, r3.2) else
  if r3.1.wtype = CameraWidgetType.GP_WIDGET_RADIO then
    let r4 := libcall g (Call.gp_widget_get_value_str option) r3.2
    if r4.1.ret < GP_OK then (QVariant.invalid, r4.2)
    else (QVariant.ofString r4.1.text, r4.2)
  else if r3.1.wtype = CameraWidgetType.GP_WIDGET_TOGGLE then
    let r4 := libcall g (Call.gp_widget_get_value_int option) r3.2
    if r4.1.ret < GP_OK then (QVariant.invalid, r4.2)
    else (QVariant.ofBool (if r4.1.num = 0 then false else true), r4.2)
  else (QVariant.invalid, r3.2)

/-- The tail shared by every successful widget write in `setParameter`: push the
config, then wait (e.g. lines 335-343). -/
def pushConfig (g : Library L) (root : Nat) (w : Worker L) : Bool × Worker L :=
  let r := libcall g (Call.gp_camera_set_config w.m_camera root) w
  if r.1.ret < GP_OK then (false, r.2)
  else (true, waitForOperationCompleted g r.2)

/-- The `for` loop of the `QVariant::Double` branch (lines 349-377): `n` rounds left,
next index `i`. -/
def setRadioDouble (g : Library L) (qt : Qt D) (root option : Nat) (v : D) :
    Nat → Int → Worker L → Bool × Worker L
  | 0, _, w => (false, w)
  | n + 1, i, w =>
    let r := libcall g (Call.gp_widget_get_choice option i) w
    let choice := r.1.text
    match qt.toDouble (replaceComma choice) with
    | none => setRadioDouble g qt root option v n (i + 1) r.2
    | some choiceValue =>
      if qt.near choiceValue v then
        let r2 := libcall g (Call.gp_widget_set_value_str option choice) r.2
        if r2.1.ret < GP_OK then (false, r2.2)
        else pushConfig g root r2.2
      else setRadioDouble g qt root option v n (i + 1) r.2

/-- The `for` loop of the `QVariant::Int` branch (lines 388-411): `n` rounds left,
next index `i`. -/
def setRadioInt (g : Library L) (qt : Qt D) (root option : Nat) (v : Int) :
    Nat → Int → Worker L → Bool × Worker L
  | 0, _, w => (false, w)
  | n + 1, i, w =>
    let r := libcall g (Call.gp_widget_get_choice option i) w
    let choice := r.1.text
    let ok := (qt.toInt choice).isSome
    let choiceValue := (qt.toInt choice).getD 0
    if (ok ∧ choiceValue = v) ∨ (¬ ok ∧ v = -1) then
      let r2 := libcall g (Call.gp_widget_set_value_str option choice) r.2
      if r2.1.ret < GP_OK then (false, r2.2)
      else pushConfig g root r2.2
    else setRadioInt g qt root option v n (i + 1) r.2

/-- Mirrors `setParameter` (lines 299-452). -/
def setParameter (g : Library L) (qt : Qt D) (name : String) (value : QVariant D)
    (w : Worker L) : Bool × Worker L :=
  let r1 := libcall g (Call.gp_camera_get_config w.m_camera) w
  if r1.1.ret < GP_OK then (false, r1.2) else
  let root := r1.1.handle
  let r2 := libcall g (Call.gp_widget_get_child_by_name root name) r1.2
  if r2.1.ret < GP_OK then (false, r2.2) else
  let option := r2.1.handle
  let r3 := libcall g (Call.gp_widget_get_type option) r2.2
  if r3.1.ret < GP_OK then (false, (libcall g (Call.gp_widget_free option) r3.2).2) else
  if r3.1.wtype = CameraWidgetType.GP_WIDGET_RADIO then
    match value with
    | QVariant.ofString s =>
      let r4 := libcall g (Call.gp_widget_set_value_str option s) r3.2
      if r4.1.ret < GP_OK then (false, r4.2)
      else pushConfig g root r4.2
    | QVariant.ofDouble v =>
      let c := libcall g (Call.gp_widget_count_choices option) r3.2
      setRadioDouble g qt root option v c.1.ret.toNat 0 c.2
    | QVariant.ofInt v =>
      let c := libcall g (Call.gp_widget_count_choices option) r3.2
      setRadioInt g qt root option v c.1.ret.toNat 0 c.2
    | _ => (false, (libcall g (Call.gp_widget_free option) r3.2).2)
  else if r3.1.wtype = CameraWidgetType.GP_WIDGET_TOGGLE then
    if value.canConvertInt then
      let v := value.toInt qt
      let r4 := libcall g (Call.gp_widget_set_value_int option v) r3.2
      if r4.1.ret < GP_OK then (false, r4.2)
      else pushConfig g root r4.2
    else (false, (libcall g (Call.gp_widget_free option) r3.2).2)
  else (false, (libcall g (Call.gp_widget_free option) r3.2).2)

/-- Mirrors `openCameraErrorHandle` (lines 454-462). -/
def openCameraErrorHandle (g : Library L) (w : Worker L) : Worker L :=
  let w1 := { w with m_status := Status.UnavailableStatus }
  let w2 := emit (Signal.statusChanged w1.m_status) w1
  let w3 := emit (Signal.error CameraErrorKind.CameraError "Unable to open camera") w2
  let w4 := (libcall g (Call.gp_camera_free w3.m_camera) w3).2
  { w4 with m_camera := false }

/-- Mirrors `openCamera` (lines 65-107).  After `gp_camera_new` the handle is non-null
when the call succeeded and is whatever the library left there when it failed. -/
def openCamera (g : Library L) (qt : Qt D) (w : Worker L) : Worker L :=
  if w.m_camera then w else
  let w1 := { w with m_status := Status.LoadingStatus }
  let w2 := emit (Signal.statusChanged w1.m_status) w1
  let r1 := libcall g Call.gp_camera_new w2
  let w3 := { r1.2 with m_camera := decide (r1.1.ret = GP_OK ∨ r1.1.handle ≠ 0) }
  if r1.1.ret ≠ GP_OK then openCameraErrorHandle g w3 else
  let r2 := libcall g Call.gp_camera_set_abilities w3
  if r2.1.ret < GP_OK then openCameraErrorHandle g r2.2 else
  let r3 := libcall g Call.gp_camera_set_port_info r2.2
  if r3.1.ret < GP_OK then openCameraErrorHandle g r3.2 else
  let r4 := libcall g Call.gp_file_new r3.2
  let w4 := { r4.2 with m_file := decide (r4.1.ret = GP_OK ∨ r4.1.handle ≠ 0) }
  if r4.1.ret < GP_OK then openCameraErrorHandle g w4 else
  let p : QVariant D × Worker L := parameter g "viewfinder" w4
  let w5 := if p.1.isValid then (setParameter g qt "viewfinder" (QVariant.ofBool true) p.2).2
            else p.2
  let w6 := { w5 with m_capturingFailCount := 0, m_status := Status.LoadedStatus }
  emit (Signal.statusChanged w6.m_status) w6

/-- Mirrors `closeCamera` (lines 109-135). -/
def closeCamera (g : Library L) (w : Worker L) : Worker L :=
  if ¬ w.m_camera then w else
  let w1 := { w with m_status := Status.UnloadingStatus }
  let w2 := emit (Signal.statusChanged w1.m_status) w1
  let r := libcall g Call.gp_camera_exit w2
  if r.1.ret ≠ GP_OK then
    let w3 := { r.2 with m_status := Status.LoadedStatus }
    let w4 := emit (Signal.statusChanged w3.m_status) w3
    emit (Signal.error CameraErrorKind.CameraError "Unable to close camera") w4
  else
    let w3 := (libcall g Call.gp_file_free r.2).2
    let w4 := { w3 with m_file := false }
    let w5 := (libcall g (Call.gp_camera_free w4.m_camera) w4).2
    let w6 := { w5 with m_camera := false, m_status := Status.UnloadedStatus }
    emit (Signal.statusChanged w6.m_status) w6

/-- Mirrors `stopViewFinder` (lines 137-143). -/
def stopViewFinder (w : Worker L) : Worker L :=
  let w1 := emit (Signal.statusChanged Status.StoppingStatus) w
  let w2 := { w1 with m_status := Status.LoadedStatus }
  emit (Signal.statusChanged Status.LoadedStatus) w2

/-- Mirrors `capturePreview` (lines 145-185). -/
def capturePreview (g : Library L) (qt : Qt D) (w : Worker L) : Worker L :=
  let w1 := openCamera g qt w
  let w2 := if w1.m_status ≠ Status.ActiveStatus then
              emit (Signal.statusChanged Status.StartingStatus)
                { w1 with m_status := Status.StartingStatus }
            else w1
  let w3 := (libcall g Call.gp_file_clean w2).2
  let r := libcall g (Call.gp_camera_capture_preview w3.m_camera) w3
  if r.1.ret < GP_OK then
    let w4 := { r.2 with m_capturingFailCount := r.2.m_capturingFailCount + 1 }
    let w5 := if w4.m_capturingFailCount ≥ capturingFailLimit then
                closeCamera g (emit (Signal.statusChanged Status.UnloadedStatus)
                  { w4 with m_status := Status.UnloadedStatus })
              else w4
    emit (Signal.previewCaptured none) w5
  else
    let w4 := { r.2 with m_capturingFailCount := 0 }
    let d := libcall g Call.gp_file_get_data_and_size w4
    let w5 := if d.2.m_status ≠ Status.ActiveStatus then
                emit (Signal.statusChanged Status.ActiveStatus)
                  { d.2 with m_status := Status.ActiveStatus }
              else d.2
    emit (Signal.previewCaptured (some d.1.bytes)) w5

/-- The event drain of `capturePhoto` (lines 229-242), at most `fuel` rounds.  Only
`GP_EVENT_TIMEOUT` leaves the loop; the return code is not looked at. -/
def drainLoop (g : Library L) : Nat → Worker L → Worker L
  | 0, w => w
  | fuel + 1, w =>
    let r := libcall g (Call.gp_camera_wait_for_event w.m_camera 100) w
    if r.1.event = CameraEventType.GP_EVENT_TIMEOUT then r.2
    else drainLoop g fuel r.2

/-- The first block of `capturePhoto` (lines 191-198): mirror down, or else autofocus. -/
def focusPhase (g : Library L) (qt : Qt D) (w : Worker L) : Worker L :=
  let p : QVariant D × Worker L := parameter g "viewfinder" w
  if p.1.isValid then (setParameter g qt "viewfinder" (QVariant.ofBool false) p.2).2
  else
    let q : QVariant D × Worker L := parameter g "autofocusedrive" p.2
    if q.1.isValid then (setParameter g qt "autofocusedrive" (QVariant.ofBool true) q.2).2
    else q.2

/-- The second block of `capturePhoto` (lines 200-243): capture, download, notify, drain
the events. -/
def shootPhase (g : Library L) (id : Int) (fileName : String) (w : Worker L) : Worker L :=
  let r := libcall g (Call.gp_camera_capture w.m_camera) w
  if r.1.ret < GP_OK then
    emit (Signal.imageCaptureError id CaptureErrorKind.ResourceError
      "Failed to capture frame") r.2
  else
    let f := libcall g Call.gp_file_new r.2
    let dl := libcall g (Call.gp_camera_file_get f.2.m_camera r.1.text r.1.text2) f.2
    let w3 :=
      if dl.1.ret < GP_OK then
        emit (Signal.imageCaptureError id CaptureErrorKind.ResourceError
          "Failed to download file from camera") dl.2
      else
        let d := libcall g Call.gp_file_get_data_and_size dl.2
        emit (Signal.imageCaptured id d.1.bytes fileName) d.2
    let w4 := (libcall g Call.gp_file_free w3).2
    drainLoop g (g.pending w4.lib + 1) w4

/-- The last block of `capturePhoto` (lines 245-248): mirror up again. -/
def mirrorUp (g : Library L) (qt : Qt D) (w : Worker L) : Worker L :=
  let p : QVariant D × Worker L := parameter g "viewfinder" w
  if p.1.isValid then (setParameter g qt "viewfinder" (QVariant.ofBool true) p.2).2
  else p.2

/-- Mirrors `capturePhoto` (lines 187-249): its three blocks in sequence. -/
def capturePhoto (g : Library L) (qt : Qt D) (id : Int) (fileName : String)
    (w : Worker L) : Worker L :=
  mirrorUp g qt (shootPhase g id fileName (focusPhase g qt w))

/-- The commands a client can send to the worker. -/
inductive Command (D : Type)
  | openCamera
  | closeCamera
  | capturePreview
  | capturePhoto (id : Int) (fileName : String)
  | stopViewFinder
  | parameter (name : String)
  | setParameter (name : String) (value : QVariant D)

/-- Execute one command. -/
def step (g : Library L) (qt : Qt D) (w : Worker L) : Command D → Worker L
  | Command.openCamera => openCamera g qt w
  | Command.closeCamera => closeCamera g w
  | Command.capturePreview => capturePreview g qt w
  | Command.capturePhoto id fileName => capturePhoto g qt id fileName w
  | Command.stopViewFinder => stopViewFinder w
  | Command.parameter name => ((parameter g name w : QVariant D × Worker L)).2
  | Command.setParameter name value => (setParameter g qt name value w).2

/-- Execute a sequence of commands in order. -/
def run (g : Library L) (qt : Qt D) (w : Worker L) (cmds : List (Command D)) : Worker L :=
  cmds.foldl (step g qt) w

/-! ## A concrete library and concrete Qt conversions

`Mock` is a small camera: its configuration is a flat list of named widgets, a widget keeps
the value last written to it, `gp_camera_get_config` hands out a working copy and
`gp_camera_set_config` stores the working copy back.  Calls that talk to the camera
answer with the fixed return code `rc`; the accessors of the working copy fail only for a
handle or a name that does not exist. -/

/-- A widget of the mock camera. -/
structure MWidget where
  wtype : CameraWidgetType
  sval : String := ""
  ival : Int := 0
  choices : List String := []
  deriving DecidableEq, Repr

/-- The state of the mock library. -/
structure Mock where
  rc : Call → Int
  context : Nat
  config : List (String × MWidget)
  tree : List (String × MWidget)
  events : List CameraEventType
  data : List Nat

/-- The position of the first widget called `name`. -/
def childIndex (name : String) : List (String × MWidget) → Option Nat
  | [] => none
  | e :: es => if e.1 = name then some 0 else (childIndex name es).map (· + 1)

/-- The widget behind a child handle (handle `i + 1` is position `i`; `0` is the root). -/
def widgetAt (h : Nat) (tree : List (String × MWidget)) : Option MWidget :=
  match h with
  | 0 => none
  | i + 1 => (tree[i]?).map (·.2)

/-- Change the widget at a position. -/
def modifyAt (f : MWidget → MWidget) : Nat → List (String × MWidget) → List (String × MWidget)
  | _, [] => []
  | 0, e :: es => (e.1, f e.2) :: es
  | i + 1, e :: es => e :: modifyAt f i es

/-- The libgphoto2 code `GP_ERROR_BAD_PARAMETERS`. -/
def GP_ERROR_BAD_PARAMETERS : Int := -2

/-- A failed reply. -/
def Reply.fail (code : Int) : Reply := { ret := code }

/-- The answers of the mock library. -/
def Mock.call (m : Mock) (c : Call) : Reply × Mock :=
  match c with
  | Call.gp_context_new => ({ ret := GP_OK, handle := m.context }, m)
  | Call.gp_camera_new =>
    ({ ret := m.rc c, handle := if m.rc c = GP_OK then 1 else 0 }, m)
  | Call.gp_camera_get_config _ =>
    if m.rc c < GP_OK then (Reply.fail (m.rc c), m)
    else ({ ret := m.rc c, handle := 0 }, { m with tree := m.config })
  | Call.gp_camera_set_config _ _ =>
    if m.rc c < GP_OK then (Reply.fail (m.rc c), m)
    else ({ ret := m.rc c }, { m with config := m.tree })
  | Call.gp_widget_get_child_by_name _ name =>
    match childIndex name m.tree with
    | some i => ({ ret := GP_OK, handle := i + 1 }, m)
    | none => (Reply.fail GP_ERROR_BAD_PARAMETERS, m)
  | Call.gp_widget_get_type h =>
    match widgetAt h m.tree with
    | some wd => ({ ret := GP_OK, wtype := wd.wtype }, m)
    | none => (Reply.fail GP_ERROR_BAD_PARAMETERS, m)
  | Call.gp_widget_get_value_str h =>
    match widgetAt h m.tree with
    | some wd => ({ ret := GP_OK, text := wd.sval }, m)
    | none => (Reply.fail GP_ERROR_BAD_PARAMETERS, m)
  | Call.gp_widget_get_value_int h =>
    match widgetAt h m.tree with
    | some wd => ({ ret := GP_OK, num := wd.ival }, m)
    | none => (Reply.fail GP_ERROR_BAD_PARAMETERS, m)
  | Call.gp_widget_set_value_str h v =>
    if m.rc c < GP_OK then (Reply.fail (m.rc c), m)
    else match widgetAt h m.tree with
      | some _ =>
        ({ ret := m.rc c }, { m with tree := modifyAt (fun wd => { wd with sval := v }) (h - 1) m.tree })
      | none => (Reply.fail GP_ERROR_BAD_PARAMETERS, m)
  | Call.gp_widget_set_value_int h v =>
    if m.rc c < GP_OK then (Reply.fail (m.rc c), m)
    else match widgetAt h m.tree with
      | some _ =>
        ({ ret := m.rc c }, { m with tree := modifyAt (fun wd => { wd with ival := v }) (h - 1) m.tree })
      | none => (Reply.fail GP_ERROR_BAD_PARAMETERS, m)
  | Call.gp_widget_count_choices h =>
    match widgetAt h m.tree with
    | some wd => ({ ret := (wd.choices.length : Int) }, m)
    | none => (Reply.fail GP_ERROR_BAD_PARAMETERS, m)
  | Call.gp_widget_get_choice h i =>
    match widgetAt h m.tree with
    | some wd =>
      if i < 0 then (Reply.fail GP_ERROR_BAD_PARAMETERS, m)
      else match wd.choices[i.toNat]? with
        | some choice => ({ ret := GP_OK, text := choice }, m)
        | none => (Reply.fail GP_ERROR_BAD_PARAMETERS, m)
    | none => (Reply.fail GP_ERROR_BAD_PARAMETERS, m)
  | Call.gp_camera_wait_for_event _ _ =>
    match m.events with
    | [] => ({ ret := m.rc c, event := CameraEventType.GP_EVENT_TIMEOUT }, m)
    | e :: es => ({ ret := m.rc c, event := e }, { m with events := es })
  | Call.gp_camera_capture _ =>
    ({ ret := m.rc c, text := "/", text2 := "capt0000.jpg" }, m)
  | Call.gp_file_get_data_and_size => ({ ret := m.rc c, bytes := m.data }, m)
  | _ => ({ ret := m.rc c }, m)

/-- The mock library as a `Library`. -/
def mockLib : Library Mock where
  call := Mock.call
  pending := fun m => m.events.length
  pending_dec := by
    intro l camera timeout h
    cases hl : l.events with
    | nil => simp [Mock.call, hl] at h
    | cons e es => simp [Mock.call, hl]

/-- The value of a decimal digit. -/
def digitVal (c : Char) : Option Nat :=
  if 48 ≤ c.toNat ∧ c.toNat ≤ 57 then some (c.toNat - 48) else none

/-- Read a run of decimal digits after the digits read so far (`acc`). -/
def parseDigits : List Char → Nat → Option Nat
  | [], acc => some acc
  | c :: cs, acc =>
    match digitVal c with
    | some d => parseDigits cs (10 * acc + d)
    | none => none

/-- Read a non-empty run of decimal digits. -/
def parseNat (cs : List Char) : Option Nat :=
  if cs = [] then none else parseDigits cs 0

/-- A stand-in for `QString::toInt(&ok)` on plain decimal text: an optional sign, at least
one digit, nothing else, and the value within the range of a 32-bit `int`. -/
def decimalToInt (s : String) : Option Int :=
  let v : Option Int :=
    match s.data with
    | '-' :: cs => (parseNat cs).map fun n => -(n : Int)
    | '+' :: cs => (parseNat cs).map fun n => (n : Int)
    | cs => (parseNat cs).map fun n => (n : Int)
  match v with
  | some x => if -2147483648 ≤ x ∧ x ≤ 2147483647 then some x else none
  | none => none

/-- Split a list of characters at the first `.`. -/
def splitDot : List Char → List Char × Option (List Char)
  | [] => ([], none)
  | c :: cs =>
    if c = '.' then ([], some cs)
    else ((c :: (splitDot cs).1), (splitDot cs).2)

/-- Read an unsigned decimal number `ddd` or `ddd.ddd` (at most three digits after the
point) as a count of thousandths. -/
def parseDecimal (cs : List Char) : Option Int :=
  match splitDot cs with
  | (ip, none) => (parseNat ip).map fun n => (1000 * n : Int)
  | (ip, some fp) =>
    match parseNat ip, parseNat fp with
    | some n, some f =>
      if fp.length ≤ 3 then some (1000 * n + f * 10 ^ (3 - fp.length) : Int) else none
    | _, _ => none

/-- A stand-in for `QString::toDouble(&ok)` on plain decimal text; the value is kept
exactly, as a count of thousandths, in place of a `double`. -/
def decimalToMilli (s : String) : Option Int :=
  match s.data with
  | '-' :: cs => (parseDecimal cs).map fun x => -x
  | cs => parseDecimal cs

/-- Concrete Qt conversions with exact decimal values (counts of thousandths) in place of
`double`: `near c v` is `|c - v| < 0.1`, and the conversion to `int` rounds half away from
zero like `qRound`. -/
def mockQt : Qt Int where
  toInt := decimalToInt
  toDouble := decimalToMilli
  near := fun c v => decide (|c - v| < 100)
  doubleToInt := fun d => if 0 ≤ d then (d + 500) / 1000 else -((-d + 500) / 1000)

/-- A mock camera in which every call succeeds. -/
def mock0 : Mock where
  rc := fun _ => GP_OK
  context := 1
  config := []
  tree := []
  events := []
  data := []

/-! ## Observations on a worker -/

/-- The signals in a trace, in order. -/
def signalsOf (t : List Ev) : List Signal :=
  t.filterMap fun e => match e with
    | Ev.emit s => some s
    | Ev.call _ _ => none

/-- The return codes of the `gp_camera_exit` calls in a trace, in order. -/
def exitsOf (t : List Ev) : List Int :=
  t.filterMap fun e => match e with
    | Ev.call Call.gp_camera_exit ret => some ret
    | _ => none

/-- The return codes of the `gp_camera_capture_preview` calls in a trace, in order. -/
def previewsOf (t : List Ev) : List Int :=
  t.filterMap fun e => match e with
    | Ev.call (Call.gp_camera_capture_preview _) ret => some ret
    | _ => none

/-- The return codes of the `gp_camera_capture` calls in a trace, in order. -/
def capturesOf (t : List Ev) : List Int :=
  t.filterMap fun e => match e with
    | Ev.call (Call.gp_camera_capture _) ret => some ret
    | _ => none

/-- The return codes of the `gp_camera_file_get` calls in a trace, in order. -/
def downloadsOf (t : List Ev) : List Int :=
  t.filterMap fun e => match e with
    | Ev.call (Call.gp_camera_file_get _ _ _) ret => some ret
    | _ => none

/-- The values handed to `gp_widget_set_value` for a radio widget in a trace, in order. -/
def writesOf (t : List Ev) : List String :=
  t.filterMap fun e => match e with
    | Ev.call (Call.gp_widget_set_value_str _ v) _ => some v
    | _ => none

/-- The return codes of the `gp_camera_set_config` calls in a trace, in order. -/
def pushesOf (t : List Ev) : List Int :=
  t.filterMap fun e => match e with
    | Ev.call (Call.gp_camera_set_config _ _) ret => some ret
    | _ => none

/-- The statuses that go with a camera handle. -/
def openStatus (s : Status) : Prop :=
  s = Status.LoadedStatus ∨ s = Status.StartingStatus ∨ s = Status.ActiveStatus ∨
    s = Status.StoppingStatus

instance (s : Status) : Decidable (openStatus s) := by
  unfold openStatus; infer_instance

/-- Whether a call is one of those `parameter` and `setParameter` make. -/
def Call.isConfig : Call → Bool
  | Call.gp_camera_wait_for_event _ _ => true
  | Call.gp_camera_get_config _ => true
  | Call.gp_camera_set_config _ _ => true
  | Call.gp_widget_get_child_by_name _ _ => true
  | Call.gp_widget_get_type _ => true
  | Call.gp_widget_get_value_str _ => true
  | Call.gp_widget_get_value_int _ => true
  | Call.gp_widget_set_value_str _ _ => true
  | Call.gp_widget_set_value_int _ _ => true
  | Call.gp_widget_count_choices _ => true
  | Call.gp_widget_get_choice _ _ => true
  | Call.gp_widget_free _ => true
  | _ => false

/-- Whether a trace entry is a configuration call. -/
def Ev.isConfigCall : Ev → Bool
  | Ev.call c _ => c.isConfig
  | Ev.emit _ => false

/-- Two workers agree on every member variable and the trace of the second extends the
trace of the first by configuration calls only. -/
def Quiet (w w' : Worker L) : Prop :=
  w'.m_context = w.m_context ∧ w'.m_camera = w.m_camera ∧ w'.m_file = w.m_file ∧
  w'.m_capturingFailCount = w.m_capturingFailCount ∧ w'.m_status = w.m_status ∧
  ∃ cs : List Ev, w'.trace = w.trace ++ cs ∧ ∀ e ∈ cs, e.isConfigCall = true

/-- The forward half of the handle/status invariant. -/
def Good (w : Worker L) : Prop :=
  w.m_camera = true → w.m_status = Status.LoadedStatus ∨ w.m_status = Status.StartingStatus ∨
    w.m_status = Status.ActiveStatus

/-- The handle/status invariant as the specification states it. -/
def Exact (w : Worker L) : Prop :=
  w.m_camera = true ↔ openStatus w.m_status

instance (w : Worker L) : Decidable (Exact w) := by
  unfold Exact; infer_instance

/-- Whether, along a run, `stopViewFinder` is only issued with a camera handle and every
`capturePreview` has a handle once its `openCamera` has returned. -/
def viewFinderGuarded (g : Library L) (qt : Qt D) (w : Worker L) : List (Command D) → Bool
  | [] => true
  | c :: cs =>
    (match c with
      | Command.stopViewFinder => w.m_camera
      | Command.capturePreview => (openCamera g qt w).m_camera
      | _ => true) && viewFinderGuarded g qt (step g qt w c) cs

/-- A mock camera whose previews always fail: `gp_camera_capture_preview` returns an error,
every other call succeeds. -/
def mockNoPreview : Mock where
  rc := fun c => match c with
    | Call.gp_camera_capture_preview _ => -1
    | _ => GP_OK
  context := 1
  config := []
  tree := []
  events := []
  data := []

/-- A mock camera that cannot be opened: `gp_camera_new` and `gp_camera_capture_preview`
fail, every other call succeeds. -/
def mockNoCamera : Mock where
  rc := fun c => match c with
    | Call.gp_camera_new => -1
    | Call.gp_camera_capture_preview _ => -1
    | _ => GP_OK
  context := 1
  config := []
  tree := []
  events := []
  data := []

/-- The return code `gp_camera_exit` gives in library state `l`. -/
def exitRet (g : Library L) (l : L) : Int :=
  (g.call l Call.gp_camera_exit).1.ret

/-- The return code `gp_camera_capture_preview` gives when `capturePreview` is entered in
library state `l` with a camera handle (after `gp_file_clean`). -/
def previewRet (g : Library L) (l : L) : Int :=
  (g.call (g.call l Call.gp_file_clean).2 (Call.gp_camera_capture_preview true)).1.ret

/-- Call `capturePreview` `n` times in a row. -/
def previews (g : Library L) (qt : Qt D) : Nat → Worker L → Worker L
  | 0, w => w
  | n + 1, w => capturePreview g qt (previews g qt n w)

/-- Whether a trace entry is not a failed step of opening or closing the camera: a
`gp_camera_exit` or `gp_camera_new` call that did not return `GP_OK`, or a
`gp_camera_set_abilities`, `gp_camera_set_port_info` or `gp_file_new` call that returned
an error, makes it false. -/
def okOpenClose : Ev → Bool
  | Ev.call Call.gp_camera_exit r => decide (r = GP_OK)
  | Ev.call Call.gp_camera_new r => decide (r = GP_OK)
  | Ev.call Call.gp_camera_set_abilities r => decide (GP_OK ≤ r)
  | Ev.call Call.gp_camera_set_port_info r => decide (GP_OK ≤ r)
  | Ev.call Call.gp_file_new r => decide (GP_OK ≤ r)
  | _ => true

/-- The failure counter is within the limit, and a worker at the limit has no handle. -/
def Bounded (w : Worker L) : Prop :=
  w.m_capturingFailCount ≤ capturingFailLimit ∧
    (w.m_capturingFailCount = capturingFailLimit → w.m_camera = false)

/-- A mock camera on which nothing can be closed or previewed: `gp_camera_exit` and
`gp_camera_capture_preview` fail, every other call succeeds. -/
def mockStuck : Mock where
  rc := fun c => match c with
    | Call.gp_camera_exit => -1
    | Call.gp_camera_capture_preview _ => -1
    | _ => GP_OK
  context := 1
  config := []
  tree := []
  events := []
  data := []

/-- The statuses announced by `statusChanged` in a trace, in order. -/
def statusesOf (t : List Ev) : List Status :=
  (signalsOf t).filterMap fun s => match s with
    | Signal.statusChanged st => some st
    | _ => none

/-- The commands that neither open the camera nor touch the view finder. -/
def Command.isPassive : Command D → Bool
  | Command.closeCamera => true
  | Command.capturePhoto _ _ => true
  | Command.parameter _ => true
  | Command.setParameter _ _ => true
  | _ => false

/-- A mock library that cannot create a context: `gp_context_new` returns null, every other
call succeeds. -/
def mockNoContext : Mock where
  rc := fun _ => GP_OK
  context := 0
  config := []
  tree := []
  events := []
  data := []

/-- The capture notification `capturePhoto` owes for a capture return code `c`, a download
return code `d` and downloaded bytes `bytes`. -/
def captureOutcome (id : Int) (fileName : String) (c d : Int) (bytes : List Nat) : Signal :=
  if c < GP_OK then
    Signal.imageCaptureError id CaptureErrorKind.ResourceError "Failed to capture frame"
  else if d < GP_OK then
    Signal.imageCaptureError id CaptureErrorKind.ResourceError
      "Failed to download file from camera"
  else Signal.imageCaptured id bytes fileName

/-- A mock camera with two events queued and four bytes of image data; every call
succeeds. -/
def mockShoot : Mock where
  rc := fun _ => GP_OK
  context := 1
  config := []
  tree := []
  events := [CameraEventType.GP_EVENT_CAPTURE_COMPLETE, CameraEventType.GP_EVENT_UNKNOWN]
  data := [255, 216, 255, 217]

/-- A mock camera whose `gp_camera_capture` fails; every other call succeeds. -/
def mockNoCapture : Mock where
  rc := fun c => match c with
    | Call.gp_camera_capture _ => -1
    | _ => GP_OK
  context := 1
  config := []
  tree := []
  events := []
  data := []

/-- A mock camera whose `gp_camera_file_get` fails; every other call succeeds. -/
def mockNoDownload : Mock where
  rc := fun c => match c with
    | Call.gp_camera_file_get _ _ _ => -1
    | _ => GP_OK
  context := 1
  config := []
  tree := []
  events := [CameraEventType.GP_EVENT_CAPTURE_COMPLETE]
  data := []

/-- The choices of the radio widget called `name` in the configuration of a mock camera,
if there is such a widget. -/
def Mock.radio (m : Mock) (name : String) : Option (List String) :=
  match childIndex name m.config with
  | some i =>
    match widgetAt (i + 1) m.config with
    | some wd => if wd.wtype = CameraWidgetType.GP_WIDGET_RADIO then some wd.choices else none
    | none => none
  | none => none

/-- The test of line 395 on one choice: its integer value equals the target, or it has no
integer value and the target is -1. -/
def intMatch (qt : Qt D) (v : Int) (choice : String) : Bool :=
  decide (((qt.toInt choice).isSome = true ∧ (qt.toInt choice).getD 0 = v) ∨
    (¬ (qt.toInt choice).isSome = true ∧ v = -1))

/-- A mock camera with one radio widget; every call succeeds. -/
def mockRadio (name : String) (choices : List String) : Mock where
  rc := fun _ => GP_OK
  context := 1
  config := [(name, { wtype := CameraWidgetType.GP_WIDGET_RADIO, choices := choices })]
  tree := []
  events := []
  data := []

/-- The opened worker on the mock camera with one radio widget. -/
def radioWorker (name : String) (choices : List String) : Worker Mock :=
  openCamera mockLib mockQt (construct mockLib (mockRadio name choices))

/-- The type of the widget called `name` in the configuration of a mock camera, if there
is such a widget. -/
def Mock.kind (m : Mock) (name : String) : Option CameraWidgetType :=
  match childIndex name m.config with
  | some i => (widgetAt (i + 1) m.config).map (·.wtype)
  | none => none

/-- A toggle widget that is off. -/
def toggleOff : MWidget :=
  { wtype := CameraWidgetType.GP_WIDGET_TOGGLE }

/-- A radio widget for the ISO speed. -/
def isoRadio : MWidget :=
  { wtype := CameraWidgetType.GP_WIDGET_RADIO, sval := "100", choices := ["Auto", "100", "200"] }

/-- A mock camera with one toggle widget and one radio widget; every call succeeds. -/
def mockKnobs : Mock where
  rc := fun _ => GP_OK
  context := 1
  config := [("viewfinder", toggleOff), ("iso", isoRadio)]
  tree := []
  events := [CameraEventType.GP_EVENT_UNKNOWN]
  data := []

/-- The worker after `setParameter` has fetched the configuration, the child widget and
its type. -/
def afterLookup (name : String) (i : Nat) (w : Worker Mock) : Worker Mock :=
  (libcall mockLib (Call.gp_widget_get_type (i + 1))
    (libcall mockLib (Call.gp_widget_get_child_by_name 0 name)
      (libcall mockLib (Call.gp_camera_get_config w.m_camera) w).2).2).2

/-! ## The device registry (`src/gphotofactory.cpp`) -/

/-- One call of `GPhotoFactory` into libgphoto2, with the arguments it passes. -/
inductive FactoryCall
  | gp_context_new
  | gp_abilities_list_new
  | gp_abilities_list_load
  | gp_port_info_list_new
  | gp_port_info_list_load
  | gp_port_info_list_count
  | gp_list_new
  | gp_abilities_list_detect
  | gp_list_count
  | gp_list_get_name (index : Int)
  | gp_list_get_value (index : Int)
  | gp_list_free
  | gp_abilities_list_lookup_model (model : String)
  | gp_abilities_list_get_abilities (index : Int)
  | gp_port_info_list_lookup_path (path : String)
  | gp_port_info_list_get_info (index : Int)
  deriving DecidableEq, Repr

/-- The member variables of `GPhotoFactory` (handles are `true` when non-null; the cached
identifiers and descriptions are kept as strings, a default-constructed `QByteArray` and
`QString::null` being the empty string) together with the library state. -/
structure GPhotoFactory (L : Type) where
  lib : L
  m_context : Bool
  m_cameraAbilitiesList : Bool
  m_portInfoList : Bool
  m_cameraDevices : List String
  m_cameraDescriptions : List String
  m_defaultCameraDevice : String

/-- Perform one library call of the registry: advance the library state. -/
def fcall (g : L → FactoryCall → Reply × L) (c : FactoryCall) (f : GPhotoFactory L) :
    Reply × GPhotoFactory L :=
  ((g f.lib c).1, { f with lib := (g f.lib c).2 })

/-- Mirrors `initCameraAbilitiesList` (lines 98-111). -/
def initCameraAbilitiesList (g : L → FactoryCall → Reply × L) (f : GPhotoFactory L) :
    GPhotoFactory L :=
  let r := fcall g FactoryCall.gp_abilities_list_new f
  let f1 := { r.2 with m_cameraAbilitiesList := decide (r.1.handle ≠ 0) }
  if r.1.ret < GP_OK then f1 else
  (fcall g FactoryCall.gp_abilities_list_load f1).2

/-- Mirrors `initPortInfoList` (lines 113-132). -/
def initPortInfoList (g : L → FactoryCall → Reply × L) (f : GPhotoFactory L) :
    GPhotoFactory L :=
  let r := fcall g FactoryCall.gp_port_info_list_new f
  let f1 := { r.2 with m_portInfoList := decide (r.1.handle ≠ 0) }
  if r.1.ret < GP_OK then f1 else
  let r2 := fcall g FactoryCall.gp_port_info_list_load f1
  if r2.1.ret < GP_OK then r2.2 else
  (fcall g FactoryCall.gp_port_info_list_count r2.2).2

/-- The constructor of `GPhotoFactory` (lines 6-18), in library state `l`. -/
def GPhotoFactory.create (g : L → FactoryCall → Reply × L) (l : L) : GPhotoFactory L :=
  let r := g l FactoryCall.gp_context_new
  let f : GPhotoFactory L :=
    { lib := r.2
      m_context := decide (r.1.handle ≠ 0)
      m_cameraAbilitiesList := false
      m_portInfoList := false
      m_cameraDevices := []
      m_cameraDescriptions := []
      m_defaultCameraDevice := "" }
  if r.1.handle = 0 then f else
  initPortInfoList g (initCameraAbilitiesList g f)

/-- The `for` loop of `updateDevices` (lines 164-183): `n` rounds left, next index `i`. -/
def updateLoop (g : L → FactoryCall → Reply × L) :
    Nat → Int → GPhotoFactory L → GPhotoFactory L
  | 0, _, f => f
  | n + 1, i, f =>
    let r := fcall g (FactoryCall.gp_list_get_name i) f
    if r.1.ret < GP_OK then updateLoop g n (i + 1) r.2 else
    let v := fcall g (FactoryCall.gp_list_get_value i) r.2
    if v.1.ret < GP_OK then updateLoop g n (i + 1) v.2 else
    updateLoop g n (i + 1)
      { v.2 with
        m_cameraDevices := v.2.m_cameraDevices ++ [r.1.text]
        m_cameraDescriptions := v.2.m_cameraDescriptions ++ [v.1.text] }

/-- Mirrors `updateDevices` (lines 134-189); the mutex is not modelled, the queries are
taken one after the other. -/
def updateDevices (g : L → FactoryCall → Reply × L) (f : GPhotoFactory L) : GPhotoFactory L :=
  if f.m_cameraDevices ≠ [] then f else
  let f1 := { f with m_cameraDevices := [], m_cameraDescriptions := [] }
  let r := fcall g FactoryCall.gp_list_new f1
  if r.1.ret < GP_OK then r.2 else
  let r2 := fcall g FactoryCall.gp_abilities_list_detect r.2
  if r2.1.ret < GP_OK then (fcall g FactoryCall.gp_list_free r2.2).2 else
  let c := fcall g FactoryCall.gp_list_count r2.2
  if c.1.ret < GP_OK then (fcall g FactoryCall.gp_list_free c.2).2 else
  let f2 := updateLoop g c.1.ret.toNat 0 c.2
  let f3 := (fcall g FactoryCall.gp_list_free f2).2
  if f3.m_cameraDevices ≠ [] then
    { f3 with m_defaultCameraDevice := f3.m_cameraDevices.headD "" }
  else f3

/-- Mirrors `cameraDevices` (lines 27-31): the returned list and the factory afterwards. -/
def cameraDevices (g : L → FactoryCall → Reply × L) (f : GPhotoFactory L) :
    List String × GPhotoFactory L :=
  ((updateDevices g f).m_cameraDevices, updateDevices g f)

/-- Mirrors `cameraDescriptions` (lines 33-37). -/
def cameraDescriptions (g : L → FactoryCall → Reply × L) (f : GPhotoFactory L) :
    List String × GPhotoFactory L :=
  ((updateDevices g f).m_cameraDescriptions, updateDevices g f)

/-- Mirrors `defaultCameraDevice` (lines 39-43). -/
def defaultCameraDevice (g : L → FactoryCall → Reply × L) (f : GPhotoFactory L) :
    String × GPhotoFactory L :=
  ((updateDevices g f).m_defaultCameraDevice, updateDevices g f)

/-- The `for` loop of `cameraDescription` (lines 48-52): `n` rounds left, next index `i`.
`none` stands for an `at(i)` outside the list. -/
def descriptionLoop (cameraDevice : String) (devices descriptions : List String) :
    Nat → Nat → Option String
  | 0, _ => some ""
  | n + 1, i =>
    match devices[i]? with
    | none => none
    | some d =>
      if cameraDevice = d then descriptions[i]?
      else descriptionLoop cameraDevice devices descriptions n (i + 1)

/-- Mirrors `cameraDescription` (lines 45-53). -/
def cameraDescription (g : L → FactoryCall → Reply × L) (cameraDevice : String)
    (f : GPhotoFactory L) : Option String × GPhotoFactory L :=
  (descriptionLoop cameraDevice (updateDevices g f).m_cameraDevices
      (updateDevices g f).m_cameraDescriptions (updateDevices g f).m_cameraDevices.length 0,
    updateDevices g f)

/-- Mirrors `cameraAbilities` (lines 55-74): the `ok` flag and the factory afterwards. -/
def cameraAbilities (g : L → FactoryCall → Reply × L) (cameraDevice : String)
    (f : GPhotoFactory L) : Bool × GPhotoFactory L :=
  let r := fcall g (FactoryCall.gp_abilities_list_lookup_model cameraDevice) f
  if r.1.ret < GP_OK then (false, r.2) else
  let r2 := fcall g (FactoryCall.gp_abilities_list_get_abilities r.1.ret) r.2
  if r2.1.ret < GP_OK then (false, r2.2) else (true, r2.2)

/-- Mirrors `portInfo` (lines 76-96): the `ok` flag and the factory afterwards. -/
def portInfo (g : L → FactoryCall → Reply × L) (cameraDescription : String)
    (f : GPhotoFactory L) : Bool × GPhotoFactory L :=
  let r := fcall g (FactoryCall.gp_port_info_list_lookup_path cameraDescription) f
  if r.1.ret < GP_OK then (false, r.2) else
  let r2 := fcall g (FactoryCall.gp_port_info_list_get_info r.1.ret) r.2
  if r2.1.ret < GP_OK then (false, r2.2) else (true, r2.2)

/-- The queries a client can send to the registry. -/
inductive Query
  | cameraDevices
  | cameraDescriptions
  | defaultCameraDevice
  | cameraDescription (cameraDevice : String)
  | cameraAbilities (cameraDevice : String)
  | portInfo (cameraDescription : String)

/-- Answer one query: the factory afterwards. -/
def ask (g : L → FactoryCall → Reply × L) (f : GPhotoFactory L) : Query → GPhotoFactory L
  | Query.cameraDevices => (cameraDevices g f).2
  | Query.cameraDescriptions => (cameraDescriptions g f).2
  | Query.defaultCameraDevice => (defaultCameraDevice g f).2
  | Query.cameraDescription id => (cameraDescription g id f).2
  | Query.cameraAbilities id => (cameraAbilities g id f).2
  | Query.portInfo d => (portInfo g d f).2

/-- Answer a sequence of queries in order. -/
def askAll (g : L → FactoryCall → Reply × L) (f : GPhotoFactory L) (qs : List Query) :
    GPhotoFactory L :=
  qs.foldl (ask g) f

/-- The specification's reading of the detection loop: the (name, description) pairs of the
entries of the camera list, in order, an entry whose name lookup or value lookup fails
being left out.  `n` entries are left, the next index is `i`, the library is in state `l`. -/
def keptEntries (g : L → FactoryCall → Reply × L) : Nat → Int → L → List (String × String)
  | 0, _, _ => []
  | n + 1, i, l =>
    if (g l (FactoryCall.gp_list_get_name i)).1.ret < GP_OK then
      keptEntries g n (i + 1) (g l (FactoryCall.gp_list_get_name i)).2
    else if (g (g l (FactoryCall.gp_list_get_name i)).2
        (FactoryCall.gp_list_get_value i)).1.ret < GP_OK then
      keptEntries g n (i + 1)
        (g (g l (FactoryCall.gp_list_get_name i)).2 (FactoryCall.gp_list_get_value i)).2
    else
      ((g l (FactoryCall.gp_list_get_name i)).1.text,
        (g (g l (FactoryCall.gp_list_get_name i)).2 (FactoryCall.gp_list_get_value i)).1.text)
      :: keptEntries g n (i + 1)
        (g (g l (FactoryCall.gp_list_get_name i)).2 (FactoryCall.gp_list_get_value i)).2

/-- The cached lists have the same length and the cached default device is the first
identifier, or empty when there is none. -/
def Cached (f : GPhotoFactory L) : Prop :=
  f.m_cameraDevices.length = f.m_cameraDescriptions.length ∧
    f.m_defaultCameraDevice = f.m_cameraDevices.headD ""

/-- A mock camera list: for each entry the return code and result of the name lookup and of
the value lookup.  Every other call succeeds. -/
structure ListMock where
  entries : List ((Int × String) × (Int × String))

/-- The answers of the mock camera list. -/
def ListMock.call (m : ListMock) (c : FactoryCall) : Reply × ListMock :=
  match c with
  | FactoryCall.gp_context_new => ({ ret := GP_OK, handle := 1 }, m)
  | FactoryCall.gp_list_count => ({ ret := (m.entries.length : Int) }, m)
  | FactoryCall.gp_list_get_name i =>
    match m.entries[i.toNat]? with
    | some e => ({ ret := e.1.1, text := e.1.2 }, m)
    | none => (Reply.fail GP_ERROR_BAD_PARAMETERS, m)
  | FactoryCall.gp_list_get_value i =>
    match m.entries[i.toNat]? with
    | some e => ({ ret := e.2.1, text := e.2.2 }, m)
    | none => (Reply.fail GP_ERROR_BAD_PARAMETERS, m)
  | _ => ({ ret := GP_OK, handle := 1 }, m)

/-- A mock camera list with three cameras, the name lookup of the second failing. -/
def threeCameras : ListMock where
  entries := [((0, "Canon EOS 5D"), (0, "usb:001,004")), ((-1, "Broken"), (0, "usb:001,005")),
    ((0, "Nikon D90"), (0, "usb:001,006"))]

/-- A mock camera list without cameras. -/
def noCameras : ListMock where
  entries := []

/-! ## Frame lemmas -/

theorem Quiet.refl (w : Worker L) : Quiet w w :=
  ⟨rfl, rfl, rfl, rfl, rfl, [], by simp, by simp⟩

theorem Quiet.trans {a b c : Worker L} (h1 : Quiet a b) (h2 : Quiet b c) : Quiet a c := by
  obtain ⟨a1, a2, a3, a4, a5, cs1, a6, a7⟩ := h1
  obtain ⟨b1, b2, b3, b4, b5, cs2, b6, b7⟩ := h2
  refine ⟨b1.trans a1, b2.trans a2, b3.trans a3, b4.trans a4, b5.trans a5, cs1 ++ cs2, ?_, ?_⟩
  · rw [b6, a6, List.append_assoc]
  · intro e he
    rcases List.mem_append.1 he with h | h
    · exact a7 e h
    · exact b7 e h

theorem quiet_libcall (g : Library L) (c : Call) (hc : c.isConfig = true) (w : Worker L) :
    Quiet w (libcall g c w).2 :=
  ⟨rfl, rfl, rfl, rfl, rfl, [Ev.call c (libcall g c w).1.ret], rfl, by simpa [Ev.isConfigCall]⟩

theorem Quiet.filterMap_eq {α : Type} {w w' : Worker L} (h : Quiet w w') (f : Ev → Option α)
    (hf : ∀ e, e.isConfigCall = true → f e = none) :
    w'.trace.filterMap f = w.trace.filterMap f := by
  obtain ⟨-, -, -, -, -, cs, h1, h2⟩ := h
  rw [h1, List.filterMap_append]
  have : cs.filterMap f = [] := by
    rw [List.filterMap_eq_nil_iff]
    intro e he
    exact hf e (h2 e he)
  rw [this, List.append_nil]

theorem Quiet.signals_eq {w w' : Worker L} (h : Quiet w w') :
    signalsOf w'.trace = signalsOf w.trace :=
  h.filterMap_eq _ (by intro e he; cases e <;> simp_all [Ev.isConfigCall])

theorem Quiet.exits_eq {w w' : Worker L} (h : Quiet w w') :
    exitsOf w'.trace = exitsOf w.trace :=
  h.filterMap_eq _ (by
    intro e he
    cases e with
    | emit s => rfl
    | call c r => cases c <;> simp_all [Ev.isConfigCall, Call.isConfig])

theorem Quiet.previews_eq {w w' : Worker L} (h : Quiet w w') :
    previewsOf w'.trace = previewsOf w.trace :=
  h.filterMap_eq _ (by
    intro e he
    cases e with
    | emit s => rfl
    | call c r => cases c <;> simp_all [Ev.isConfigCall, Call.isConfig])

theorem Quiet.captures_eq {w w' : Worker L} (h : Quiet w w') :
    capturesOf w'.trace = capturesOf w.trace :=
  h.filterMap_eq _ (by
    intro e he
    cases e with
    | emit s => rfl
    | call c r => cases c <;> simp_all [Ev.isConfigCall, Call.isConfig])

theorem Quiet.downloads_eq {w w' : Worker L} (h : Quiet w w') :
    downloadsOf w'.trace = downloadsOf w.trace :=
  h.filterMap_eq _ (by
    intro e he
    cases e with
    | emit s => rfl
    | call c r => cases c <;> simp_all [Ev.isConfigCall, Call.isConfig])

theorem quiet_step (g : Library L) {w a : Worker L} (c : Call) (h : Quiet w a)
    (hc : c.isConfig = true) : Quiet w (libcall g c a).2 :=
  h.trans (quiet_libcall g c hc a)

theorem quiet_waitLoop (g : Library L) (fuel : Nat) {w a : Worker L} (h : Quiet w a) :
    Quiet w (waitLoop g fuel a) := by
  induction fuel generalizing a with
  | zero => exact h
  | succ n ih =>
    simp only [waitLoop]
    split
    · exact ih (quiet_step g _ h (by rfl))
    · exact quiet_step g _ h (by rfl)

theorem quiet_drainLoop (g : Library L) (fuel : Nat) {w a : Worker L} (h : Quiet w a) :
    Quiet w (drainLoop g fuel a) := by
  induction fuel generalizing a with
  | zero => exact h
  | succ n ih =>
    simp only [drainLoop]
    split
    · exact quiet_step g _ h (by rfl)
    · exact ih (quiet_step g _ h (by rfl))

theorem quiet_pushConfig (g : Library L) (root : Nat) {w a : Worker L} (h : Quiet w a) :
    Quiet w (pushConfig g root a).2 := by
  simp only [pushConfig]
  split
  · exact quiet_step g _ h (by rfl)
  · exact quiet_waitLoop g _ (quiet_step g _ h (by rfl))

theorem quiet_parameter (g : Library L) (name : String) {w a : Worker L} (h : Quiet w a) :
    Quiet w ((parameter g name a : QVariant D × Worker L)).2 := by
  simp only [parameter]
  split_ifs <;>
    repeat first
      | exact h
      | refine quiet_step g _ ?_ (by rfl)

theorem quiet_setRadioDouble (g : Library L) (qt : Qt D) (root option : Nat) (v : D)
    (n : Nat) (i : Int) {w a : Worker L} (h : Quiet w a) :
    Quiet w (setRadioDouble g qt root option v n i a).2 := by
  induction n generalizing i a with
  | zero => exact h
  | succ n ih =>
    simp only [setRadioDouble]
    split
    · exact ih _ (quiet_step g _ h (by rfl))
    · split_ifs
      · exact quiet_step g _ (quiet_step g _ h (by rfl)) (by rfl)
      · exact quiet_pushConfig g _ (quiet_step g _ (quiet_step g _ h (by rfl)) (by rfl))
      · exact ih _ (quiet_step g _ h (by rfl))

theorem quiet_setRadioInt (g : Library L) (qt : Qt D) (root option : Nat) (v : Int)
    (n : Nat) (i : Int) {w a : Worker L} (h : Quiet w a) :
    Quiet w (setRadioInt g qt root option v n i a).2 := by
  induction n generalizing i a with
  | zero => exact h
  | succ n ih =>
    simp only [setRadioInt]
    split_ifs
    · exact quiet_step g _ (quiet_step g _ h (by rfl)) (by rfl)
    · exact quiet_pushConfig g _ (quiet_step g _ (quiet_step g _ h (by rfl)) (by rfl))
    · exact ih _ (quiet_step g _ h (by rfl))

theorem quiet_setParameter (g : Library L) (qt : Qt D) (name : String) (value : QVariant D)
    {w a : Worker L} (h : Quiet w a) :
    Quiet w (setParameter g qt name value a).2 := by
  simp only [setParameter]
  repeat' split
  all_goals
    repeat first
      | exact h
      | refine quiet_step g _ ?_ (by rfl)
      | refine quiet_pushConfig g _ ?_
      | refine quiet_setRadioDouble g qt _ _ _ _ _ ?_
      | refine quiet_setRadioInt g qt _ _ _ _ _ ?_

/-- The mirror step shared by `openCamera` and `capturePhoto`: read the parameter and, when
it exists, write it. -/
theorem quiet_flap (g : Library L) (qt : Qt D) (name : String) (value : QVariant D)
    {w a : Worker L} (h : Quiet w a) :
    Quiet w (if (parameter g name a : QVariant D × Worker L).1.isValid = true then
        (setParameter g qt name value (parameter g name a : QVariant D × Worker L).2).2
      else (parameter g name a : QVariant D × Worker L).2) := by
  split
  · exact quiet_setParameter g qt _ _ (quiet_parameter g _ h)
  · exact quiet_parameter g _ h

/-! ## Projections through the primitive steps -/

@[simp] theorem emit_lib (s : Signal) (w : Worker L) : (emit s w).lib = w.lib := rfl
@[simp] theorem emit_m_context (s : Signal) (w : Worker L) :
    (emit s w).m_context = w.m_context := rfl
@[simp] theorem emit_m_camera (s : Signal) (w : Worker L) :
    (emit s w).m_camera = w.m_camera := rfl
@[simp] theorem emit_m_file (s : Signal) (w : Worker L) : (emit s w).m_file = w.m_file := rfl
@[simp] theorem emit_m_capturingFailCount (s : Signal) (w : Worker L) :
    (emit s w).m_capturingFailCount = w.m_capturingFailCount := rfl
@[simp] theorem emit_m_status (s : Signal) (w : Worker L) :
    (emit s w).m_status = w.m_status := rfl
@[simp] theorem emit_trace (s : Signal) (w : Worker L) :
    (emit s w).trace = w.trace ++ [Ev.emit s] := rfl

@[simp] theorem libcall_m_context (g : Library L) (c : Call) (w : Worker L) :
    (libcall g c w).2.m_context = w.m_context := rfl
@[simp] theorem libcall_m_camera (g : Library L) (c : Call) (w : Worker L) :
    (libcall g c w).2.m_camera = w.m_camera := rfl
@[simp] theorem libcall_m_file (g : Library L) (c : Call) (w : Worker L) :
    (libcall g c w).2.m_file = w.m_file := rfl
@[simp] theorem libcall_m_capturingFailCount (g : Library L) (c : Call) (w : Worker L) :
    (libcall g c w).2.m_capturingFailCount = w.m_capturingFailCount := rfl
@[simp] theorem libcall_m_status (g : Library L) (c : Call) (w : Worker L) :
    (libcall g c w).2.m_status = w.m_status := rfl
@[simp] theorem libcall_trace (g : Library L) (c : Call) (w : Worker L) :
    (libcall g c w).2.trace = w.trace ++ [Ev.call c (libcall g c w).1.ret] := rfl

@[simp] theorem signalsOf_append (s t : List Ev) :
    signalsOf (s ++ t) = signalsOf s ++ signalsOf t := by
  simp [signalsOf, List.filterMap_append]
@[simp] theorem exitsOf_append (s t : List Ev) :
    exitsOf (s ++ t) = exitsOf s ++ exitsOf t := by
  simp [exitsOf, List.filterMap_append]
@[simp] theorem previewsOf_append (s t : List Ev) :
    previewsOf (s ++ t) = previewsOf s ++ previewsOf t := by
  simp [previewsOf, List.filterMap_append]
@[simp] theorem capturesOf_append (s t : List Ev) :
    capturesOf (s ++ t) = capturesOf s ++ capturesOf t := by
  simp [capturesOf, List.filterMap_append]
@[simp] theorem downloadsOf_append (s t : List Ev) :
    downloadsOf (s ++ t) = downloadsOf s ++ downloadsOf t := by
  simp [downloadsOf, List.filterMap_append]
@[simp] theorem writesOf_append (s t : List Ev) :
    writesOf (s ++ t) = writesOf s ++ writesOf t := by
  simp [writesOf, List.filterMap_append]
@[simp] theorem pushesOf_append (s t : List Ev) :
    pushesOf (s ++ t) = pushesOf s ++ pushesOf t := by
  simp [pushesOf, List.filterMap_append]

@[simp] theorem signalsOf_nil : signalsOf [] = [] := rfl
@[simp] theorem exitsOf_nil : exitsOf [] = [] := rfl
@[simp] theorem previewsOf_nil : previewsOf [] = [] := rfl
@[simp] theorem capturesOf_nil : capturesOf [] = [] := rfl
@[simp] theorem downloadsOf_nil : downloadsOf [] = [] := rfl
@[simp] theorem writesOf_nil : writesOf [] = [] := rfl
@[simp] theorem pushesOf_nil : pushesOf [] = [] := rfl

@[simp] theorem signalsOf_call (c : Call) (r : Int) (t : List Ev) :
    signalsOf (Ev.call c r :: t) = signalsOf t := rfl
@[simp] theorem exitsOf_call (c : Call) (r : Int) (t : List Ev) :
    exitsOf (Ev.call c r :: t) = (if c = Call.gp_camera_exit then [r] else []) ++ exitsOf t := by
  cases c <;> simp [exitsOf]
@[simp] theorem previewsOf_call (c : Call) (r : Int) (t : List Ev) :
    previewsOf (Ev.call c r :: t)
      = (match c with
          | Call.gp_camera_capture_preview _ => [r]
          | _ => []) ++ previewsOf t := by
  cases c <;> simp [previewsOf]
@[simp] theorem capturesOf_call (c : Call) (r : Int) (t : List Ev) :
    capturesOf (Ev.call c r :: t)
      = (match c with
          | Call.gp_camera_capture _ => [r]
          | _ => []) ++ capturesOf t := by
  cases c <;> simp [capturesOf]
@[simp] theorem downloadsOf_call (c : Call) (r : Int) (t : List Ev) :
    downloadsOf (Ev.call c r :: t)
      = (match c with
          | Call.gp_camera_file_get _ _ _ => [r]
          | _ => []) ++ downloadsOf t := by
  cases c <;> simp [downloadsOf]
@[simp] theorem writesOf_call (c : Call) (r : Int) (t : List Ev) :
    writesOf (Ev.call c r :: t)
      = (match c with
          | Call.gp_widget_set_value_str _ v => [v]
          | _ => []) ++ writesOf t := by
  cases c <;> simp [writesOf]
@[simp] theorem pushesOf_call (c : Call) (r : Int) (t : List Ev) :
    pushesOf (Ev.call c r :: t)
      = (match c with
          | Call.gp_camera_set_config _ _ => [r]
          | _ => []) ++ pushesOf t := by
  cases c <;> simp [pushesOf]

@[simp] theorem signalsOf_emit (s : Signal) (t : List Ev) :
    signalsOf (Ev.emit s :: t) = s :: signalsOf t := rfl
@[simp] theorem exitsOf_emit (s : Signal) (t : List Ev) :
    exitsOf (Ev.emit s :: t) = exitsOf t := rfl
@[simp] theorem previewsOf_emit (s : Signal) (t : List Ev) :
    previewsOf (Ev.emit s :: t) = previewsOf t := rfl
@[simp] theorem capturesOf_emit (s : Signal) (t : List Ev) :
    capturesOf (Ev.emit s :: t) = capturesOf t := rfl
@[simp] theorem downloadsOf_emit (s : Signal) (t : List Ev) :
    downloadsOf (Ev.emit s :: t) = downloadsOf t := rfl
@[simp] theorem writesOf_emit (s : Signal) (t : List Ev) :
    writesOf (Ev.emit s :: t) = writesOf t := rfl
@[simp] theorem pushesOf_emit (s : Signal) (t : List Ev) :
    pushesOf (Ev.emit s :: t) = pushesOf t := rfl

section QuietProjections

variable (g : Library L) (qt : Qt D) (name : String) (value : QVariant D) (w : Worker L)

@[simp] theorem parameter_m_camera :
    (parameter g name w : QVariant D × Worker L).2.m_camera = w.m_camera :=
  (quiet_parameter g name (Quiet.refl w)).2.1
@[simp] theorem parameter_m_capturingFailCount :
    (parameter g name w : QVariant D × Worker L).2.m_capturingFailCount
      = w.m_capturingFailCount :=
  (quiet_parameter g name (Quiet.refl w)).2.2.2.1
@[simp] theorem parameter_m_status :
    (parameter g name w : QVariant D × Worker L).2.m_status = w.m_status :=
  (quiet_parameter g name (Quiet.refl w)).2.2.2.2.1
@[simp] theorem parameter_signals :
    signalsOf (parameter g name w : QVariant D × Worker L).2.trace = signalsOf w.trace :=
  (quiet_parameter g name (Quiet.refl w)).signals_eq
@[simp] theorem parameter_exits :
    exitsOf (parameter g name w : QVariant D × Worker L).2.trace = exitsOf w.trace :=
  (quiet_parameter g name (Quiet.refl w)).exits_eq
@[simp] theorem parameter_previews :
    previewsOf (parameter g name w : QVariant D × Worker L).2.trace = previewsOf w.trace :=
  (quiet_parameter g name (Quiet.refl w)).previews_eq
@[simp] theorem parameter_captures :
    capturesOf (parameter g name w : QVariant D × Worker L).2.trace = capturesOf w.trace :=
  (quiet_parameter g name (Quiet.refl w)).captures_eq
@[simp] theorem parameter_downloads :
    downloadsOf (parameter g name w : QVariant D × Worker L).2.trace = downloadsOf w.trace :=
  (quiet_parameter g name (Quiet.refl w)).downloads_eq

@[simp] theorem setParameter_m_camera :
    (setParameter g qt name value w).2.m_camera = w.m_camera :=
  (quiet_setParameter g qt name value (Quiet.refl w)).2.1
@[simp] theorem setParameter_m_capturingFailCount :
    (setParameter g qt name value w).2.m_capturingFailCount = w.m_capturingFailCount :=
  (quiet_setParameter g qt name value (Quiet.refl w)).2.2.2.1
@[simp] theorem setParameter_m_status :
    (setParameter g qt name value w).2.m_status = w.m_status :=
  (quiet_setParameter g qt name value (Quiet.refl w)).2.2.2.2.1
@[simp] theorem setParameter_signals :
    signalsOf (setParameter g qt name value w).2.trace = signalsOf w.trace :=
  (quiet_setParameter g qt name value (Quiet.refl w)).signals_eq
@[simp] theorem setParameter_exits :
    exitsOf (setParameter g qt name value w).2.trace = exitsOf w.trace :=
  (quiet_setParameter g qt name value (Quiet.refl w)).exits_eq
@[simp] theorem setParameter_previews :
    previewsOf (setParameter g qt name value w).2.trace = previewsOf w.trace :=
  (quiet_setParameter g qt name value (Quiet.refl w)).previews_eq
@[simp] theorem setParameter_captures :
    capturesOf (setParameter g qt name value w).2.trace = capturesOf w.trace :=
  (quiet_setParameter g qt name value (Quiet.refl w)).captures_eq
@[simp] theorem setParameter_downloads :
    downloadsOf (setParameter g qt name value w).2.trace = downloadsOf w.trace :=
  (quiet_setParameter g qt name value (Quiet.refl w)).downloads_eq

@[simp] theorem drainLoop_m_camera (fuel : Nat) :
    (drainLoop g fuel w).m_camera = w.m_camera :=
  (quiet_drainLoop g fuel (Quiet.refl w)).2.1
@[simp] theorem drainLoop_m_capturingFailCount (fuel : Nat) :
    (drainLoop g fuel w).m_capturingFailCount = w.m_capturingFailCount :=
  (quiet_drainLoop g fuel (Quiet.refl w)).2.2.2.1
@[simp] theorem drainLoop_m_status (fuel : Nat) :
    (drainLoop g fuel w).m_status = w.m_status :=
  (quiet_drainLoop g fuel (Quiet.refl w)).2.2.2.2.1
@[simp] theorem drainLoop_signals (fuel : Nat) :
    signalsOf (drainLoop g fuel w).trace = signalsOf w.trace :=
  (quiet_drainLoop g fuel (Quiet.refl w)).signals_eq
@[simp] theorem drainLoop_exits (fuel : Nat) :
    exitsOf (drainLoop g fuel w).trace = exitsOf w.trace :=
  (quiet_drainLoop g fuel (Quiet.refl w)).exits_eq
@[simp] theorem drainLoop_previews (fuel : Nat) :
    previewsOf (drainLoop g fuel w).trace = previewsOf w.trace :=
  (quiet_drainLoop g fuel (Quiet.refl w)).previews_eq
@[simp] theorem drainLoop_captures (fuel : Nat) :
    capturesOf (drainLoop g fuel w).trace = capturesOf w.trace :=
  (quiet_drainLoop g fuel (Quiet.refl w)).captures_eq
@[simp] theorem drainLoop_downloads (fuel : Nat) :
    downloadsOf (drainLoop g fuel w).trace = downloadsOf w.trace :=
  (quiet_drainLoop g fuel (Quiet.refl w)).downloads_eq

end QuietProjections

@[simp] theorem openCameraErrorHandle_m_camera (g : Library L) (w : Worker L) :
    (openCameraErrorHandle g w).m_camera = false := rfl
@[simp] theorem openCameraErrorHandle_m_status (g : Library L) (w : Worker L) :
    (openCameraErrorHandle g w).m_status = Status.UnavailableStatus := rfl
@[simp] theorem openCameraErrorHandle_m_capturingFailCount (g : Library L) (w : Worker L) :
    (openCameraErrorHandle g w).m_capturingFailCount = w.m_capturingFailCount := rfl
@[simp] theorem openCameraErrorHandle_exits (g : Library L) (w : Worker L) :
    exitsOf (openCameraErrorHandle g w).trace = exitsOf w.trace := by
  simp [openCameraErrorHandle]
@[simp] theorem openCameraErrorHandle_previews (g : Library L) (w : Worker L) :
    previewsOf (openCameraErrorHandle g w).trace = previewsOf w.trace := by
  simp [openCameraErrorHandle]

/-! ## What each command does to the member variables -/

theorem openCamera_of_open (g : Library L) (qt : Qt D) (w : Worker L)
    (h : w.m_camera = true) : openCamera g qt w = w := by
  simp [openCamera, h]

theorem closeCamera_of_closed (g : Library L) (w : Worker L)
    (h : w.m_camera = false) : closeCamera g w = w := by
  simp [closeCamera, h]

/-- From a closed worker `openCamera` ends either unavailable without a handle (counter
untouched) or loaded with a handle (counter reset); it calls neither `gp_camera_exit` nor
`gp_camera_capture_preview`. -/
theorem openCamera_of_closed (g : Library L) (qt : Qt D) (w : Worker L)
    (h : w.m_camera = false) :
    ((openCamera g qt w).m_camera = false ∧
      (openCamera g qt w).m_status = Status.UnavailableStatus ∧
      (openCamera g qt w).m_capturingFailCount = w.m_capturingFailCount ∧
      exitsOf (openCamera g qt w).trace = exitsOf w.trace ∧
      previewsOf (openCamera g qt w).trace = previewsOf w.trace) ∨
    ((openCamera g qt w).m_camera = true ∧
      (openCamera g qt w).m_status = Status.LoadedStatus ∧
      (openCamera g qt w).m_capturingFailCount = 0 ∧
      exitsOf (openCamera g qt w).trace = exitsOf w.trace ∧
      previewsOf (openCamera g qt w).trace = previewsOf w.trace) := by
  simp only [openCamera, h]
  simp only [Bool.false_eq_true, if_false]
  split_ifs with h1 h2 h3 h4 h5
  all_goals first
    | (left; simp; done)
    | (right; simp at h1; simp [h1])

/-- With a handle, `closeCamera` calls `gp_camera_exit` exactly once; the handle is released
and the status becomes `UnloadedStatus` when that call returns `GP_OK`, and the handle is
kept with status `LoadedStatus` otherwise. -/
theorem closeCamera_of_open (g : Library L) (w : Worker L) (h : w.m_camera = true) :
    ∃ e : Int, exitsOf (closeCamera g w).trace = exitsOf w.trace ++ [e] ∧
      previewsOf (closeCamera g w).trace = previewsOf w.trace ∧
      (closeCamera g w).m_capturingFailCount = w.m_capturingFailCount ∧
      (e = GP_OK → (closeCamera g w).m_camera = false ∧
        (closeCamera g w).m_status = Status.UnloadedStatus) ∧
      (e ≠ GP_OK → (closeCamera g w).m_camera = true ∧
        (closeCamera g w).m_status = Status.LoadedStatus) := by
  refine ⟨(libcall g Call.gp_camera_exit (emit (Signal.statusChanged Status.UnloadingStatus)
    { w with m_status := Status.UnloadingStatus })).1.ret, ?_⟩
  simp only [closeCamera, h, not_true_eq_false, if_false]
  split_ifs with h2
  · simp [h2, h]
  · simp only [ne_eq, not_not] at h2
    simp [h2]

theorem good_of_closed (w : Worker L) (h : w.m_camera = false) : Good w := by
  simp [Good, h]

theorem good_construct (g : Library L) (l : L) : Good (construct g l) :=
  good_of_closed _ rfl

theorem good_openCamera (g : Library L) (qt : Qt D) (w : Worker L) (hw : Good w) :
    Good (openCamera g qt w) := by
  cases h : w.m_camera with
  | true => rw [openCamera_of_open g qt w h]; exact hw
  | false =>
    rcases openCamera_of_closed g qt w h with ⟨h1, -⟩ | ⟨-, h2, -⟩
    · exact good_of_closed _ h1
    · intro _; exact Or.inl h2

theorem good_closeCamera (g : Library L) (w : Worker L) : Good (closeCamera g w) := by
  cases h : w.m_camera with
  | false => rw [closeCamera_of_closed g w h]; exact good_of_closed _ h
  | true =>
    obtain ⟨e, -, -, -, h1, h2⟩ := closeCamera_of_open g w h
    by_cases he : e = GP_OK
    · exact good_of_closed _ (h1 he).1
    · intro _; exact Or.inl (h2 he).2

theorem good_emit (s : Signal) (w : Worker L) (hw : Good w) : Good (emit s w) := hw

theorem good_stopViewFinder (w : Worker L) : Good (stopViewFinder w) := by
  intro _; exact Or.inl rfl

theorem good_capturePreview (g : Library L) (qt : Qt D) (w : Worker L) :
    Good (capturePreview g qt w) := by
  simp only [capturePreview]
  split_ifs
  · exact good_emit _ _ (good_closeCamera g _)
  · intro _; simp
  · intro _; simp
  · intro _; simp_all
  · exact good_emit _ _ (good_closeCamera g _)
  · intro _; simp_all
  · intro _; simp
  · intro _; simp_all

theorem quiet_focusPhase (g : Library L) (qt : Qt D) {w a : Worker L} (h : Quiet w a) :
    Quiet w (focusPhase g qt a) := by
  simp only [focusPhase]
  split
  · exact quiet_setParameter g qt _ _ (quiet_parameter g _ h)
  · exact quiet_flap g qt _ _ (quiet_parameter g _ h)

theorem quiet_mirrorUp (g : Library L) (qt : Qt D) {w a : Worker L} (h : Quiet w a) :
    Quiet w (mirrorUp g qt a) := by
  simp only [mirrorUp]
  exact quiet_flap g qt _ _ h

/-- What `shootPhase` leaves alone. -/
theorem shootPhase_frame (g : Library L) (id : Int) (fileName : String) (w : Worker L) :
    (shootPhase g id fileName w).m_camera = w.m_camera ∧
    (shootPhase g id fileName w).m_status = w.m_status ∧
    (shootPhase g id fileName w).m_capturingFailCount = w.m_capturingFailCount ∧
    exitsOf (shootPhase g id fileName w).trace = exitsOf w.trace ∧
    previewsOf (shootPhase g id fileName w).trace = previewsOf w.trace := by
  simp only [shootPhase]
  split_ifs <;> simp

/-- The camera handle, status and failure counter are untouched by `capturePhoto`, which
calls neither `gp_camera_exit` nor `gp_camera_capture_preview`. -/
theorem capturePhoto_frame (g : Library L) (qt : Qt D) (id : Int) (fileName : String)
    (w : Worker L) :
    (capturePhoto g qt id fileName w).m_camera = w.m_camera ∧
    (capturePhoto g qt id fileName w).m_status = w.m_status ∧
    (capturePhoto g qt id fileName w).m_capturingFailCount = w.m_capturingFailCount ∧
    exitsOf (capturePhoto g qt id fileName w).trace = exitsOf w.trace ∧
    previewsOf (capturePhoto g qt id fileName w).trace = previewsOf w.trace := by
  have h1 := quiet_focusPhase g qt (Quiet.refl w)
  have h2 := shootPhase_frame g id fileName (focusPhase g qt w)
  have h3 := quiet_mirrorUp g qt (Quiet.refl (shootPhase g id fileName (focusPhase g qt w)))
  obtain ⟨a1, a2, a3, a4, a5⟩ := h2
  refine ⟨?_, ?_, ?_, ?_, ?_⟩
  · exact h3.2.1.trans (a1.trans h1.2.1)
  · exact h3.2.2.2.2.1.trans (a2.trans h1.2.2.2.2.1)
  · exact h3.2.2.2.1.trans (a3.trans h1.2.2.2.1)
  · exact h3.exits_eq.trans (a4.trans h1.exits_eq)
  · exact h3.previews_eq.trans (a5.trans h1.previews_eq)

/-! ## The handle/status invariant (C1) -/

theorem exact_of_closed (w : Worker L) (h : w.m_camera = false)
    (hs : w.m_status = Status.UnloadedStatus ∨ w.m_status = Status.UnavailableStatus) :
    Exact w := by
  rcases hs with hs | hs <;> simp [Exact, openStatus, h, hs]

theorem exact_of_open (w : Worker L) (h : w.m_camera = true)
    (hs : w.m_status = Status.LoadedStatus ∨ w.m_status = Status.StartingStatus ∨
      w.m_status = Status.ActiveStatus) : Exact w := by
  rcases hs with hs | hs | hs <;> simp [Exact, openStatus, h, hs]

theorem exact_construct (g : Library L) (l : L) : Exact (construct g l) := by
  apply exact_of_closed _ rfl
  simp only [construct]
  split_ifs <;> simp

theorem exact_openCamera (g : Library L) (qt : Qt D) (w : Worker L) (hw : Exact w) :
    Exact (openCamera g qt w) := by
  cases h : w.m_camera with
  | true => rw [openCamera_of_open g qt w h]; exact hw
  | false =>
    rcases openCamera_of_closed g qt w h with ⟨h1, h2, -⟩ | ⟨h1, h2, -⟩
    · exact exact_of_closed _ h1 (Or.inr h2)
    · exact exact_of_open _ h1 (Or.inl h2)

theorem exact_closeCamera_of_open (g : Library L) (w : Worker L) (h : w.m_camera = true) :
    Exact (closeCamera g w) := by
  obtain ⟨e, -, -, -, h1, h2⟩ := closeCamera_of_open g w h
  by_cases he : e = GP_OK
  · exact exact_of_closed _ (h1 he).1 (Or.inl (h1 he).2)
  · exact exact_of_open _ (h2 he).1 (Or.inl (h2 he).2)

theorem exact_closeCamera (g : Library L) (w : Worker L) (hw : Exact w) :
    Exact (closeCamera g w) := by
  cases h : w.m_camera with
  | false => rw [closeCamera_of_closed g w h]; exact hw
  | true => exact exact_closeCamera_of_open g w h

theorem exact_emit (s : Signal) (w : Worker L) (hw : Exact w) : Exact (emit s w) := hw

theorem exact_capturePreview (g : Library L) (qt : Qt D) (w : Worker L)
    (h : (openCamera g qt w).m_camera = true) : Exact (capturePreview g qt w) := by
  simp only [capturePreview]
  split_ifs
  · exact exact_emit _ _ (exact_closeCamera_of_open g _ (by simpa using h))
  · exact exact_of_open _ (by simpa using h) (by simp)
  · exact exact_of_open _ (by simpa using h) (by simp)
  · exact exact_of_open _ (by simpa using h) (by simp)
  · exact exact_emit _ _ (exact_closeCamera_of_open g _ (by simpa using h))
  · exact exact_of_open _ (by simpa using h) (by simp_all)
  · exact exact_of_open _ (by simpa using h) (by simp)
  · exact exact_of_open _ (by simpa using h) (by simp_all)

theorem good_step (g : Library L) (qt : Qt D) (w : Worker L) (c : Command D) (hw : Good w) :
    Good (step g qt w c) := by
  cases c with
  | openCamera => exact good_openCamera g qt w hw
  | closeCamera => exact good_closeCamera g w
  | capturePreview => exact good_capturePreview g qt w
  | capturePhoto id fileName =>
    obtain ⟨h1, h2, -⟩ := capturePhoto_frame g qt id fileName w
    simpa [Good, step, h1, h2] using hw
  | stopViewFinder => exact good_stopViewFinder w
  | parameter name => simpa [Good, step] using hw
  | setParameter name value => simpa [Good, step] using hw

theorem good_run (g : Library L) (qt : Qt D) (cmds : List (Command D)) (w : Worker L)
    (hw : Good w) : Good (run g qt w cmds) := by
  induction cmds generalizing w with
  | nil => exact hw
  | cons c cs ih => exact ih _ (good_step g qt w c hw)

theorem exact_run (g : Library L) (qt : Qt D) (cmds : List (Command D)) (w : Worker L)
    (hw : Exact w) (hg : viewFinderGuarded g qt w cmds = true) : Exact (run g qt w cmds) := by
  induction cmds generalizing w with
  | nil => exact hw
  | cons c cs ih =>
    simp only [viewFinderGuarded, Bool.and_eq_true] at hg
    refine ih _ ?_ hg.2
    cases c with
    | openCamera => exact exact_openCamera g qt w hw
    | closeCamera => exact exact_closeCamera g w hw
    | capturePreview => exact exact_capturePreview g qt w hg.1
    | capturePhoto id fileName =>
      obtain ⟨h1, h2, -⟩ := capturePhoto_frame g qt id fileName w
      simpa [Exact, step, h1, h2] using hw
    | stopViewFinder =>
      exact exact_of_open _ (by simpa [stopViewFinder] using hg.1) (Or.inl rfl)
    | parameter name => simpa [Exact, step] using hw
    | setParameter name value => simpa [Exact, step] using hw

/-- C1 (amended): for every command sequence from a freshly constructed worker and every
library, a non-null `m_camera` implies that `m_status` is one of Loaded, Starting, Active,
Stopping; and the equivalence holds in full along every run in which `stopViewFinder` is
only issued with a camera handle and `capturePreview` has a handle after its `openCamera`. -/
theorem C1_handle_implies_open_status (g : Library L) (qt : Qt D) (l : L)
    (cmds : List (Command D)) :
    ((run g qt (construct g l) cmds).m_camera = true →
      openStatus (run g qt (construct g l) cmds).m_status) ∧
    (viewFinderGuarded g qt (construct g l) cmds = true →
      ((run g qt (construct g l) cmds).m_camera = true ↔
        openStatus (run g qt (construct g l) cmds).m_status)) := by
  refine ⟨fun h => ?_, fun hg => exact_run g qt cmds _ (exact_construct g l) hg⟩
  rcases good_run g qt cmds _ (good_construct g l) h with h1 | h1 | h1 <;>
    simp [openStatus, h1]

/-- C1 witness: open, preview, stop the view finder on a camera where every call succeeds. -/
theorem C1_handle_implies_open_status_witness :
    (run mockLib mockQt (construct mockLib mock0)
      [Command.openCamera, Command.capturePreview, Command.stopViewFinder]).m_camera = true ∧
    openStatus (run mockLib mockQt (construct mockLib mock0)
      [Command.openCamera, Command.capturePreview, Command.stopViewFinder]).m_status ∧
    viewFinderGuarded mockLib mockQt (construct mockLib mock0)
      [Command.openCamera, Command.capturePreview, Command.stopViewFinder] = true ∧
    ((run mockLib mockQt (construct mockLib mock0)
      [Command.openCamera, Command.capturePreview, Command.stopViewFinder]).m_camera = true ↔
    openStatus (run mockLib mockQt (construct mockLib mock0)
      [Command.openCamera, Command.capturePreview, Command.stopViewFinder]).m_status) :=
  ⟨by decide,
   (C1_handle_implies_open_status mockLib mockQt mock0
      [Command.openCamera, Command.capturePreview, Command.stopViewFinder]).1 (by decide),
   by decide,
   (C1_handle_implies_open_status mockLib mockQt mock0
      [Command.openCamera, Command.capturePreview, Command.stopViewFinder]).2 (by decide)⟩

/-- C1 counterexample: `stopViewFinder` on a fresh worker leaves status Loaded with a null
handle, and `capturePreview` on a camera that cannot be opened leaves status Starting with
a null handle. -/
theorem C1_counterexample :
    ¬ ((run mockLib mockQt (construct mockLib mock0) [Command.stopViewFinder]).m_camera = true ↔
        openStatus
          (run mockLib mockQt (construct mockLib mock0) [Command.stopViewFinder]).m_status) ∧
    ¬ ((run mockLib mockQt (construct mockLib mockNoCamera)
          [Command.capturePreview]).m_camera = true ↔
        openStatus (run mockLib mockQt (construct mockLib mockNoCamera)
          [Command.capturePreview]).m_status) := by
  constructor <;> decide

/-! ## `closeCamera` and `capturePreview` with a camera handle -/

@[simp] theorem libcall_fst (g : Library L) (c : Call) (w : Worker L) :
    (libcall g c w).1 = (g.call w.lib c).1 := rfl
@[simp] theorem libcall_lib (g : Library L) (c : Call) (w : Worker L) :
    (libcall g c w).2.lib = (g.call w.lib c).2 := rfl

@[simp] theorem closeCamera_m_capturingFailCount (g : Library L) (w : Worker L) :
    (closeCamera g w).m_capturingFailCount = w.m_capturingFailCount := by
  simp only [closeCamera]
  split_ifs <;> simp

@[simp] theorem closeCamera_previews (g : Library L) (w : Worker L) :
    previewsOf (closeCamera g w).trace = previewsOf w.trace := by
  simp only [closeCamera]
  split_ifs <;> simp

theorem closeCamera_exits (g : Library L) (w : Worker L) (h : w.m_camera = true) :
    exitsOf (closeCamera g w).trace = exitsOf w.trace ++ [exitRet g w.lib] := by
  simp only [closeCamera, h, not_true_eq_false, if_false]
  split_ifs <;> simp [exitRet]

theorem closeCamera_ok (g : Library L) (w : Worker L) (h : w.m_camera = true)
    (he : exitRet g w.lib = GP_OK) :
    (closeCamera g w).m_camera = false ∧ (closeCamera g w).m_status = Status.UnloadedStatus := by
  simp only [closeCamera, h, not_true_eq_false, if_false]
  simp only [exitRet] at he
  simp [he]

theorem closeCamera_failed (g : Library L) (w : Worker L) (h : w.m_camera = true)
    (he : exitRet g w.lib ≠ GP_OK) :
    (closeCamera g w).m_camera = true ∧ (closeCamera g w).m_status = Status.LoadedStatus := by
  simp only [closeCamera, h, not_true_eq_false, if_false]
  simp only [exitRet] at he
  simp [he, h]

theorem closeCamera_summary (g : Library L) (w : Worker L) (t : List Int)
    (h : w.m_camera = true) (ht : exitsOf w.trace = t) :
    ∃ e : Int, exitsOf (closeCamera g w).trace = t ++ [e] ∧
      (e = GP_OK → (closeCamera g w).m_camera = false ∧
        (closeCamera g w).m_status = Status.UnloadedStatus) ∧
      (¬ e = GP_OK → (closeCamera g w).m_camera = true ∧
        (closeCamera g w).m_status = Status.LoadedStatus) :=
  ⟨exitRet g w.lib, by rw [closeCamera_exits g w h, ht], closeCamera_ok g w h,
    closeCamera_failed g w h⟩

/-- One `capturePreview` on a worker that holds a camera handle. -/
theorem capturePreview_of_open (g : Library L) (qt : Qt D) (w : Worker L)
    (h : w.m_camera = true) :
    previewsOf (capturePreview g qt w).trace = previewsOf w.trace ++ [previewRet g w.lib] ∧
    (previewRet g w.lib < GP_OK → w.m_capturingFailCount + 1 < capturingFailLimit →
      (capturePreview g qt w).m_camera = true ∧
      (capturePreview g qt w).m_capturingFailCount = w.m_capturingFailCount + 1 ∧
      exitsOf (capturePreview g qt w).trace = exitsOf w.trace) ∧
    (previewRet g w.lib < GP_OK → capturingFailLimit ≤ w.m_capturingFailCount + 1 →
      ∃ e : Int, exitsOf (capturePreview g qt w).trace = exitsOf w.trace ++ [e] ∧
        (capturePreview g qt w).m_capturingFailCount = w.m_capturingFailCount + 1 ∧
        (e = GP_OK → (capturePreview g qt w).m_camera = false ∧
          (capturePreview g qt w).m_status = Status.UnloadedStatus) ∧
        (e ≠ GP_OK → (capturePreview g qt w).m_camera = true ∧
          (capturePreview g qt w).m_status = Status.LoadedStatus)) ∧
    (GP_OK ≤ previewRet g w.lib →
      (capturePreview g qt w).m_camera = true ∧
      (capturePreview g qt w).m_capturingFailCount = 0 ∧
      (capturePreview g qt w).m_status = Status.ActiveStatus ∧
      exitsOf (capturePreview g qt w).trace = exitsOf w.trace) := by
  have hcam := openCamera_of_open g qt w h
  by_cases hs : w.m_status = Status.ActiveStatus <;>
  by_cases hp : previewRet g w.lib < GP_OK <;>
  by_cases hc : capturingFailLimit ≤ w.m_capturingFailCount + 1
  all_goals simp only [previewRet] at hp
  all_goals simp [capturePreview, hcam, h, hs, hp, hc, previewRet]
  all_goals exact closeCamera_summary g _ _ (by simp [h]) (by simp)

/-! ## Ten failed previews in a row (C3) -/

@[simp] theorem openCamera_previews (g : Library L) (qt : Qt D) (w : Worker L) :
    previewsOf (openCamera g qt w).trace = previewsOf w.trace := by
  cases h : w.m_camera with
  | true => rw [openCamera_of_open g qt w h]
  | false =>
    rcases openCamera_of_closed g qt w h with ⟨-, -, -, -, h1⟩ | ⟨-, -, -, -, h1⟩ <;> exact h1

/-- Every `capturePreview` makes exactly one `gp_camera_capture_preview` call. -/
theorem capturePreview_previews (g : Library L) (qt : Qt D) (w : Worker L) :
    ∃ p : Int, previewsOf (capturePreview g qt w).trace = previewsOf w.trace ++ [p] := by
  simp only [capturePreview]
  split_ifs <;> simp

theorem previews_previews (g : Library L) (qt : Qt D) (n : Nat) (w : Worker L) :
    ∃ rest : List Int, rest.length = n ∧
      previewsOf (previews g qt n w).trace = previewsOf w.trace ++ rest := by
  induction n with
  | zero => exact ⟨[], rfl, by simp [previews]⟩
  | succ n ih =>
    obtain ⟨rest, h1, h2⟩ := ih
    obtain ⟨p, hp⟩ := capturePreview_previews g qt (previews g qt n w)
    exact ⟨rest ++ [p], by simp [h1], by simp [previews, hp, h2]⟩

/-- While fewer than ten previews have failed in a row the camera stays open and
`gp_camera_exit` is not called. -/
theorem previews_failing (g : Library L) (qt : Qt D) (n : Nat) (w : Worker L)
    (hcam : w.m_camera = true) (hn : w.m_capturingFailCount + n < capturingFailLimit)
    (hfail : ∀ r ∈ (previewsOf (previews g qt n w).trace).drop (previewsOf w.trace).length,
      r < GP_OK) :
    (previews g qt n w).m_camera = true ∧
    (previews g qt n w).m_capturingFailCount = w.m_capturingFailCount + n ∧
    exitsOf (previews g qt n w).trace = exitsOf w.trace := by
  induction n with
  | zero => simp [previews, hcam]
  | succ n ih =>
    obtain ⟨rest, -, h2⟩ := previews_previews g qt n w
    obtain ⟨p, hp⟩ := capturePreview_previews g qt (previews g qt n w)
    have hdrop : (previewsOf (previews g qt (n + 1) w).trace).drop (previewsOf w.trace).length
        = rest ++ [p] := by
      simp only [previews]
      rw [hp, h2, List.append_assoc, List.drop_left]
    rw [hdrop] at hfail
    have hrest : ∀ r ∈ (previewsOf (previews g qt n w).trace).drop (previewsOf w.trace).length,
        r < GP_OK := by
      rw [h2, List.drop_left]
      intro r hr
      exact hfail r (List.mem_append_left _ hr)
    have hn' : w.m_capturingFailCount + n < capturingFailLimit := by
      push_cast at hn; omega
    obtain ⟨c1, c2, c3⟩ := ih hn' hrest
    obtain ⟨q1, q2, -, -⟩ := capturePreview_of_open g qt (previews g qt n w) c1
    rw [hp] at q1
    have hpe : p = previewRet g (previews g qt n w).lib := by simpa using q1
    have hneg : previewRet g (previews g qt n w).lib < GP_OK :=
      hpe ▸ hfail p (List.mem_append_right _ (List.mem_singleton_self p))
    obtain ⟨r1, r2, r3⟩ := q2 hneg (by rw [c2]; push_cast at hn; omega)
    refine ⟨r1, ?_, ?_⟩
    · simp only [previews]; rw [r2, c2]; push_cast; ring
    · simp only [previews]; rw [r3, c3]

/-- C3: from a worker that holds a camera handle with failure counter 0, if
`capturePreview` is called `n` times in a row and every `gp_camera_capture_preview` call
made fails, then for `n ≤ 9` no `gp_camera_exit` call is made and the handle stays
non-null, and for `n = 10` exactly one `gp_camera_exit` call is made; when that call
returns `GP_OK` the worker ends with status Unloaded and a null handle. -/
theorem C3_tenth_preview_failure_closes (g : Library L) (qt : Qt D) (w : Worker L) (n : Nat)
    (hcam : w.m_camera = true) (hcnt : w.m_capturingFailCount = 0)
    (hfail : ∀ r ∈ (previewsOf (previews g qt n w).trace).drop (previewsOf w.trace).length,
      r < GP_OK) :
    (n ≤ 9 → exitsOf (previews g qt n w).trace = exitsOf w.trace ∧
      (previews g qt n w).m_camera = true) ∧
    (n = 10 → ∃ e : Int, exitsOf (previews g qt n w).trace = exitsOf w.trace ++ [e] ∧
      (e = GP_OK → (previews g qt n w).m_status = Status.UnloadedStatus ∧
        (previews g qt n w).m_camera = false)) := by
  constructor
  · intro hn
    obtain ⟨h1, -, h3⟩ := previews_failing g qt n w hcam
      (by rw [hcnt]; simp only [capturingFailLimit]; omega) hfail
    exact ⟨h3, h1⟩
  · intro hn
    subst hn
    obtain ⟨rest, -, h2⟩ := previews_previews g qt 9 w
    obtain ⟨p, hp⟩ := capturePreview_previews g qt (previews g qt 9 w)
    have hdrop : (previewsOf (previews g qt 10 w).trace).drop (previewsOf w.trace).length
        = rest ++ [p] := by
      show (previewsOf (capturePreview g qt (previews g qt 9 w)).trace).drop _ = _
      rw [hp, h2, List.append_assoc, List.drop_left]
    rw [hdrop] at hfail
    have hrest : ∀ r ∈ (previewsOf (previews g qt 9 w).trace).drop (previewsOf w.trace).length,
        r < GP_OK := by
      rw [h2, List.drop_left]
      intro r hr
      exact hfail r (List.mem_append_left _ hr)
    obtain ⟨c1, c2, c3⟩ := previews_failing g qt 9 w hcam
      (by rw [hcnt]; simp only [capturingFailLimit]; omega) hrest
    obtain ⟨q1, -, q3, -⟩ := capturePreview_of_open g qt (previews g qt 9 w) c1
    rw [hp] at q1
    have hpe : p = previewRet g (previews g qt 9 w).lib := by simpa using q1
    have hneg : previewRet g (previews g qt 9 w).lib < GP_OK :=
      hpe ▸ hfail p (List.mem_append_right _ (List.mem_singleton_self p))
    obtain ⟨e, e1, -, e3, -⟩ := q3 hneg (by rw [c2, hcnt]; simp [capturingFailLimit])
    refine ⟨e, ?_, fun he => ?_⟩
    · show exitsOf (capturePreview g qt (previews g qt 9 w)).trace = _
      rw [e1, c3]
    · exact ⟨(e3 he).2, (e3 he).1⟩

/-- C3 witness: previews in a row on an opened mock camera whose previews always fail and
whose `gp_camera_exit` succeeds: after nine the camera is still open and no exit call was
made, after ten there is exactly one exit call and the worker is Unloaded without a
handle. -/
theorem C3_tenth_preview_failure_closes_witness :
    ((run mockLib mockQt (construct mockLib mockNoPreview) [Command.openCamera]).m_camera = true ∧
      (run mockLib mockQt (construct mockLib mockNoPreview)
        [Command.openCamera]).m_capturingFailCount = 0) ∧
    (exitsOf (previews mockLib mockQt 9
          (run mockLib mockQt (construct mockLib mockNoPreview) [Command.openCamera])).trace
        = exitsOf (run mockLib mockQt (construct mockLib mockNoPreview)
          [Command.openCamera]).trace ∧
      (previews mockLib mockQt 9
        (run mockLib mockQt (construct mockLib mockNoPreview) [Command.openCamera])).m_camera
        = true) ∧
    (∃ e : Int,
      exitsOf (previews mockLib mockQt 10
          (run mockLib mockQt (construct mockLib mockNoPreview) [Command.openCamera])).trace
        = exitsOf (run mockLib mockQt (construct mockLib mockNoPreview)
          [Command.openCamera]).trace ++ [e] ∧
      (e = GP_OK →
        (previews mockLib mockQt 10
          (run mockLib mockQt (construct mockLib mockNoPreview) [Command.openCamera])).m_status
          = Status.UnloadedStatus ∧
        (previews mockLib mockQt 10
          (run mockLib mockQt (construct mockLib mockNoPreview) [Command.openCamera])).m_camera
          = false)) ∧
    (previews mockLib mockQt 10
      (run mockLib mockQt (construct mockLib mockNoPreview) [Command.openCamera])).m_status
      = Status.UnloadedStatus :=
  ⟨⟨by decide, by decide⟩,
   (C3_tenth_preview_failure_closes mockLib mockQt
     (run mockLib mockQt (construct mockLib mockNoPreview) [Command.openCamera]) 9
     (by decide) (by decide) (by decide)).1 (by decide),
   (C3_tenth_preview_failure_closes mockLib mockQt
     (run mockLib mockQt (construct mockLib mockNoPreview) [Command.openCamera]) 10
     (by decide) (by decide) (by decide)).2 rfl,
   by decide⟩

/-! ## The failure counter (C2) -/

theorem prefix_emit {t : List Ev} (s : Signal) {w : Worker L} (h : t <+: w.trace) :
    t <+: (emit s w).trace :=
  h.trans (List.prefix_append _ _)

theorem prefix_libcall {t : List Ev} (g : Library L) (c : Call) {w : Worker L}
    (h : t <+: w.trace) : t <+: (libcall g c w).2.trace :=
  h.trans (List.prefix_append _ _)

theorem prefix_of_quiet {t : List Ev} {w w' : Worker L} (hq : Quiet w w')
    (h : t <+: w.trace) : t <+: w'.trace := by
  obtain ⟨-, -, -, -, -, cs, h1, -⟩ := hq
  rw [h1]
  exact h.trans (List.prefix_append _ _)

theorem prefix_parameter {t : List Ev} (g : Library L) (name : String) {w : Worker L}
    (h : t <+: w.trace) : t <+: (parameter g name w : QVariant D × Worker L).2.trace :=
  prefix_of_quiet (quiet_parameter g name (Quiet.refl w)) h

theorem prefix_setParameter {t : List Ev} (g : Library L) (qt : Qt D) (name : String)
    (value : QVariant D) {w : Worker L} (h : t <+: w.trace) :
    t <+: (setParameter g qt name value w).2.trace :=
  prefix_of_quiet (quiet_setParameter g qt name value (Quiet.refl w)) h

theorem prefix_drainLoop {t : List Ev} (g : Library L) (fuel : Nat) {w : Worker L}
    (h : t <+: w.trace) : t <+: (drainLoop g fuel w).trace :=
  prefix_of_quiet (quiet_drainLoop g fuel (Quiet.refl w)) h

theorem prefix_openCameraErrorHandle {t : List Ev} (g : Library L) {w : Worker L}
    (h : t <+: w.trace) : t <+: (openCameraErrorHandle g w).trace := by
  simp only [openCameraErrorHandle]
  exact prefix_libcall g _ (prefix_emit _ (prefix_emit _ h))

theorem prefix_openCamera {t : List Ev} (g : Library L) (qt : Qt D) {w : Worker L}
    (h : t <+: w.trace) : t <+: (openCamera g qt w).trace := by
  simp only [openCamera]
  split_ifs
  all_goals
    repeat first
      | exact h
      | apply prefix_emit
      | apply prefix_openCameraErrorHandle
      | apply prefix_setParameter
      | apply prefix_parameter
      | apply prefix_libcall
      | dsimp only

theorem prefix_closeCamera {t : List Ev} (g : Library L) {w : Worker L}
    (h : t <+: w.trace) : t <+: (closeCamera g w).trace := by
  simp only [closeCamera]
  split_ifs
  all_goals
    repeat first
      | exact h
      | apply prefix_emit
      | apply prefix_libcall
      | dsimp only

theorem prefix_capturePreview_tail {t : List Ev} (g : Library L) (qt : Qt D) {w : Worker L}
    (h : t <+: (openCamera g qt w).trace) : t <+: (capturePreview g qt w).trace := by
  simp only [capturePreview]
  split_ifs
  all_goals
    repeat first
      | exact h
      | apply prefix_emit
      | apply prefix_closeCamera
      | apply prefix_libcall
      | dsimp only

theorem prefix_shootPhase {t : List Ev} (g : Library L) (id : Int) (fileName : String)
    {w : Worker L} (h : t <+: w.trace) : t <+: (shootPhase g id fileName w).trace := by
  simp only [shootPhase]
  split
  · exact prefix_emit _ (prefix_libcall g _ h)
  · refine prefix_drainLoop g _ (prefix_libcall g _ ?_)
    split
    · exact prefix_emit _ (prefix_libcall g _ (prefix_libcall g _ (prefix_libcall g _ h)))
    · exact prefix_emit _ (prefix_libcall g _ (prefix_libcall g _ (prefix_libcall g _
        (prefix_libcall g _ h))))

theorem prefix_capturePhoto {t : List Ev} (g : Library L) (qt : Qt D) (id : Int)
    (fileName : String) {w : Worker L} (h : t <+: w.trace) :
    t <+: (capturePhoto g qt id fileName w).trace :=
  prefix_of_quiet (quiet_mirrorUp g qt (Quiet.refl _))
    (prefix_shootPhase g id fileName (prefix_of_quiet (quiet_focusPhase g qt (Quiet.refl w)) h))

theorem prefix_step {t : List Ev} (g : Library L) (qt : Qt D) (c : Command D) {w : Worker L}
    (h : t <+: w.trace) : t <+: (step g qt w c).trace := by
  cases c with
  | openCamera => exact prefix_openCamera g qt h
  | closeCamera => exact prefix_closeCamera g h
  | capturePreview => exact prefix_capturePreview_tail g qt (prefix_openCamera g qt h)
  | capturePhoto id fileName => exact prefix_capturePhoto g qt id fileName h
  | stopViewFinder => exact prefix_emit _ (prefix_emit _ h)
  | parameter name => exact prefix_parameter g name h
  | setParameter name value => exact prefix_setParameter g qt name value h

theorem prefix_run {t : List Ev} (g : Library L) (qt : Qt D) (cmds : List (Command D))
    {w : Worker L} (h : t <+: w.trace) : t <+: (run g qt w cmds).trace := by
  induction cmds generalizing w with
  | nil => exact h
  | cons c cs ih => exact ih (prefix_step g qt c h)

theorem all_of_prefix {t t' : List Ev} (h : t <+: t') (p : Ev → Bool)
    (ht : t'.all p = true) : t.all p = true := by
  obtain ⟨x, rfl⟩ := h
  rw [List.all_append, Bool.and_eq_true] at ht
  exact ht.1

theorem exits_of_okOpenClose {t : List Ev} (ht : t.all okOpenClose = true) :
    ∀ r ∈ exitsOf t, r = GP_OK := by
  induction t with
  | nil => simp
  | cons e es ih =>
    rw [List.all_cons, Bool.and_eq_true] at ht
    cases e with
    | emit s => simpa using ih ht.2
    | call c r =>
      intro x hx
      rw [exitsOf_call, List.mem_append] at hx
      rcases hx with hx | hx
      · split_ifs at hx with hc
        · subst hc
          have := ht.1
          simp only [okOpenClose, decide_eq_true_eq] at this
          simp only [List.mem_singleton] at hx
          rw [hx, this]
        · simp at hx
      · exact ih ht.2 x hx

/-- An `openCamera` that ends without a handle has recorded a failed call. -/
theorem openCamera_failed_trace (g : Library L) (qt : Qt D) (w : Worker L)
    (h : w.m_camera = false) (hf : (openCamera g qt w).m_camera = false) :
    (openCamera g qt w).trace.all okOpenClose = false := by
  revert hf
  simp only [openCamera, h]
  simp only [Bool.false_eq_true, if_false]
  split_ifs with h1 h2 h3 h4 h5
  · intro _
    simp at h1
    simp [openCameraErrorHandle, List.all_append, okOpenClose, h1]
  · intro _
    simp at h2
    simp [openCameraErrorHandle, List.all_append, okOpenClose]
    intro _ _
    exact h2
  · intro _
    simp at h3
    simp [openCameraErrorHandle, List.all_append, okOpenClose]
    intro _ _ _
    exact h3
  · intro _
    simp at h4
    simp [openCameraErrorHandle, List.all_append, okOpenClose]
    intro _ _ _ _
    exact h4
  · simp at h1
    simp [h1]
  · simp at h1
    simp [h1]

theorem capturePreview_openCamera (g : Library L) (qt : Qt D) (w : Worker L)
    (h : (openCamera g qt w).m_camera = true) :
    capturePreview g qt (openCamera g qt w) = capturePreview g qt w := by
  have := openCamera_of_open g qt (openCamera g qt w) h
  simp only [capturePreview, this]

theorem bounded_capturePreview_of_open (g : Library L) (qt : Qt D) (w : Worker L)
    (hcam : w.m_camera = true) (hcnt : w.m_capturingFailCount < capturingFailLimit)
    (hok : (capturePreview g qt w).trace.all okOpenClose = true) :
    Bounded (capturePreview g qt w) := by
  obtain ⟨-, q2, q3, q4⟩ := capturePreview_of_open g qt w hcam
  have hL : capturingFailLimit = 10 := rfl
  have hG : GP_OK = 0 := rfl
  by_cases hp : previewRet g w.lib < GP_OK
  · by_cases hc : capturingFailLimit ≤ w.m_capturingFailCount + 1
    · obtain ⟨e, e1, e2, e3, -⟩ := q3 hp hc
      have he : e = GP_OK :=
        exits_of_okOpenClose hok e (by rw [e1]; simp)
      exact ⟨by rw [e2]; omega, fun _ => (e3 he).1⟩
    · obtain ⟨-, r2, -⟩ := q2 hp (by omega)
      refine ⟨by rw [r2]; omega, fun h10 => ?_⟩
      rw [r2] at h10
      omega
  · obtain ⟨-, r2, -⟩ := q4 (by omega)
    refine ⟨by rw [r2]; omega, fun h10 => ?_⟩
    rw [r2] at h10
    omega

theorem bounded_capturePreview (g : Library L) (qt : Qt D) (w : Worker L) (hb : Bounded w)
    (hok : (capturePreview g qt w).trace.all okOpenClose = true) :
    Bounded (capturePreview g qt w) := by
  cases hcam : w.m_camera with
  | true =>
    refine bounded_capturePreview_of_open g qt w hcam ?_ hok
    rcases lt_or_eq_of_le hb.1 with h | h
    · exact h
    · rw [hb.2 h] at hcam
      exact absurd hcam (by simp)
  | false =>
    have hpre : (openCamera g qt w).trace.all okOpenClose = true :=
      all_of_prefix (prefix_capturePreview_tail g qt (List.prefix_refl _)) _ hok
    rcases openCamera_of_closed g qt w hcam with ⟨h1, -⟩ | ⟨h1, -, h3, -⟩
    · rw [openCamera_failed_trace g qt w hcam h1] at hpre
      exact absurd hpre (by simp)
    · rw [← capturePreview_openCamera g qt w h1] at hok ⊢
      exact bounded_capturePreview_of_open g qt _ h1
        (by rw [h3]; simp [capturingFailLimit]) hok

theorem bounded_step (g : Library L) (qt : Qt D) (w : Worker L) (c : Command D)
    (hb : Bounded w) (hok : (step g qt w c).trace.all okOpenClose = true) :
    Bounded (step g qt w c) := by
  cases c with
  | openCamera =>
    cases hcam : w.m_camera with
    | true => simp only [step]; rw [openCamera_of_open g qt w hcam]; exact hb
    | false =>
      rcases openCamera_of_closed g qt w hcam with ⟨h1, -⟩ | ⟨h1, -, h3, -⟩
      · simp only [step] at hok
        rw [openCamera_failed_trace g qt w hcam h1] at hok
        exact absurd hok (by simp)
      · refine ⟨by simp [step, h3, capturingFailLimit], fun h10 => ?_⟩
        simp [step, h3, capturingFailLimit] at h10
  | closeCamera =>
    refine ⟨by simpa [step] using hb.1, fun h10 => ?_⟩
    have hw : w.m_camera = false := hb.2 (by simpa [step] using h10)
    simp only [step]
    rw [closeCamera_of_closed g w hw]
    exact hw
  | capturePreview => exact bounded_capturePreview g qt w hb hok
  | capturePhoto id fileName =>
    obtain ⟨h1, -, h3, -⟩ := capturePhoto_frame g qt id fileName w
    simpa [Bounded, step, h1, h3] using hb
  | stopViewFinder => simpa [Bounded, step, stopViewFinder] using hb
  | parameter name => simpa [Bounded, step] using hb
  | setParameter name value => simpa [Bounded, step] using hb

theorem bounded_run (g : Library L) (qt : Qt D) (cmds : List (Command D)) (w : Worker L)
    (hb : Bounded w) (hok : (run g qt w cmds).trace.all okOpenClose = true) :
    Bounded (run g qt w cmds) := by
  induction cmds generalizing w with
  | nil => exact hb
  | cons c cs ih =>
    have h1 : (step g qt w c).trace.all okOpenClose = true :=
      all_of_prefix (prefix_run g qt cs (List.prefix_refl _)) _ hok
    exact ih _ (bounded_step g qt w c hb h1) hok

/-- C2 (amended): for every command sequence from a freshly constructed worker and every
library, as long as no `gp_camera_exit` call and no call of the open sequence
(`gp_camera_new`, `gp_camera_set_abilities`, `gp_camera_set_port_info`, `gp_file_new`)
has failed, the failure counter `m_capturingFailCount` does not exceed
`capturingFailLimit` = 10. -/
theorem C2_fail_count_bounded_while_open_close_succeed (g : Library L) (qt : Qt D) (l : L)
    (cmds : List (Command D))
    (hok : (run g qt (construct g l) cmds).trace.all okOpenClose = true) :
    (run g qt (construct g l) cmds).m_capturingFailCount ≤ capturingFailLimit :=
  (bounded_run g qt cmds (construct g l)
    ⟨by simp [construct, capturingFailLimit], fun h => rfl⟩ hok).1

/-- C2 witness: open the camera, then twelve previews, on a mock camera whose previews
always fail while every other call succeeds. -/
theorem C2_fail_count_bounded_while_open_close_succeed_witness :
    (run mockLib mockQt (construct mockLib mockNoPreview)
      (Command.openCamera :: List.replicate 12 Command.capturePreview)).trace.all okOpenClose
      = true ∧
    (run mockLib mockQt (construct mockLib mockNoPreview)
      (Command.openCamera :: List.replicate 12 Command.capturePreview)).m_capturingFailCount
      ≤ capturingFailLimit :=
  ⟨by decide,
   C2_fail_count_bounded_while_open_close_succeed mockLib mockQt mockNoPreview
     (Command.openCamera :: List.replicate 12 Command.capturePreview) (by decide)⟩

/-- C2 counterexample: with `gp_camera_exit` failing during the auto-close, the eleventh
failed preview in a row raises the counter to 11; and on a camera that cannot be opened,
eleven previews in a row raise it to 11 as well. -/
theorem C2_counterexample :
    ¬ ((run mockLib mockQt (construct mockLib mockStuck)
        (Command.openCamera :: List.replicate 11 Command.capturePreview)).m_capturingFailCount
        ≤ capturingFailLimit) ∧
    ¬ ((run mockLib mockQt (construct mockLib mockNoCamera)
        (List.replicate 11 Command.capturePreview)).m_capturingFailCount
        ≤ capturingFailLimit) := by
  constructor <;> decide

/-! ## Still capture (C9) -/

/-- The event drain of `capturePhoto` never runs out of rounds: any supply above the number
of pending events gives the same result. -/
theorem drainLoop_fuel (g : Library L) (fuel : Nat) (w : Worker L)
    (h : g.pending w.lib < fuel) :
    drainLoop g fuel w = drainLoop g (g.pending w.lib + 1) w := by
  induction fuel using Nat.strong_induction_on generalizing w with
  | _ fuel ih =>
    cases fuel with
    | zero => omega
    | succ n =>
      simp only [drainLoop]
      split_ifs with hev
      · rfl
      · have hdec := g.pending_dec w.lib w.m_camera 100 hev
        rw [ih n (Nat.lt_succ_self n) _ (by simp only [libcall_lib]; omega),
          ih (g.pending w.lib) (by omega) _ (by simp only [libcall_lib]; omega)]

/-- The loop of `waitForOperationCompleted` never runs out of rounds either. -/
theorem waitLoop_fuel (g : Library L) (fuel : Nat) (w : Worker L)
    (h : g.pending w.lib < fuel) :
    waitLoop g fuel w = waitLoop g (g.pending w.lib + 1) w := by
  induction fuel using Nat.strong_induction_on generalizing w with
  | _ fuel ih =>
    cases fuel with
    | zero => omega
    | succ n =>
      simp only [waitLoop]
      split_ifs with hev
      · have hdec := g.pending_dec w.lib w.m_camera 10 hev.2
        rw [ih n (Nat.lt_succ_self n) _ (by simp only [libcall_lib]; omega),
          ih (g.pending w.lib) (by omega) _ (by simp only [libcall_lib]; omega)]
      · rfl

/-- The notification of `shootPhase`: exactly one capture signal, fixed by the return codes
of `gp_camera_capture` and `gp_camera_file_get`. -/
theorem shootPhase_signals (g : Library L) (id : Int) (fileName : String) (w : Worker L) :
    ∃ (c d : Int) (bytes : List Nat),
      capturesOf (shootPhase g id fileName w).trace = capturesOf w.trace ++ [c] ∧
      downloadsOf (shootPhase g id fileName w).trace
        = downloadsOf w.trace ++ (if c < GP_OK then [] else [d]) ∧
      signalsOf (shootPhase g id fileName w).trace
        = signalsOf w.trace ++ [captureOutcome id fileName c d bytes] := by
  refine ⟨(libcall g (Call.gp_camera_capture w.m_camera) w).1.ret,
    (libcall g (Call.gp_camera_file_get w.m_camera
      (libcall g (Call.gp_camera_capture w.m_camera) w).1.text
      (libcall g (Call.gp_camera_capture w.m_camera) w).1.text2)
      (libcall g Call.gp_file_new (libcall g (Call.gp_camera_capture w.m_camera) w).2).2).1.ret,
    (libcall g Call.gp_file_get_data_and_size
      (libcall g (Call.gp_camera_file_get w.m_camera
        (libcall g (Call.gp_camera_capture w.m_camera) w).1.text
        (libcall g (Call.gp_camera_capture w.m_camera) w).1.text2)
        (libcall g Call.gp_file_new
          (libcall g (Call.gp_camera_capture w.m_camera) w).2).2).2).1.bytes, ?_⟩
  simp only [shootPhase, captureOutcome, libcall_m_camera]
  split_ifs <;> simp

theorem capturePhoto_signals (g : Library L) (qt : Qt D) (id : Int) (fileName : String)
    (w : Worker L) :
    ∃ (c d : Int) (bytes : List Nat),
      capturesOf (capturePhoto g qt id fileName w).trace = capturesOf w.trace ++ [c] ∧
      downloadsOf (capturePhoto g qt id fileName w).trace
        = downloadsOf w.trace ++ (if c < GP_OK then [] else [d]) ∧
      signalsOf (capturePhoto g qt id fileName w).trace
        = signalsOf w.trace ++ [captureOutcome id fileName c d bytes] := by
  have h1 := quiet_focusPhase g qt (Quiet.refl w)
  obtain ⟨c, d, bytes, a1, a2, a3⟩ := shootPhase_signals g id fileName (focusPhase g qt w)
  have h3 := quiet_mirrorUp g qt (Quiet.refl (shootPhase g id fileName (focusPhase g qt w)))
  refine ⟨c, d, bytes, ?_, ?_, ?_⟩
  · exact h3.captures_eq.trans (a1.trans (by rw [h1.captures_eq]))
  · exact h3.downloads_eq.trans (a2.trans (by rw [h1.downloads_eq]))
  · exact h3.signals_eq.trans (a3.trans (by rw [h1.signals_eq]))

/-- C9: every `capturePhoto(id, fileName)` call (the event drain ends because the library
eventually reports `GP_EVENT_TIMEOUT`) makes one `gp_camera_capture` call and emits exactly
one signal, which carries the request id: `imageCaptureError(id, ResourceError, "Failed to
capture frame")` when the capture fails (no download is attempted), `imageCaptureError(id,
ResourceError, "Failed to download file from camera")` when the capture succeeds and the
download fails, and `imageCaptured(id, bytes, fileName)` when both succeed; `m_status` is
unchanged in every case. -/
theorem C9_capturePhoto_emits_one_notification (g : Library L) (qt : Qt D) (id : Int)
    (fileName : String) (w : Worker L) :
    ∃ (c d : Int) (bytes : List Nat),
      capturesOf (capturePhoto g qt id fileName w).trace = capturesOf w.trace ++ [c] ∧
      (c < GP_OK →
        downloadsOf (capturePhoto g qt id fileName w).trace = downloadsOf w.trace ∧
        signalsOf (capturePhoto g qt id fileName w).trace = signalsOf w.trace ++
          [Signal.imageCaptureError id CaptureErrorKind.ResourceError
            "Failed to capture frame"]) ∧
      (GP_OK ≤ c →
        downloadsOf (capturePhoto g qt id fileName w).trace = downloadsOf w.trace ++ [d] ∧
        (d < GP_OK →
          signalsOf (capturePhoto g qt id fileName w).trace = signalsOf w.trace ++
            [Signal.imageCaptureError id CaptureErrorKind.ResourceError
              "Failed to download file from camera"]) ∧
        (GP_OK ≤ d →
          signalsOf (capturePhoto g qt id fileName w).trace = signalsOf w.trace ++
            [Signal.imageCaptured id bytes fileName])) ∧
      (capturePhoto g qt id fileName w).m_status = w.m_status := by
  obtain ⟨c, d, bytes, a1, a2, a3⟩ := capturePhoto_signals g qt id fileName w
  refine ⟨c, d, bytes, a1, fun hc => ?_, fun hc => ⟨?_, fun hd => ?_, fun hd => ?_⟩,
    (capturePhoto_frame g qt id fileName w).2.1⟩
  · exact ⟨by simpa [hc] using a2, by simpa [captureOutcome, hc] using a3⟩
  · simpa [not_lt.2 hc] using a2
  · simpa [captureOutcome, not_lt.2 hc, hd] using a3
  · simpa [captureOutcome, not_lt.2 hc, not_lt.2 hd] using a3

/-- C9 witness: request 42 on an opened mock camera: the photo is delivered when every
call succeeds, and the two error messages are delivered when the capture or the download
fails; each time exactly one signal is added and the status stays Loaded. -/
theorem C9_capturePhoto_emits_one_notification_witness :
    (signalsOf (run mockLib mockQt (construct mockLib mockShoot)
        [Command.openCamera, Command.capturePhoto 42 "shot.jpg"]).trace
      = signalsOf (run mockLib mockQt (construct mockLib mockShoot)
          [Command.openCamera]).trace
        ++ [Signal.imageCaptured 42 [255, 216, 255, 217] "shot.jpg"]) ∧
    (signalsOf (run mockLib mockQt (construct mockLib mockNoCapture)
        [Command.openCamera, Command.capturePhoto 42 "shot.jpg"]).trace
      = signalsOf (run mockLib mockQt (construct mockLib mockNoCapture)
          [Command.openCamera]).trace
        ++ [Signal.imageCaptureError 42 CaptureErrorKind.ResourceError
          "Failed to capture frame"]) ∧
    (signalsOf (run mockLib mockQt (construct mockLib mockNoDownload)
        [Command.openCamera, Command.capturePhoto 42 "shot.jpg"]).trace
      = signalsOf (run mockLib mockQt (construct mockLib mockNoDownload)
          [Command.openCamera]).trace
        ++ [Signal.imageCaptureError 42 CaptureErrorKind.ResourceError
          "Failed to download file from camera"]) ∧
    (capturePhoto mockLib mockQt 42 "shot.jpg"
        (run mockLib mockQt (construct mockLib mockShoot) [Command.openCamera])).m_status
      = Status.LoadedStatus :=
  ⟨by decide, by decide, by decide,
   (C9_capturePhoto_emits_one_notification mockLib mockQt 42 "shot.jpg"
      (run mockLib mockQt (construct mockLib mockShoot)
        [Command.openCamera])).choose_spec.choose_spec.choose_spec.2.2.2.trans (by decide)⟩

/-! ## After `Unavailable` (C4) -/

theorem statusesOf_append_signal (t : List Ev) (s : Signal) :
    statusesOf (t ++ [Ev.emit s]) = statusesOf t ++
      (match s with
        | Signal.statusChanged st => [st]
        | _ => []) := by
  cases s <;> simp [statusesOf, List.filterMap_append]

theorem passive_step (g : Library L) (qt : Qt D) (w : Worker L) (c : Command D)
    (hc : c.isPassive = true) (hcam : w.m_camera = false) :
    (step g qt w c).m_camera = false ∧ (step g qt w c).m_status = w.m_status ∧
      statusesOf (step g qt w c).trace = statusesOf w.trace := by
  cases c with
  | openCamera => simp [Command.isPassive] at hc
  | capturePreview => simp [Command.isPassive] at hc
  | stopViewFinder => simp [Command.isPassive] at hc
  | closeCamera =>
    simp only [step]
    rw [closeCamera_of_closed g w hcam]
    exact ⟨hcam, rfl, rfl⟩
  | capturePhoto id fileName =>
    obtain ⟨h1, h2, -⟩ := capturePhoto_frame g qt id fileName w
    obtain ⟨c, d, bytes, -, -, a3⟩ := capturePhoto_signals g qt id fileName w
    refine ⟨by simpa [step, h1] using hcam, by simpa [step] using h2, ?_⟩
    simp only [step, statusesOf, a3, List.filterMap_append, captureOutcome]
    split_ifs <;> simp
  | parameter name =>
    have hq := quiet_parameter (D := D) g name (Quiet.refl w)
    exact ⟨hq.2.1.trans hcam, hq.2.2.2.2.1, by simp only [step, statusesOf, hq.signals_eq]⟩
  | setParameter name value =>
    have hq := quiet_setParameter g qt name value (Quiet.refl w)
    exact ⟨hq.2.1.trans hcam, hq.2.2.2.2.1, by simp only [step, statusesOf, hq.signals_eq]⟩

theorem passive_run (g : Library L) (qt : Qt D) (cmds : List (Command D)) (w : Worker L)
    (hc : ∀ c ∈ cmds, c.isPassive = true) (hcam : w.m_camera = false) :
    (run g qt w cmds).m_status = w.m_status ∧
      statusesOf (run g qt w cmds).trace = statusesOf w.trace := by
  induction cmds generalizing w with
  | nil => exact ⟨rfl, rfl⟩
  | cons c cs ih =>
    obtain ⟨h1, h2, h3⟩ := passive_step g qt w c (hc c (List.mem_cons_self c cs)) hcam
    obtain ⟨i1, i2⟩ := ih (step g qt w c) (fun x hx => hc x (List.mem_cons_of_mem c hx)) h1
    exact ⟨i1.trans h2, i2.trans h3⟩

/-- C4 (amended): once a worker reached from construction has status Unavailable, every
later sequence made of `closeCamera`, `capturePhoto`, `parameter` and `setParameter`
leaves `m_status` Unavailable and emits no `statusChanged` at all.  (`openCamera`,
`capturePreview` and `stopViewFinder` are not blocked by the status.) -/
theorem C4_unavailable_kept_by_passive_commands (g : Library L) (qt : Qt D) (l : L)
    (cmds later : List (Command D))
    (hu : (run g qt (construct g l) cmds).m_status = Status.UnavailableStatus)
    (hp : ∀ c ∈ later, c.isPassive = true) :
    (run g qt (run g qt (construct g l) cmds) later).m_status = Status.UnavailableStatus ∧
    statusesOf (run g qt (run g qt (construct g l) cmds) later).trace
      = statusesOf (run g qt (construct g l) cmds).trace := by
  have hcam : (run g qt (construct g l) cmds).m_camera = false := by
    cases h : (run g qt (construct g l) cmds).m_camera with
    | false => rfl
    | true =>
      rcases good_run g qt cmds _ (good_construct g l) h with h1 | h1 | h1 <;>
        rw [hu] at h1 <;> simp at h1
  obtain ⟨h1, h2⟩ := passive_run g qt later _ hp hcam
  exact ⟨h1.trans hu, h2⟩

/-- C4 witness: on a camera that cannot be opened, `openCamera` leaves the worker
Unavailable, and a close, a still capture, a parameter read and a parameter write keep
it there without any `statusChanged`. -/
theorem C4_unavailable_kept_by_passive_commands_witness :
    (run mockLib mockQt (construct mockLib mockNoCamera) [Command.openCamera]).m_status
      = Status.UnavailableStatus ∧
    (run mockLib mockQt
        (run mockLib mockQt (construct mockLib mockNoCamera) [Command.openCamera])
        [Command.closeCamera, Command.capturePhoto 1 "a.jpg", Command.parameter "iso",
          Command.setParameter "iso" (QVariant.ofInt 100)]).m_status
      = Status.UnavailableStatus ∧
    statusesOf (run mockLib mockQt
        (run mockLib mockQt (construct mockLib mockNoCamera) [Command.openCamera])
        [Command.closeCamera, Command.capturePhoto 1 "a.jpg", Command.parameter "iso",
          Command.setParameter "iso" (QVariant.ofInt 100)]).trace
      = statusesOf
        (run mockLib mockQt (construct mockLib mockNoCamera) [Command.openCamera]).trace :=
  ⟨by decide,
   C4_unavailable_kept_by_passive_commands mockLib mockQt mockNoCamera [Command.openCamera]
     [Command.closeCamera, Command.capturePhoto 1 "a.jpg", Command.parameter "iso",
       Command.setParameter "iso" (QVariant.ofInt 100)] (by decide) (by decide)⟩

/-- C4 counterexample: a worker constructed without a context is Unavailable, yet
`openCamera`, `stopViewFinder` and `capturePreview` each move it to another status; the
same happens after a failed `openCamera`. -/
theorem C4_counterexample :
    (construct mockLib mockNoContext).m_status = Status.UnavailableStatus ∧
    ¬ ((run mockLib mockQt (construct mockLib mockNoContext) [Command.openCamera]).m_status
        = Status.UnavailableStatus) ∧
    ¬ ((run mockLib mockQt (construct mockLib mockNoContext) [Command.stopViewFinder]).m_status
        = Status.UnavailableStatus) ∧
    ¬ ((run mockLib mockQt (construct mockLib mockNoContext) [Command.capturePreview]).m_status
        = Status.UnavailableStatus) ∧
    (run mockLib mockQt (construct mockLib mockNoCamera) [Command.openCamera]).m_status
      = Status.UnavailableStatus ∧
    ¬ ((run mockLib mockQt (construct mockLib mockNoCamera)
        [Command.openCamera, Command.stopViewFinder]).m_status = Status.UnavailableStatus) := by
  refine ⟨by decide, by decide, by decide, by decide, by decide, by decide⟩

/-! ## Closing twice (C10) -/

/-- C10 (amended): when the first `closeCamera` leaves no handle (the camera was already
closed, or `gp_camera_exit` returned `GP_OK`), a second `closeCamera` changes nothing at
all: no library call, no signal, same status and handle.  When `gp_camera_exit` failed in
the first call, the handle is kept and the second call tries `gp_camera_exit` again. -/
theorem C10_second_close_is_noop_or_retry (g : Library L) (w : Worker L) :
    (w.m_camera = false ∨ exitRet g w.lib = GP_OK →
      closeCamera g (closeCamera g w) = closeCamera g w) ∧
    (w.m_camera = true ∧ exitRet g w.lib ≠ GP_OK →
      (closeCamera g w).m_camera = true ∧
      exitsOf (closeCamera g (closeCamera g w)).trace
        = exitsOf (closeCamera g w).trace ++ [exitRet g (closeCamera g w).lib]) := by
  constructor
  · intro h
    apply closeCamera_of_closed
    cases hcam : w.m_camera with
    | false => rw [closeCamera_of_closed g w hcam]; exact hcam
    | true =>
      rcases h with h | h
      · rw [hcam] at h; simp at h
      · exact (closeCamera_ok g w hcam h).1
  · rintro ⟨hcam, he⟩
    have h1 := (closeCamera_failed g w hcam he).1
    exact ⟨h1, closeCamera_exits g (closeCamera g w) h1⟩

/-- C10 witness: on a mock camera whose `gp_camera_exit` succeeds the second close returns
the worker unchanged; where `gp_camera_exit` fails, the second close calls it again. -/
theorem C10_second_close_is_noop_or_retry_witness :
    exitRet mockLib (run mockLib mockQt (construct mockLib mock0) [Command.openCamera]).lib
      = GP_OK ∧
    closeCamera mockLib (closeCamera mockLib
        (run mockLib mockQt (construct mockLib mock0) [Command.openCamera]))
      = closeCamera mockLib
        (run mockLib mockQt (construct mockLib mock0) [Command.openCamera]) ∧
    ((run mockLib mockQt (construct mockLib mockStuck) [Command.openCamera]).m_camera = true ∧
      exitRet mockLib
        (run mockLib mockQt (construct mockLib mockStuck) [Command.openCamera]).lib ≠ GP_OK) ∧
    exitsOf (closeCamera mockLib (closeCamera mockLib
        (run mockLib mockQt (construct mockLib mockStuck) [Command.openCamera]))).trace
      = exitsOf (closeCamera mockLib
          (run mockLib mockQt (construct mockLib mockStuck) [Command.openCamera])).trace
        ++ [exitRet mockLib (closeCamera mockLib
          (run mockLib mockQt (construct mockLib mockStuck) [Command.openCamera])).lib] :=
  ⟨by decide,
   (C10_second_close_is_noop_or_retry mockLib
      (run mockLib mockQt (construct mockLib mock0) [Command.openCamera])).1
      (Or.inr (by decide)),
   by decide,
   ((C10_second_close_is_noop_or_retry mockLib
      (run mockLib mockQt (construct mockLib mockStuck) [Command.openCamera])).2
      (by decide)).2⟩

/-- C10 counterexample: after `openCamera` on a mock camera whose `gp_camera_exit` fails,
the second of two consecutive `closeCamera` calls extends the trace: it calls
`gp_camera_exit` again and emits `statusChanged` and `error` signals. -/
theorem C10_counterexample :
    ¬ ((closeCamera mockLib (closeCamera mockLib
          (run mockLib mockQt (construct mockLib mockStuck) [Command.openCamera]))).trace
        = (closeCamera mockLib
          (run mockLib mockQt (construct mockLib mockStuck) [Command.openCamera])).trace) ∧
    exitsOf (closeCamera mockLib (closeCamera mockLib
        (run mockLib mockQt (construct mockLib mockStuck) [Command.openCamera]))).trace
      = [-1, -1] ∧
    signalsOf (closeCamera mockLib (closeCamera mockLib
        (run mockLib mockQt (construct mockLib mockStuck) [Command.openCamera]))).trace
      = signalsOf (closeCamera mockLib
          (run mockLib mockQt (construct mockLib mockStuck) [Command.openCamera])).trace
        ++ [Signal.statusChanged Status.UnloadingStatus,
            Signal.statusChanged Status.LoadedStatus,
            Signal.error CameraErrorKind.CameraError "Unable to close camera"] := by
  refine ⟨by decide, by decide, by decide⟩

/-! ## Parameter writes on the mock camera (C5, C6, C7, C8) -/

theorem waitLoop_writes (g : Library L) (fuel : Nat) (w : Worker L) :
    writesOf (waitLoop g fuel w).trace = writesOf w.trace ∧
    pushesOf (waitLoop g fuel w).trace = pushesOf w.trace := by
  induction fuel generalizing w with
  | zero => exact ⟨rfl, rfl⟩
  | succ n ih =>
    simp only [waitLoop]
    split
    · obtain ⟨h1, h2⟩ := ih (libcall g (Call.gp_camera_wait_for_event w.m_camera 10) w).2
      exact ⟨by rw [h1]; simp, by rw [h2]; simp⟩
    · exact ⟨by simp, by simp⟩

/-- What `pushConfig` adds to the trace: one `gp_camera_set_config` call and no write. -/
theorem pushConfig_spec (g : Library L) (root : Nat) (w : Worker L) :
    writesOf (pushConfig g root w).2.trace = writesOf w.trace ∧
    pushesOf (pushConfig g root w).2.trace = pushesOf w.trace ++
      [(g.call w.lib (Call.gp_camera_set_config w.m_camera root)).1.ret] ∧
    ((pushConfig g root w).1 = true ↔
      GP_OK ≤ (g.call w.lib (Call.gp_camera_set_config w.m_camera root)).1.ret) := by
  simp only [pushConfig, waitForOperationCompleted]
  split_ifs with h
  · simp only [libcall_fst] at h
    exact ⟨by simp, by simp, by simp [h]⟩
  · simp only [libcall_fst, not_lt] at h
    obtain ⟨h1, h2⟩ := waitLoop_writes g
      (g.pending (libcall g (Call.gp_camera_set_config w.m_camera root) w).2.lib + 1)
      (libcall g (Call.gp_camera_set_config w.m_camera root) w).2
    exact ⟨by rw [h1]; simp, by rw [h2]; simp, by simp [h]⟩

theorem getElem?_middle {α : Type} (pre : List α) (c : α) (cs : List α) :
    (pre ++ c :: cs)[pre.length]? = some c := by
  induction pre with
  | nil => simp
  | cons x xs ih => simpa using ih

theorem intMatch_iff (qt : Qt D) (v : Int) (c : String) :
    intMatch qt v c = true ↔ qt.toInt c = some v ∨ (qt.toInt c = none ∧ v = -1) := by
  unfold intMatch
  cases h : qt.toInt c <;> simp

/-- One round of the integer loop. -/
theorem setRadioInt_succ (g : Library L) (qt : Qt D) (root opt : Nat) (v : Int) (n : Nat)
    (i : Int) (w : Worker L) :
    setRadioInt g qt root opt v (n + 1) i w =
      if intMatch qt v (libcall g (Call.gp_widget_get_choice opt i) w).1.text = true then
        if (libcall g (Call.gp_widget_set_value_str opt
              (libcall g (Call.gp_widget_get_choice opt i) w).1.text)
            (libcall g (Call.gp_widget_get_choice opt i) w).2).1.ret < GP_OK then
          (false, (libcall g (Call.gp_widget_set_value_str opt
              (libcall g (Call.gp_widget_get_choice opt i) w).1.text)
            (libcall g (Call.gp_widget_get_choice opt i) w).2).2)
        else pushConfig g root (libcall g (Call.gp_widget_set_value_str opt
              (libcall g (Call.gp_widget_get_choice opt i) w).1.text)
            (libcall g (Call.gp_widget_get_choice opt i) w).2).2
      else setRadioInt g qt root opt v n (i + 1)
        (libcall g (Call.gp_widget_get_choice opt i) w).2 := by
  simp only [setRadioInt, intMatch, decide_eq_true_eq]

/-- The library state of the mock camera after a call; its return codes never change. -/
theorem mock_rc (m : Mock) (c : Call) : (Mock.call m c).2.rc = m.rc := by
  cases c <;> simp only [Mock.call] <;> (repeat' split) <;> rfl

theorem mock_get_choice (m : Mock) (opt : Nat) (wd : MWidget) (pre : List String)
    (c : String) (cs : List String) (hwd : widgetAt opt m.tree = some wd)
    (hcs : wd.choices = pre ++ c :: cs) :
    Mock.call m (Call.gp_widget_get_choice opt pre.length)
      = ({ ret := GP_OK, text := c }, m) := by
  have h0 : ¬ ((pre.length : Int) < 0) := by omega
  have h1 : (pre ++ c :: cs)[((pre.length : Nat) : Int).toNat]? = some c := by
    rw [Int.toNat_ofNat]
    exact getElem?_middle pre c cs
  simp only [Mock.call, hwd, hcs, if_neg h0, h1]

/-- A write to an existing widget of the mock camera returns the fixed return code. -/
theorem mock_set_value_ret (m : Mock) (opt : Nat) (wd : MWidget) (s : String)
    (hwd : widgetAt opt m.tree = some wd)
    (hrc : GP_OK ≤ m.rc (Call.gp_widget_set_value_str opt s)) :
    (Mock.call m (Call.gp_widget_set_value_str opt s)).1.ret
      = m.rc (Call.gp_widget_set_value_str opt s) := by
  simp [Mock.call, hwd, not_lt.2 hrc]

theorem mock_set_config_ret (m : Mock) (cam : Bool) (root : Nat) :
    (Mock.call m (Call.gp_camera_set_config cam root)).1.ret
      = m.rc (Call.gp_camera_set_config cam root) := by
  simp only [Mock.call]
  split <;> rfl

/-- What a matching round of either loop does on the mock camera: it writes the choice, and
with an accepting library it pushes the configuration once and reports success. -/
theorem writeChoice_mock (root opt : Nat) (c : String) (wd : MWidget) (w : Worker Mock)
    (hwd : widgetAt opt w.lib.tree = some wd) :
    writesOf (if (libcall mockLib (Call.gp_widget_set_value_str opt c) w).1.ret < GP_OK then
        (false, (libcall mockLib (Call.gp_widget_set_value_str opt c) w).2)
      else pushConfig mockLib root
        (libcall mockLib (Call.gp_widget_set_value_str opt c) w).2).2.trace
      = writesOf w.trace ++ [c] ∧
    ((∀ h s, GP_OK ≤ w.lib.rc (Call.gp_widget_set_value_str h s)) →
      (∀ cam r, GP_OK ≤ w.lib.rc (Call.gp_camera_set_config cam r)) →
      (if (libcall mockLib (Call.gp_widget_set_value_str opt c) w).1.ret < GP_OK then
          (false, (libcall mockLib (Call.gp_widget_set_value_str opt c) w).2)
        else pushConfig mockLib root
          (libcall mockLib (Call.gp_widget_set_value_str opt c) w).2).1 = true ∧
      (pushesOf (if (libcall mockLib (Call.gp_widget_set_value_str opt c) w).1.ret < GP_OK then
          (false, (libcall mockLib (Call.gp_widget_set_value_str opt c) w).2)
        else pushConfig mockLib root
          (libcall mockLib (Call.gp_widget_set_value_str opt c) w).2).2.trace).length
        = (pushesOf w.trace).length + 1) := by
  constructor
  · split_ifs
    · simp
    · rw [(pushConfig_spec mockLib root _).1]
      simp
  · intro hset hpush
    have hret : (libcall mockLib (Call.gp_widget_set_value_str opt c) w).1.ret
        = w.lib.rc (Call.gp_widget_set_value_str opt c) :=
      mock_set_value_ret w.lib opt wd c hwd (hset opt c)
    rw [if_neg (by rw [hret]; exact not_lt.2 (hset opt c))]
    obtain ⟨-, h2, h3⟩ := pushConfig_spec mockLib root
      (libcall mockLib (Call.gp_widget_set_value_str opt c) w).2
    refine ⟨h3.2 ?_, by rw [h2]; simp⟩
    show GP_OK ≤ (Mock.call _ _).1.ret
    rw [mock_set_config_ret]
    show GP_OK ≤ (Mock.call w.lib _).2.rc _
    rw [mock_rc]
    exact hpush _ _

/-- The integer loop on the mock camera, started at position `pre.length` with the choices
`rest` still to visit: the first matching choice is written, and nothing is written or
pushed when no choice matches. -/
theorem setRadioInt_mock (qt : Qt D) (root opt : Nat) (v : Int) (wd : MWidget)
    (rest pre : List String) (w : Worker Mock)
    (hwd : widgetAt opt w.lib.tree = some wd) (hcs : wd.choices = pre ++ rest) :
    writesOf (setRadioInt mockLib qt root opt v rest.length pre.length w).2.trace
      = writesOf w.trace ++ (rest.find? (intMatch qt v)).toList ∧
    (rest.find? (intMatch qt v) = none →
      (setRadioInt mockLib qt root opt v rest.length pre.length w).1 = false ∧
      pushesOf (setRadioInt mockLib qt root opt v rest.length pre.length w).2.trace
        = pushesOf w.trace) ∧
    ((rest.find? (intMatch qt v)).isSome = true →
      (∀ h s, GP_OK ≤ w.lib.rc (Call.gp_widget_set_value_str h s)) →
      (∀ c r, GP_OK ≤ w.lib.rc (Call.gp_camera_set_config c r)) →
      (setRadioInt mockLib qt root opt v rest.length pre.length w).1 = true ∧
      (pushesOf (setRadioInt mockLib qt root opt v rest.length pre.length w).2.trace).length
        = (pushesOf w.trace).length + 1) := by
  induction rest generalizing pre w with
  | nil => simp [setRadioInt]
  | cons c cs ih =>
    have hcall := mock_get_choice w.lib opt wd pre c cs hwd hcs
    have htext : (libcall mockLib (Call.gp_widget_get_choice opt pre.length) w).1.text = c := by
      show (Mock.call w.lib _).1.text = c
      rw [hcall]
    have hlib : (libcall mockLib (Call.gp_widget_get_choice opt pre.length) w).2.lib = w.lib := by
      show (Mock.call w.lib _).2 = w.lib
      rw [hcall]
    have hwr : writesOf (libcall mockLib (Call.gp_widget_get_choice opt pre.length) w).2.trace
        = writesOf w.trace := by simp
    have hpu : pushesOf (libcall mockLib (Call.gp_widget_get_choice opt pre.length) w).2.trace
        = pushesOf w.trace := by simp
    rw [List.length_cons, setRadioInt_succ, htext]
    generalize (libcall mockLib (Call.gp_widget_get_choice opt pre.length) w).2 = w1
      at hlib hwr hpu ⊢
    by_cases hm : intMatch qt v c = true
    · rw [if_pos hm, List.find?_cons_of_pos _ hm]
      obtain ⟨k1, k2⟩ := writeChoice_mock root opt c wd w1 (by rw [hlib]; exact hwd)
      refine ⟨by rw [k1, hwr]; rfl, fun h => by simp at h, fun _ hset hpush => ?_⟩
      rw [← hlib] at hset hpush
      obtain ⟨k3, k4⟩ := k2 hset hpush
      exact ⟨k3, by rw [k4, hpu]⟩
    · rw [if_neg hm, List.find?_cons_of_neg _ hm]
      have hidx : ((pre.length : Int) + 1) = ((pre ++ [c]).length : Int) := by simp
      rw [hidx]
      obtain ⟨i1, i2, i3⟩ := ih (pre ++ [c]) w1 (by rw [hlib]; exact hwd) (by simp [hcs])
      refine ⟨by rw [i1, hwr], fun h => ?_, fun h hset hpush => ?_⟩
      · obtain ⟨j1, j2⟩ := i2 h
        exact ⟨j1, by rw [j2, hpu]⟩
      · rw [← hlib] at hset hpush
        obtain ⟨j1, j2⟩ := i3 h hset hpush
        exact ⟨j1, by rw [j2, hpu]⟩

theorem mock_radio_widget (m : Mock) (name : String) (cs : List String)
    (h : m.radio name = some cs) :
    ∃ (i : Nat) (wd : MWidget), childIndex name m.config = some i ∧
      widgetAt (i + 1) m.config = some wd ∧
      wd.wtype = CameraWidgetType.GP_WIDGET_RADIO ∧ wd.choices = cs := by
  unfold Mock.radio at h
  split at h
  · rename_i i hi
    split at h
    · rename_i wd hwd
      split_ifs at h with ht
      exact ⟨i, wd, hi, hwd, ht, by simpa using h⟩
    · simp at h
  · simp at h

/-- The three lookups at the start of `setParameter` and `parameter` on the mock camera,
for a widget that exists. -/
theorem lookup_mock (name : String) (i : Nat) (wd : MWidget) (w : Worker Mock)
    (hcfg : GP_OK ≤ w.lib.rc (Call.gp_camera_get_config w.m_camera))
    (hi : childIndex name w.lib.config = some i)
    (hwd : widgetAt (i + 1) w.lib.config = some wd) :
    (¬ (libcall mockLib (Call.gp_camera_get_config w.m_camera) w).1.ret < GP_OK ∧
      (libcall mockLib (Call.gp_camera_get_config w.m_camera) w).1.handle = 0) ∧
    (¬ (libcall mockLib (Call.gp_widget_get_child_by_name 0 name)
        (libcall mockLib (Call.gp_camera_get_config w.m_camera) w).2).1.ret < GP_OK ∧
      (libcall mockLib (Call.gp_widget_get_child_by_name 0 name)
        (libcall mockLib (Call.gp_camera_get_config w.m_camera) w).2).1.handle = i + 1) ∧
    (¬ (libcall mockLib (Call.gp_widget_get_type (i + 1))
        (libcall mockLib (Call.gp_widget_get_child_by_name 0 name)
          (libcall mockLib (Call.gp_camera_get_config w.m_camera) w).2).2).1.ret < GP_OK ∧
      (libcall mockLib (Call.gp_widget_get_type (i + 1))
        (libcall mockLib (Call.gp_widget_get_child_by_name 0 name)
          (libcall mockLib (Call.gp_camera_get_config w.m_camera) w).2).2).1.wtype
        = wd.wtype) ∧
    (afterLookup name i w).lib = { w.lib with tree := w.lib.config } ∧
    (afterLookup name i w).m_camera = w.m_camera ∧
    writesOf (afterLookup name i w).trace = writesOf w.trace ∧
    pushesOf (afterLookup name i w).trace = pushesOf w.trace := by
  have g1 : Mock.call w.lib (Call.gp_camera_get_config w.m_camera)
      = ({ ret := w.lib.rc (Call.gp_camera_get_config w.m_camera), handle := 0 },
          { w.lib with tree := w.lib.config }) := by
    simp only [Mock.call, if_neg (not_lt.2 hcfg)]
  have g2 : Mock.call { w.lib with tree := w.lib.config }
        (Call.gp_widget_get_child_by_name 0 name)
      = ({ ret := GP_OK, handle := i + 1 }, { w.lib with tree := w.lib.config }) := by
    simp only [Mock.call, hi]
  have g3 : Mock.call { w.lib with tree := w.lib.config } (Call.gp_widget_get_type (i + 1))
      = ({ ret := GP_OK, wtype := wd.wtype }, { w.lib with tree := w.lib.config }) := by
    simp only [Mock.call, hwd]
  have e1 : (libcall mockLib (Call.gp_camera_get_config w.m_camera) w).1
      = { ret := w.lib.rc (Call.gp_camera_get_config w.m_camera), handle := 0 } := by
    show (Mock.call w.lib _).1 = _
    rw [g1]
  have l1 : (libcall mockLib (Call.gp_camera_get_config w.m_camera) w).2.lib
      = { w.lib with tree := w.lib.config } := by
    show (Mock.call w.lib _).2 = _
    rw [g1]
  have e2 : (libcall mockLib (Call.gp_widget_get_child_by_name 0 name)
        (libcall mockLib (Call.gp_camera_get_config w.m_camera) w).2).1
      = { ret := GP_OK, handle := i + 1 } := by
    show (Mock.call (libcall mockLib _ w).2.lib _).1 = _
    rw [l1, g2]
  have l2 : (libcall mockLib (Call.gp_widget_get_child_by_name 0 name)
        (libcall mockLib (Call.gp_camera_get_config w.m_camera) w).2).2.lib
      = { w.lib with tree := w.lib.config } := by
    show (Mock.call (libcall mockLib _ w).2.lib _).2 = _
    rw [l1, g2]
  have e3 : (libcall mockLib (Call.gp_widget_get_type (i + 1))
        (libcall mockLib (Call.gp_widget_get_child_by_name 0 name)
          (libcall mockLib (Call.gp_camera_get_config w.m_camera) w).2).2).1
      = { ret := GP_OK, wtype := wd.wtype } := by
    show (Mock.call (libcall mockLib _ (libcall mockLib _ w).2).2.lib _).1 = _
    rw [l2, g3]
  have l3 : (afterLookup name i w).lib = { w.lib with tree := w.lib.config } := by
    show (Mock.call (libcall mockLib _ (libcall mockLib _ w).2).2.lib _).2 = _
    rw [l2, g3]
  refine ⟨⟨?_, ?_⟩, ⟨?_, ?_⟩, ⟨?_, ?_⟩, l3, rfl, ?_, ?_⟩
  · rw [e1]; exact not_lt.2 hcfg
  · rw [e1]
  · rw [e2]; exact lt_irrefl _
  · rw [e2]
  · rw [e3]; exact lt_irrefl _
  · rw [e3]
  · simp [afterLookup]
  · simp [afterLookup]

/-- On the mock camera, `setParameter` on an existing radio widget comes down to the write
of the string, or to one of the two loops over the choices. -/
theorem setParameter_mock_radio (qt : Qt D) (name : String) (i : Nat) (wd : MWidget)
    (w : Worker Mock)
    (hcfg : GP_OK ≤ w.lib.rc (Call.gp_camera_get_config w.m_camera))
    (hi : childIndex name w.lib.config = some i)
    (hwd : widgetAt (i + 1) w.lib.config = some wd)
    (hty : wd.wtype = CameraWidgetType.GP_WIDGET_RADIO) :
    (∀ s : String, setParameter mockLib qt name (QVariant.ofString s) w =
      if (libcall mockLib (Call.gp_widget_set_value_str (i + 1) s)
          (afterLookup name i w)).1.ret < GP_OK then
        (false, (libcall mockLib (Call.gp_widget_set_value_str (i + 1) s)
          (afterLookup name i w)).2)
      else pushConfig mockLib 0 (libcall mockLib (Call.gp_widget_set_value_str (i + 1) s)
          (afterLookup name i w)).2) ∧
    (∀ v : Int, setParameter mockLib qt name (QVariant.ofInt v) w =
      setRadioInt mockLib qt 0 (i + 1) v wd.choices.length 0
        (libcall mockLib (Call.gp_widget_count_choices (i + 1)) (afterLookup name i w)).2) ∧
    (∀ v : D, setParameter mockLib qt name (QVariant.ofDouble v) w =
      setRadioDouble mockLib qt 0 (i + 1) v wd.choices.length 0
        (libcall mockLib (Call.gp_widget_count_choices (i + 1)) (afterLookup name i w)).2) := by
  obtain ⟨⟨a1, a2⟩, ⟨b1, b2⟩, ⟨c1, c2⟩, l3, -, -, -⟩ := lookup_mock name i wd w hcfg hi hwd
  have hcount : (libcall mockLib (Call.gp_widget_count_choices (i + 1))
      (afterLookup name i w)).1.ret = (wd.choices.length : Int) := by
    show (Mock.call (afterLookup name i w).lib _).1.ret = _
    rw [l3]
    simp only [Mock.call, hwd]
  rw [hty] at c2
  refine ⟨fun s => ?_, fun v => ?_, fun v => ?_⟩
  · simp only [setParameter, a2, b2]
    rw [if_neg a1, if_neg b1, if_neg c1, if_pos c2]
    rfl
  · simp only [setParameter, a2, b2]
    rw [if_neg a1, if_neg b1, if_neg c1, if_pos c2]
    show setRadioInt mockLib qt 0 (i + 1) v
      (libcall mockLib (Call.gp_widget_count_choices (i + 1))
        (afterLookup name i w)).1.ret.toNat 0 _ = _
    rw [hcount, Int.toNat_ofNat]
    rfl
  · simp only [setParameter, a2, b2]
    rw [if_neg a1, if_neg b1, if_neg c1, if_pos c2]
    show setRadioDouble mockLib qt 0 (i + 1) v
      (libcall mockLib (Call.gp_widget_count_choices (i + 1))
        (afterLookup name i w)).1.ret.toNat 0 _ = _
    rw [hcount, Int.toNat_ofNat]
    rfl

/-- The integer branch of `setParameter` on a radio widget of the mock camera. -/
theorem setParameter_mock_int (qt : Qt D) (name : String) (v : Int) (w : Worker Mock)
    (cs : List String)
    (hcfg : GP_OK ≤ w.lib.rc (Call.gp_camera_get_config w.m_camera))
    (hr : w.lib.radio name = some cs) :
    writesOf (setParameter mockLib qt name (QVariant.ofInt v) w).2.trace
      = writesOf w.trace ++ (cs.find? (intMatch qt v)).toList ∧
    (cs.find? (intMatch qt v) = none →
      (setParameter mockLib qt name (QVariant.ofInt v) w).1 = false ∧
      pushesOf (setParameter mockLib qt name (QVariant.ofInt v) w).2.trace
        = pushesOf w.trace) ∧
    ((cs.find? (intMatch qt v)).isSome = true →
      (∀ h s, GP_OK ≤ w.lib.rc (Call.gp_widget_set_value_str h s)) →
      (∀ c r, GP_OK ≤ w.lib.rc (Call.gp_camera_set_config c r)) →
      (setParameter mockLib qt name (QVariant.ofInt v) w).1 = true) := by
  obtain ⟨i, wd, hi, hwd, hty, hch⟩ := mock_radio_widget w.lib name cs hr
  obtain ⟨-, -, -, l3, -, hwr, hpu⟩ := lookup_mock name i wd w hcfg hi hwd
  rw [(setParameter_mock_radio qt name i wd w hcfg hi hwd hty).2.1 v, hch]
  have hlib : (libcall mockLib (Call.gp_widget_count_choices (i + 1))
      (afterLookup name i w)).2.lib = { w.lib with tree := w.lib.config } := by
    show (Mock.call (afterLookup name i w).lib _).2 = _
    rw [l3]
    simp only [Mock.call, hwd]
  obtain ⟨k1, k2, k3⟩ := setRadioInt_mock qt 0 (i + 1) v wd cs []
    (libcall mockLib (Call.gp_widget_count_choices (i + 1)) (afterLookup name i w)).2
    (by rw [hlib]; exact hwd) (by simpa using hch)
  simp only [List.length_nil, Nat.cast_zero] at k1 k2 k3
  refine ⟨by rw [k1]; simp [hwr], fun h => ?_, fun h hset hpush => ?_⟩
  · obtain ⟨j1, j2⟩ := k2 h
    exact ⟨j1, by rw [j2]; simp [hpu]⟩
  · exact (k3 h (by rw [hlib]; exact hset) (by rw [hlib]; exact hpush)).1

/-- C5 (amended): on a radio widget with choices `cs`, `setParameter(name, Int -1)` hands
to `gp_widget_set_value` the first choice that either fails integer conversion or converts
to -1; and if every choice converts to an integer other than -1 it returns false and
writes no value. -/
theorem C5_minus_one_selects_first_non_numeric_or_minus_one (qt : Qt D) (name : String)
    (w : Worker Mock) (cs : List String)
    (hcfg : GP_OK ≤ w.lib.rc (Call.gp_camera_get_config w.m_camera))
    (hr : w.lib.radio name = some cs) :
    writesOf (setParameter mockLib qt name (QVariant.ofInt (-1)) w).2.trace
      = writesOf w.trace ++
        (cs.find? fun c => decide (qt.toInt c = none ∨ qt.toInt c = some (-1))).toList ∧
    ((∀ c ∈ cs, ∃ n : Int, qt.toInt c = some n ∧ n ≠ -1) →
      (setParameter mockLib qt name (QVariant.ofInt (-1)) w).1 = false ∧
      writesOf (setParameter mockLib qt name (QVariant.ofInt (-1)) w).2.trace
        = writesOf w.trace) := by
  obtain ⟨k1, k2, -⟩ := setParameter_mock_int qt name (-1) w cs hcfg hr
  have hp : intMatch qt (-1) = fun c => decide (qt.toInt c = none ∨ qt.toInt c = some (-1)) := by
    funext c
    rw [Bool.eq_iff_iff, intMatch_iff, decide_eq_true_eq]
    constructor
    · rintro (h | ⟨h, -⟩)
      · exact Or.inr h
      · exact Or.inl h
    · rintro (h | h)
      · exact Or.inr ⟨h, rfl⟩
      · exact Or.inl h
  rw [hp] at k1 k2
  refine ⟨k1, fun hall => ?_⟩
  have hnone : (cs.find? fun c => decide (qt.toInt c = none ∨ qt.toInt c = some (-1))) = none := by
    rw [List.find?_eq_none]
    intro c hc
    obtain ⟨n, h1, h2⟩ := hall c hc
    simp [h1, h2]
  exact ⟨(k2 hnone).1, by rw [k1, hnone]; simp⟩

/-- C5 witness: with choices Auto, 100, 200, 400 the target -1 selects Auto; with choices
100, 200 it returns false and writes nothing. -/
theorem C5_minus_one_selects_first_non_numeric_or_minus_one_witness :
    writesOf (setParameter mockLib mockQt "iso" (QVariant.ofInt (-1))
        (radioWorker "iso" ["Auto", "100", "200", "400"])).2.trace
      = writesOf (radioWorker "iso" ["Auto", "100", "200", "400"]).trace ++ ["Auto"] ∧
    ((setParameter mockLib mockQt "iso" (QVariant.ofInt (-1))
        (radioWorker "iso" ["100", "200"])).1 = false ∧
      writesOf (setParameter mockLib mockQt "iso" (QVariant.ofInt (-1))
        (radioWorker "iso" ["100", "200"])).2.trace
        = writesOf (radioWorker "iso" ["100", "200"]).trace) :=
  ⟨(C5_minus_one_selects_first_non_numeric_or_minus_one mockQt "iso"
      (radioWorker "iso" ["Auto", "100", "200", "400"]) ["Auto", "100", "200", "400"]
      (by decide) (by decide)).1.trans (by decide),
   (C5_minus_one_selects_first_non_numeric_or_minus_one mockQt "iso"
      (radioWorker "iso" ["100", "200"]) ["100", "200"] (by decide) (by decide)).2
      (by decide)⟩

/-- C5 counterexample: with choices -1, Auto, 100 the target -1 selects the numeric choice
"-1" although "Auto" is the first choice that fails integer conversion; with choices
-1, 100, where every choice converts, it writes "-1" and returns true. -/
theorem C5_counterexample :
    (["-1", "Auto", "100"].find? fun c => decide (mockQt.toInt c = none)) = some "Auto" ∧
    writesOf (setParameter mockLib mockQt "iso" (QVariant.ofInt (-1))
        (radioWorker "iso" ["-1", "Auto", "100"])).2.trace
      = writesOf (radioWorker "iso" ["-1", "Auto", "100"]).trace ++ ["-1"] ∧
    (∀ c ∈ ["-1", "100"], (mockQt.toInt c).isSome = true) ∧
    (setParameter mockLib mockQt "iso" (QVariant.ofInt (-1))
        (radioWorker "iso" ["-1", "100"])).1 = true ∧
    writesOf (setParameter mockLib mockQt "iso" (QVariant.ofInt (-1))
        (radioWorker "iso" ["-1", "100"])).2.trace
      = writesOf (radioWorker "iso" ["-1", "100"]).trace ++ ["-1"] := by
  refine ⟨by decide, by decide, by decide, by decide, by decide⟩

/-- C6: on a radio widget with choices `cs`, for an integer target `v` other than -1 and a
library that accepts the widget write and the config push, `setParameter(name, Int v)`
returns true exactly when some choice converts to `v`; the value handed to
`gp_widget_set_value` is the first such choice; and when no choice converts to `v`
nothing is written and no config is pushed. -/
theorem C6_int_target_selects_first_equal_choice (qt : Qt D) (name : String) (v : Int)
    (w : Worker Mock) (cs : List String) (hv : v ≠ -1)
    (hcfg : GP_OK ≤ w.lib.rc (Call.gp_camera_get_config w.m_camera))
    (hr : w.lib.radio name = some cs)
    (hset : ∀ h s, GP_OK ≤ w.lib.rc (Call.gp_widget_set_value_str h s))
    (hpush : ∀ c r, GP_OK ≤ w.lib.rc (Call.gp_camera_set_config c r)) :
    ((setParameter mockLib qt name (QVariant.ofInt v) w).1 = true ↔
      ∃ c ∈ cs, qt.toInt c = some v) ∧
    writesOf (setParameter mockLib qt name (QVariant.ofInt v) w).2.trace
      = writesOf w.trace ++ (cs.find? fun c => decide (qt.toInt c = some v)).toList ∧
    ((∀ c ∈ cs, qt.toInt c ≠ some v) →
      writesOf (setParameter mockLib qt name (QVariant.ofInt v) w).2.trace = writesOf w.trace ∧
      pushesOf (setParameter mockLib qt name (QVariant.ofInt v) w).2.trace
        = pushesOf w.trace) := by
  obtain ⟨k1, k2, k3⟩ := setParameter_mock_int qt name v w cs hcfg hr
  have hp : intMatch qt v = fun c => decide (qt.toInt c = some v) := by
    funext c
    rw [Bool.eq_iff_iff, intMatch_iff, decide_eq_true_eq]
    constructor
    · rintro (h | ⟨-, h⟩)
      · exact h
      · exact absurd h hv
    · exact Or.inl
  rw [hp] at k1 k2 k3
  have hnone : (∀ c ∈ cs, qt.toInt c ≠ some v) →
      (cs.find? fun c => decide (qt.toInt c = some v)) = none := by
    intro hall
    rw [List.find?_eq_none]
    intro c hc
    simpa using hall c hc
  refine ⟨⟨fun ht => ?_, fun hex => ?_⟩, k1, fun hall => ?_⟩
  · by_contra hno
    have hall : ∀ c ∈ cs, qt.toInt c ≠ some v := fun c hc h => hno ⟨c, hc, h⟩
    rw [(k2 (hnone hall)).1] at ht
    exact absurd ht (by simp)
  · refine k3 ?_ hset hpush
    rw [List.find?_isSome]
    obtain ⟨c, hc, h⟩ := hex
    exact ⟨c, hc, by simpa using h⟩
  · exact ⟨by rw [k1, hnone hall]; simp, (k2 (hnone hall)).2⟩

/-- C6 witness: with choices Auto, 100, 200, 400 the target 200 selects "200" and returns
true, and the target 150 returns false and writes nothing. -/
theorem C6_int_target_selects_first_equal_choice_witness :
    ((setParameter mockLib mockQt "iso" (QVariant.ofInt 200)
        (radioWorker "iso" ["Auto", "100", "200", "400"])).1 = true ∧
      writesOf (setParameter mockLib mockQt "iso" (QVariant.ofInt 200)
        (radioWorker "iso" ["Auto", "100", "200", "400"])).2.trace
        = writesOf (radioWorker "iso" ["Auto", "100", "200", "400"]).trace ++ ["200"]) ∧
    (¬ (setParameter mockLib mockQt "iso" (QVariant.ofInt 150)
        (radioWorker "iso" ["Auto", "100", "200", "400"])).1 = true ∧
      writesOf (setParameter mockLib mockQt "iso" (QVariant.ofInt 150)
        (radioWorker "iso" ["Auto", "100", "200", "400"])).2.trace
        = writesOf (radioWorker "iso" ["Auto", "100", "200", "400"]).trace) :=
  ⟨⟨(C6_int_target_selects_first_equal_choice mockQt "iso" 200
        (radioWorker "iso" ["Auto", "100", "200", "400"]) ["Auto", "100", "200", "400"]
        (by decide) (by decide) (by decide) (fun _ _ => le_refl _) (fun _ _ => le_refl _)).1.2
        ⟨"200", by decide, by decide⟩,
     (C6_int_target_selects_first_equal_choice mockQt "iso" 200
        (radioWorker "iso" ["Auto", "100", "200", "400"]) ["Auto", "100", "200", "400"]
        (by decide) (by decide) (by decide) (fun _ _ => le_refl _)
        (fun _ _ => le_refl _)).2.1.trans (by decide)⟩,
   ⟨fun h => absurd
        ((C6_int_target_selects_first_equal_choice mockQt "iso" 150
          (radioWorker "iso" ["Auto", "100", "200", "400"]) ["Auto", "100", "200", "400"]
          (by decide) (by decide) (by decide) (fun _ _ => le_refl _)
          (fun _ _ => le_refl _)).1.1 h) (by decide),
     ((C6_int_target_selects_first_equal_choice mockQt "iso" 150
        (radioWorker "iso" ["Auto", "100", "200", "400"]) ["Auto", "100", "200", "400"]
        (by decide) (by decide) (by decide) (fun _ _ => le_refl _)
        (fun _ _ => le_refl _)).2.2 (by decide)).1⟩⟩

theorem childIndex_modifyAt (f : MWidget → MWidget) (name : String) (i : Nat)
    (t : List (String × MWidget)) : childIndex name (modifyAt f i t) = childIndex name t := by
  induction t generalizing i with
  | nil => simp [modifyAt]
  | cons e es ih =>
    cases i with
    | zero => simp [modifyAt, childIndex]
    | succ j => simp [modifyAt, childIndex, ih]

theorem getElem?_modifyAt (f : MWidget → MWidget) (i : Nat) (t : List (String × MWidget)) :
    ((modifyAt f i t)[i]?).map (·.2) = ((t[i]?).map (·.2)).map f := by
  induction t generalizing i with
  | nil => simp [modifyAt]
  | cons e es ih =>
    cases i with
    | zero => simp [modifyAt]
    | succ j => simpa [modifyAt] using ih j

theorem widgetAt_modifyAt (f : MWidget → MWidget) (i : Nat) (t : List (String × MWidget)) :
    widgetAt (i + 1) (modifyAt f i t) = (widgetAt (i + 1) t).map f := by
  simp only [widgetAt]
  exact getElem?_modifyAt f i t

/-- Waiting for events changes neither the return codes nor the configuration of the mock
camera. -/
theorem waitLoop_mock (fuel : Nat) (w : Worker Mock) :
    (waitLoop mockLib fuel w).lib.rc = w.lib.rc ∧
    (waitLoop mockLib fuel w).lib.config = w.lib.config ∧
    (waitLoop mockLib fuel w).m_camera = w.m_camera := by
  induction fuel generalizing w with
  | zero => exact ⟨rfl, rfl, rfl⟩
  | succ n ih =>
    have hstep : (libcall mockLib (Call.gp_camera_wait_for_event w.m_camera 10) w).2.lib.rc
          = w.lib.rc ∧
        (libcall mockLib (Call.gp_camera_wait_for_event w.m_camera 10) w).2.lib.config
          = w.lib.config := by
      show (Mock.call w.lib _).2.rc = _ ∧ (Mock.call w.lib _).2.config = _
      simp only [Mock.call]
      split <;> exact ⟨rfl, rfl⟩
    simp only [waitLoop]
    split
    · obtain ⟨h1, h2, h3⟩ := ih (libcall mockLib (Call.gp_camera_wait_for_event w.m_camera 10) w).2
      exact ⟨h1.trans hstep.1, h2.trans hstep.2, h3⟩
    · exact ⟨hstep.1, hstep.2, rfl⟩

/-- A successful `pushConfig` stores the working copy in the mock camera. -/
theorem pushConfig_mock (root : Nat) (w : Worker Mock)
    (h : (pushConfig mockLib root w).1 = true) :
    (pushConfig mockLib root w).2.lib.rc = w.lib.rc ∧
    (pushConfig mockLib root w).2.lib.config = w.lib.tree ∧
    (pushConfig mockLib root w).2.m_camera = w.m_camera := by
  have hret := (pushConfig_spec mockLib root w).2.2.1 h
  have hrc : ¬ w.lib.rc (Call.gp_camera_set_config w.m_camera root) < GP_OK := by
    have : (Mock.call w.lib (Call.gp_camera_set_config w.m_camera root)).1.ret
        = w.lib.rc (Call.gp_camera_set_config w.m_camera root) := mock_set_config_ret _ _ _
    rw [← this]
    exact not_lt.2 hret
  have hcall : Mock.call w.lib (Call.gp_camera_set_config w.m_camera root)
      = ({ ret := w.lib.rc (Call.gp_camera_set_config w.m_camera root) },
          { w.lib with config := w.lib.tree }) := by
    simp only [Mock.call, if_neg hrc]
  have hlib : (libcall mockLib (Call.gp_camera_set_config w.m_camera root) w).2.lib
      = { w.lib with config := w.lib.tree } := by
    show (Mock.call w.lib _).2 = _
    rw [hcall]
  simp only [pushConfig, waitForOperationCompleted]
  rw [if_neg (by simp only [libcall_fst]; exact not_lt.2 hret)]
  obtain ⟨h1, h2, h3⟩ := waitLoop_mock
    ((mockLib.pending (libcall mockLib (Call.gp_camera_set_config w.m_camera root) w).2.lib) + 1)
    (libcall mockLib (Call.gp_camera_set_config w.m_camera root) w).2
  exact ⟨by rw [h1, hlib], by rw [h2, hlib], h3⟩

/-- Reading a parameter of the mock camera. -/
theorem parameter_mock (name : String) (i : Nat) (wd : MWidget) (w : Worker Mock)
    (hcfg : GP_OK ≤ w.lib.rc (Call.gp_camera_get_config w.m_camera))
    (hi : childIndex name w.lib.config = some i)
    (hwd : widgetAt (i + 1) w.lib.config = some wd) :
    (parameter mockLib name w : QVariant D × Worker Mock).1 =
      if wd.wtype = CameraWidgetType.GP_WIDGET_RADIO then QVariant.ofString wd.sval
      else if wd.wtype = CameraWidgetType.GP_WIDGET_TOGGLE then
        QVariant.ofBool (if wd.ival = 0 then false else true)
      else QVariant.invalid := by
  obtain ⟨⟨a1, a2⟩, ⟨b1, b2⟩, ⟨c1, c2⟩, l3, -, -, -⟩ := lookup_mock name i wd w hcfg hi hwd
  have hs : Mock.call (afterLookup name i w).lib (Call.gp_widget_get_value_str (i + 1))
      = ({ ret := GP_OK, text := wd.sval }, (afterLookup name i w).lib) := by
    rw [l3]
    simp only [Mock.call, hwd]
  have hn : Mock.call (afterLookup name i w).lib (Call.gp_widget_get_value_int (i + 1))
      = ({ ret := GP_OK, num := wd.ival }, (afterLookup name i w).lib) := by
    rw [l3]
    simp only [Mock.call, hwd]
  have hs1 : (libcall mockLib (Call.gp_widget_get_value_str (i + 1))
      (afterLookup name i w)).1 = { ret := GP_OK, text := wd.sval } := by
    show (Mock.call (afterLookup name i w).lib _).1 = _
    rw [hs]
  have hn1 : (libcall mockLib (Call.gp_widget_get_value_int (i + 1))
      (afterLookup name i w)).1 = { ret := GP_OK, num := wd.ival } := by
    show (Mock.call (afterLookup name i w).lib _).1 = _
    rw [hn]
  have hs2 : ¬ (libcall mockLib (Call.gp_widget_get_value_str (i + 1))
      (afterLookup name i w)).1.ret < GP_OK := by
    rw [hs1]; exact lt_irrefl _
  have hn2 : ¬ (libcall mockLib (Call.gp_widget_get_value_int (i + 1))
      (afterLookup name i w)).1.ret < GP_OK := by
    rw [hn1]; exact lt_irrefl _
  simp only [afterLookup] at hs1 hn1 hs2 hn2
  simp only [parameter, a2, b2]
  rw [if_neg a1, if_neg b1, if_neg c1, c2]
  by_cases h1 : wd.wtype = CameraWidgetType.GP_WIDGET_RADIO
  · rw [if_pos h1, if_pos h1, if_neg hs2, hs1]
  · rw [if_neg h1, if_neg h1]
    by_cases h3 : wd.wtype = CameraWidgetType.GP_WIDGET_TOGGLE
    · rw [if_pos h3, if_pos h3, if_neg hn2, hn1]
    · rw [if_neg h3, if_neg h3]

theorem mock_kind_widget (m : Mock) (name : String) (t : CameraWidgetType)
    (h : m.kind name = some t) :
    ∃ (i : Nat) (wd : MWidget), childIndex name m.config = some i ∧
      widgetAt (i + 1) m.config = some wd ∧ wd.wtype = t := by
  unfold Mock.kind at h
  split at h
  · rename_i i hi
    cases hwd : widgetAt (i + 1) m.config with
    | none => rw [hwd] at h; simp at h
    | some wd =>
      rw [hwd] at h
      exact ⟨i, wd, hi, hwd, by simpa using h⟩
  · simp at h

/-- Without a configuration `setParameter` fails. -/
theorem setParameter_mock_no_config (qt : Qt D) (name : String) (value : QVariant D)
    (w : Worker Mock) (h : w.lib.rc (Call.gp_camera_get_config w.m_camera) < GP_OK) :
    (setParameter mockLib qt name value w).1 = false := by
  have e1 : (libcall mockLib (Call.gp_camera_get_config w.m_camera) w).1.ret < GP_OK := by
    show (Mock.call w.lib _).1.ret < GP_OK
    simp only [Mock.call, if_pos h]
    exact h
  simp only [setParameter]
  rw [if_pos e1]

/-- On the mock camera, `setParameter` on an existing toggle widget. -/
theorem setParameter_mock_toggle (qt : Qt D) (name : String) (value : QVariant D) (i : Nat)
    (wd : MWidget) (w : Worker Mock)
    (hcfg : GP_OK ≤ w.lib.rc (Call.gp_camera_get_config w.m_camera))
    (hi : childIndex name w.lib.config = some i)
    (hwd : widgetAt (i + 1) w.lib.config = some wd)
    (hty : wd.wtype = CameraWidgetType.GP_WIDGET_TOGGLE) :
    setParameter mockLib qt name value w =
      if value.canConvertInt = true then
        if (libcall mockLib (Call.gp_widget_set_value_int (i + 1) (value.toInt qt))
            (afterLookup name i w)).1.ret < GP_OK then
          (false, (libcall mockLib (Call.gp_widget_set_value_int (i + 1) (value.toInt qt))
            (afterLookup name i w)).2)
        else pushConfig mockLib 0
          (libcall mockLib (Call.gp_widget_set_value_int (i + 1) (value.toInt qt))
            (afterLookup name i w)).2
      else (false, (libcall mockLib (Call.gp_widget_free (i + 1)) (afterLookup name i w)).2) := by
  obtain ⟨⟨a1, a2⟩, ⟨b1, b2⟩, ⟨c1, c2⟩, -, -, -, -⟩ := lookup_mock name i wd w hcfg hi hwd
  rw [hty] at c2
  simp only [setParameter, a2, b2]
  rw [if_neg a1, if_neg b1, if_neg c1, if_neg (by rw [c2]; decide), if_pos c2]
  rfl

/-- An accepted write to a widget of the mock camera changes the working copy. -/
theorem mock_write (c : Call) (f : MWidget → MWidget) (i : Nat) (wd : MWidget) (m : Mock)
    (hwd : widgetAt (i + 1) m.tree = some wd)
    (hc : (∃ s, c = Call.gp_widget_set_value_str (i + 1) s ∧
        f = fun x => { x with sval := s }) ∨
      (∃ n, c = Call.gp_widget_set_value_int (i + 1) n ∧ f = fun x => { x with ival := n }))
    (hret : ¬ (Mock.call m c).1.ret < GP_OK) :
    (Mock.call m c).2 = { m with tree := modifyAt f i m.tree } := by
  rcases hc with ⟨s, rfl, rfl⟩ | ⟨n, rfl, rfl⟩
  · by_cases hrc : m.rc (Call.gp_widget_set_value_str (i + 1) s) < GP_OK
    · exact absurd (by simp only [Mock.call, if_pos hrc]; exact hrc) hret
    · simp only [Mock.call, if_neg hrc, hwd, Nat.add_sub_cancel]
  · by_cases hrc : m.rc (Call.gp_widget_set_value_int (i + 1) n) < GP_OK
    · exact absurd (by simp only [Mock.call, if_pos hrc]; exact hrc) hret
    · simp only [Mock.call, if_neg hrc, hwd, Nat.add_sub_cancel]

/-- After an accepted write and a successful push, `parameter` reads the changed widget. -/
theorem read_after_write (name : String) (c : Call) (f : MWidget → MWidget) (i : Nat)
    (wd : MWidget) (w : Worker Mock)
    (hcfg : GP_OK ≤ w.lib.rc (Call.gp_camera_get_config w.m_camera))
    (hi : childIndex name w.lib.config = some i)
    (hwd : widgetAt (i + 1) w.lib.config = some wd)
    (hc : (∃ s, c = Call.gp_widget_set_value_str (i + 1) s ∧
        f = fun x => { x with sval := s }) ∨
      (∃ n, c = Call.gp_widget_set_value_int (i + 1) n ∧ f = fun x => { x with ival := n }))
    (hret : ¬ (libcall mockLib c (afterLookup name i w)).1.ret < GP_OK)
    (hpush : (pushConfig mockLib 0 (libcall mockLib c (afterLookup name i w)).2).1 = true) :
    (parameter mockLib name
        (pushConfig mockLib 0 (libcall mockLib c (afterLookup name i w)).2).2 :
          QVariant D × Worker Mock).1 =
      if (f wd).wtype = CameraWidgetType.GP_WIDGET_RADIO then QVariant.ofString (f wd).sval
      else if (f wd).wtype = CameraWidgetType.GP_WIDGET_TOGGLE then
        QVariant.ofBool (if (f wd).ival = 0 then false else true)
      else QVariant.invalid := by
  obtain ⟨-, -, -, l3, lcam, -, -⟩ := lookup_mock name i wd w hcfg hi hwd
  have hlib : (libcall mockLib c (afterLookup name i w)).2.lib
      = { w.lib with tree := modifyAt f i w.lib.config } := by
    show (Mock.call (afterLookup name i w).lib c).2 = _
    rw [mock_write c f i wd (afterLookup name i w).lib (by rw [l3]; exact hwd) hc hret, l3]
  obtain ⟨p1, p2, p3⟩ := pushConfig_mock 0 (libcall mockLib c (afterLookup name i w)).2 hpush
  rw [hlib] at p1 p2
  have hcam : (pushConfig mockLib 0 (libcall mockLib c (afterLookup name i w)).2).2.m_camera
      = w.m_camera := p3.trans lcam
  exact parameter_mock name i (f wd) _
    (by rw [p1, hcam]; exact hcfg)
    (by rw [p2]; exact (childIndex_modifyAt f name i _).trans hi)
    (by rw [p2, widgetAt_modifyAt, hwd]; rfl)

/-- C8: on the mock camera, whose widgets keep the value last written and give it back,
if `setParameter(n, v)` returns true then `parameter(n)` called right after returns: for
a toggle widget the boolean `v.toInt ≠ 0` (so `b` itself for a boolean `b`, and
`i ≠ 0` for an integer `i`), and for a radio widget and a string `v` that same string. -/
theorem C8_parameter_returns_the_value_set (qt : Qt D) (name : String) (v : QVariant D)
    (w : Worker Mock) (hok : (setParameter mockLib qt name v w).1 = true) :
    (w.lib.kind name = some CameraWidgetType.GP_WIDGET_TOGGLE →
      (parameter mockLib name (setParameter mockLib qt name v w).2 :
          QVariant D × Worker Mock).1 = QVariant.ofBool (decide (v.toInt qt ≠ 0)) ∧
      (∀ b : Bool, v = QVariant.ofBool b →
        (parameter mockLib name (setParameter mockLib qt name v w).2 :
          QVariant D × Worker Mock).1 = QVariant.ofBool b) ∧
      (∀ i : Int, v = QVariant.ofInt i →
        (parameter mockLib name (setParameter mockLib qt name v w).2 :
          QVariant D × Worker Mock).1 = QVariant.ofBool (decide (i ≠ 0)))) ∧
    (w.lib.kind name = some CameraWidgetType.GP_WIDGET_RADIO →
      ∀ s : String, v = QVariant.ofString s →
        (parameter mockLib name (setParameter mockLib qt name v w).2 :
          QVariant D × Worker Mock).1 = QVariant.ofString s) := by
  have hcfg : GP_OK ≤ w.lib.rc (Call.gp_camera_get_config w.m_camera) := by
    by_contra h
    rw [setParameter_mock_no_config qt name v w (not_le.1 h)] at hok
    exact absurd hok (by simp)
  constructor
  · intro hk
    obtain ⟨i, wd, hi, hwd, hty⟩ := mock_kind_widget w.lib name _ hk
    have heq := setParameter_mock_toggle qt name v i wd w hcfg hi hwd hty
    have hgen : (parameter mockLib name (setParameter mockLib qt name v w).2 :
        QVariant D × Worker Mock).1 = QVariant.ofBool (decide (v.toInt qt ≠ 0)) := by
      rw [heq] at hok ⊢
      by_cases hcan : v.canConvertInt = true
      · rw [if_pos hcan] at hok ⊢
        by_cases hret : (libcall mockLib (Call.gp_widget_set_value_int (i + 1) (v.toInt qt))
            (afterLookup name i w)).1.ret < GP_OK
        · rw [if_pos hret] at hok
          exact absurd hok (by simp)
        · rw [if_neg hret] at hok ⊢
          rw [read_after_write name _ (fun x => { x with ival := v.toInt qt }) i wd w hcfg hi hwd
            (Or.inr ⟨_, rfl, rfl⟩) hret hok]
          by_cases h0 : v.toInt qt = 0 <;> simp [hty, h0]
      · rw [if_neg hcan] at hok
        exact absurd hok (by simp)
    refine ⟨hgen, fun b hb => ?_, fun n hn => ?_⟩
    · rw [hgen, hb]
      cases b <;> simp [QVariant.toInt]
    · rw [hgen, hn]
      simp [QVariant.toInt]
  · intro hk s hs
    subst hs
    obtain ⟨i, wd, hi, hwd, hty⟩ := mock_kind_widget w.lib name _ hk
    have heq := (setParameter_mock_radio qt name i wd w hcfg hi hwd hty).1 s
    rw [heq] at hok ⊢
    by_cases hret : (libcall mockLib (Call.gp_widget_set_value_str (i + 1) s)
        (afterLookup name i w)).1.ret < GP_OK
    · rw [if_pos hret] at hok
      exact absurd hok (by simp)
    · rw [if_neg hret] at hok ⊢
      rw [read_after_write name _ (fun x => { x with sval := s }) i wd w hcfg hi hwd
        (Or.inl ⟨_, rfl, rfl⟩) hret hok]
      simp [hty]

/-- C8 witness: on a mock camera with a toggle `viewfinder` and a radio `iso`, writing true
to the toggle reads back true, writing the integer 0 reads back false, and writing the
string "200" to the radio reads back "200". -/
theorem C8_parameter_returns_the_value_set_witness :
    (parameter mockLib "viewfinder"
        (setParameter mockLib mockQt "viewfinder" (QVariant.ofBool true)
          (construct mockLib mockKnobs)).2 : QVariant Int × Worker Mock).1
      = QVariant.ofBool true ∧
    (parameter mockLib "viewfinder"
        (setParameter mockLib mockQt "viewfinder" (QVariant.ofInt 0)
          (construct mockLib mockKnobs)).2 : QVariant Int × Worker Mock).1
      = QVariant.ofBool (decide ((0 : Int) ≠ 0)) ∧
    (parameter mockLib "iso"
        (setParameter mockLib mockQt "iso" (QVariant.ofString "200")
          (construct mockLib mockKnobs)).2 : QVariant Int × Worker Mock).1
      = QVariant.ofString "200" :=
  ⟨((C8_parameter_returns_the_value_set mockQt "viewfinder" (QVariant.ofBool true)
      (construct mockLib mockKnobs) (by decide)).1 (by decide)).2.1 true rfl,
   ((C8_parameter_returns_the_value_set mockQt "viewfinder" (QVariant.ofInt 0)
      (construct mockLib mockKnobs) (by decide)).1 (by decide)).2.2 0 rfl,
   (C8_parameter_returns_the_value_set mockQt "iso" (QVariant.ofString "200")
      (construct mockLib mockKnobs) (by decide)).2 (by decide) "200" rfl⟩

/-! ## The device registry (C11) -/

@[simp] theorem fcall_m_cameraDevices (g : L → FactoryCall → Reply × L) (c : FactoryCall)
    (f : GPhotoFactory L) : (fcall g c f).2.m_cameraDevices = f.m_cameraDevices := rfl
@[simp] theorem fcall_m_cameraDescriptions (g : L → FactoryCall → Reply × L) (c : FactoryCall)
    (f : GPhotoFactory L) : (fcall g c f).2.m_cameraDescriptions = f.m_cameraDescriptions := rfl
@[simp] theorem fcall_m_defaultCameraDevice (g : L → FactoryCall → Reply × L) (c : FactoryCall)
    (f : GPhotoFactory L) : (fcall g c f).2.m_defaultCameraDevice = f.m_defaultCameraDevice := rfl
@[simp] theorem fcall_lib (g : L → FactoryCall → Reply × L) (c : FactoryCall)
    (f : GPhotoFactory L) : (fcall g c f).2.lib = (g f.lib c).2 := rfl
@[simp] theorem fcall_fst (g : L → FactoryCall → Reply × L) (c : FactoryCall)
    (f : GPhotoFactory L) : (fcall g c f).1 = (g f.lib c).1 := rfl

/-- The detection loop appends to both cached lists exactly the kept entries, and leaves the
cached default device alone. -/
theorem updateLoop_spec (g : L → FactoryCall → Reply × L) (n : Nat) (i : Int)
    (f : GPhotoFactory L) :
    (updateLoop g n i f).m_cameraDevices
      = f.m_cameraDevices ++ (keptEntries g n i f.lib).map Prod.fst ∧
    (updateLoop g n i f).m_cameraDescriptions
      = f.m_cameraDescriptions ++ (keptEntries g n i f.lib).map Prod.snd ∧
    (updateLoop g n i f).m_defaultCameraDevice = f.m_defaultCameraDevice := by
  induction n generalizing i f with
  | zero => simp [updateLoop, keptEntries]
  | succ n ih =>
    simp only [updateLoop, keptEntries, fcall_fst, fcall_lib]
    split_ifs with h1 h2
    · obtain ⟨a, b, c⟩ := ih (i + 1) (fcall g (FactoryCall.gp_list_get_name i) f).2
      exact ⟨a, b, c⟩
    · obtain ⟨a, b, c⟩ := ih (i + 1) (fcall g (FactoryCall.gp_list_get_value i)
        (fcall g (FactoryCall.gp_list_get_name i) f).2).2
      exact ⟨a, b, c⟩
    · obtain ⟨a, b, c⟩ := ih (i + 1)
        { (fcall g (FactoryCall.gp_list_get_value i)
            (fcall g (FactoryCall.gp_list_get_name i) f).2).2 with
          m_cameraDevices := f.m_cameraDevices ++ [(g f.lib (FactoryCall.gp_list_get_name i)).1.text]
          m_cameraDescriptions := f.m_cameraDescriptions ++
            [(g (g f.lib (FactoryCall.gp_list_get_name i)).2
              (FactoryCall.gp_list_get_value i)).1.text] }
      refine ⟨?_, ?_, c⟩
      · simpa using a
      · simpa using b

theorem updateDevices_of_cached (g : L → FactoryCall → Reply × L) (f : GPhotoFactory L)
    (h : f.m_cameraDevices ≠ []) : updateDevices g f = f := by
  simp [updateDevices, h]

theorem cached_updateDevices (g : L → FactoryCall → Reply × L) (f : GPhotoFactory L)
    (hf : Cached f) : Cached (updateDevices g f) := by
  by_cases h : f.m_cameraDevices = []
  · have hd : f.m_defaultCameraDevice = "" := by
      rw [hf.2, h]; rfl
    simp only [updateDevices, h, ne_eq, not_true_eq_false, if_false]
    split_ifs with h1 h2 h3 h4
    · exact ⟨rfl, hd⟩
    · exact ⟨rfl, hd⟩
    · exact ⟨rfl, hd⟩
    · refine ⟨?_, ?_⟩
      · show (updateLoop g _ 0 _).m_cameraDevices.length
          = (updateLoop g _ 0 _).m_cameraDescriptions.length
        rw [(updateLoop_spec g _ 0 _).1, (updateLoop_spec g _ 0 _).2.1]
        simp
      · simp only [fcall_m_cameraDevices] at h4
        show (updateLoop g _ 0 _).m_defaultCameraDevice
          = (updateLoop g _ 0 _).m_cameraDevices.headD ""
        rw [(updateLoop_spec g _ 0 _).2.2, h4]
        exact hd
    · refine ⟨?_, rfl⟩
      show (updateLoop g _ 0 _).m_cameraDevices.length
        = (updateLoop g _ 0 _).m_cameraDescriptions.length
      rw [(updateLoop_spec g _ 0 _).1, (updateLoop_spec g _ 0 _).2.1]
      simp
  · rw [updateDevices_of_cached g f h]
    exact hf

theorem cached_initCameraAbilitiesList (g : L → FactoryCall → Reply × L) (f : GPhotoFactory L)
    (hf : Cached f) : Cached (initCameraAbilitiesList g f) := by
  simp only [initCameraAbilitiesList]
  split_ifs <;> exact hf

theorem cached_initPortInfoList (g : L → FactoryCall → Reply × L) (f : GPhotoFactory L)
    (hf : Cached f) : Cached (initPortInfoList g f) := by
  simp only [initPortInfoList]
  split_ifs <;> exact hf

theorem cached_create (g : L → FactoryCall → Reply × L) (l : L) :
    Cached (GPhotoFactory.create g l) := by
  simp only [GPhotoFactory.create]
  split_ifs
  · exact ⟨rfl, rfl⟩
  · exact cached_initPortInfoList g _ (cached_initCameraAbilitiesList g _ ⟨rfl, rfl⟩)

theorem cached_ask (g : L → FactoryCall → Reply × L) (f : GPhotoFactory L) (q : Query)
    (hf : Cached f) : Cached (ask g f q) := by
  cases q with
  | cameraDevices => exact cached_updateDevices g f hf
  | cameraDescriptions => exact cached_updateDevices g f hf
  | defaultCameraDevice => exact cached_updateDevices g f hf
  | cameraDescription id => exact cached_updateDevices g f hf
  | cameraAbilities id =>
    simp only [ask, cameraAbilities]
    split_ifs <;> exact hf
  | portInfo d =>
    simp only [ask, portInfo]
    split_ifs <;> exact hf

theorem cached_askAll (g : L → FactoryCall → Reply × L) (qs : List Query) (f : GPhotoFactory L)
    (hf : Cached f) : Cached (askAll g f qs) := by
  induction qs generalizing f with
  | nil => exact hf
  | cons q qs ih => exact ih _ (cached_ask g f q hf)

/-- The lookup loop of `cameraDescription`, started at index `i` with `n` entries left. -/
theorem descriptionLoop_spec (id : String) (devices descriptions : List String) (n i : Nat)
    (hn : i + n = devices.length) :
    (∀ k, i ≤ k → devices[k]? = some id → (∀ j, i ≤ j → j < k → devices[j]? ≠ some id) →
      descriptionLoop id devices descriptions n i = descriptions[k]?) ∧
    ((∀ k, i ≤ k → devices[k]? ≠ some id) →
      descriptionLoop id devices descriptions n i = some "") := by
  induction n generalizing i with
  | zero =>
    refine ⟨fun k hk hid _ => ?_, fun _ => rfl⟩
    have : devices[k]? = none := List.getElem?_eq_none (by omega)
    rw [this] at hid
    exact absurd hid (by simp)
  | succ n ih =>
    have hi : i < devices.length := by omega
    have hget : devices[i]? = some devices[i] := List.getElem?_eq_getElem hi
    obtain ⟨ih1, ih2⟩ := ih (i + 1) (by omega)
    simp only [descriptionLoop, hget]
    by_cases hd : id = devices[i]
    · rw [if_pos hd]
      refine ⟨fun k hk hid hmin => ?_, fun hno => ?_⟩
      · rcases Nat.eq_or_lt_of_le hk with h | h
        · rw [h]
        · exact absurd (by rw [hget, hd]) (hmin i (le_refl i) h)
      · exact absurd (by rw [hget, hd]) (hno i (le_refl i))
    · rw [if_neg hd]
      refine ⟨fun k hk hid hmin => ?_, fun hno => ?_⟩
      · rcases Nat.eq_or_lt_of_le hk with h | h
        · rw [← h, hget] at hid
          exact absurd (Option.some.inj hid).symm hd
        · exact ih1 k h hid (fun j hj hjk => hmin j (by omega) hjk)
      · exact ih2 (fun k hk => hno k (by omega))

/-- Once the cache holds a device, no query changes the cached lists or the default. -/
theorem ask_of_cached (g : L → FactoryCall → Reply × L) (f : GPhotoFactory L) (q : Query)
    (h : f.m_cameraDevices ≠ []) :
    (ask g f q).m_cameraDevices = f.m_cameraDevices ∧
    (ask g f q).m_cameraDescriptions = f.m_cameraDescriptions ∧
    (ask g f q).m_defaultCameraDevice = f.m_defaultCameraDevice := by
  cases q with
  | cameraDevices =>
    simp [ask, cameraDevices, updateDevices_of_cached g f h]
  | cameraDescriptions =>
    simp [ask, cameraDescriptions, updateDevices_of_cached g f h]
  | defaultCameraDevice =>
    simp [ask, defaultCameraDevice, updateDevices_of_cached g f h]
  | cameraDescription id =>
    simp [ask, cameraDescription, updateDevices_of_cached g f h]
  | cameraAbilities id =>
    simp only [ask, cameraAbilities]
    split_ifs <;> exact ⟨rfl, rfl, rfl⟩
  | portInfo d =>
    simp only [ask, portInfo]
    split_ifs <;> exact ⟨rfl, rfl, rfl⟩

/-- C11: after any sequence of registry queries on a fresh factory, whatever the library
answers: the detection loop puts into the two cached lists exactly the entries whose name
lookup and value lookup both succeed (so entry i of one list belongs to entry i of the
other); `cameraDevices()` and `cameraDescriptions()` return lists of the same length;
`defaultCameraDevice()` returns the first entry of `cameraDevices()`, and the empty string
when that list is empty; `cameraDescription(id)` returns the description at the first
index whose identifier equals `id`, and the empty string when `id` is not listed; and once
the device list is non-empty no later query changes the cached lists or the default. -/
theorem C11_registry_lists_consistent (g : L → FactoryCall → Reply × L) (l : L)
    (qs : List Query) (id : String) :
    (∀ (n : Nat) (i : Int) (f : GPhotoFactory L),
      (updateLoop g n i f).m_cameraDevices
        = f.m_cameraDevices ++ (keptEntries g n i f.lib).map Prod.fst ∧
      (updateLoop g n i f).m_cameraDescriptions
        = f.m_cameraDescriptions ++ (keptEntries g n i f.lib).map Prod.snd) ∧
    Cached (askAll g (GPhotoFactory.create g l) qs) ∧
    (cameraDevices g (askAll g (GPhotoFactory.create g l) qs)).1.length
      = (cameraDescriptions g (askAll g (GPhotoFactory.create g l) qs)).1.length ∧
    (defaultCameraDevice g (askAll g (GPhotoFactory.create g l) qs)).1
      = (cameraDevices g (askAll g (GPhotoFactory.create g l) qs)).1.headD "" ∧
    ((cameraDevices g (askAll g (GPhotoFactory.create g l) qs)).1 = [] →
      (defaultCameraDevice g (askAll g (GPhotoFactory.create g l) qs)).1 = "") ∧
    (∀ i : Nat,
      (cameraDevices g (askAll g (GPhotoFactory.create g l) qs)).1[i]? = some id →
      (∀ j : Nat, j < i →
        (cameraDevices g (askAll g (GPhotoFactory.create g l) qs)).1[j]? ≠ some id) →
      (cameraDescription g id (askAll g (GPhotoFactory.create g l) qs)).1
          = (cameraDescriptions g (askAll g (GPhotoFactory.create g l) qs)).1[i]? ∧
        (cameraDescription g id (askAll g (GPhotoFactory.create g l) qs)).1.isSome = true) ∧
    (id ∉ (cameraDevices g (askAll g (GPhotoFactory.create g l) qs)).1 →
      (cameraDescription g id (askAll g (GPhotoFactory.create g l) qs)).1 = some "") ∧
    (∀ q : Query,
      (cameraDevices g (askAll g (GPhotoFactory.create g l) qs)).1 ≠ [] →
      (ask g (cameraDevices g (askAll g (GPhotoFactory.create g l) qs)).2 q).m_cameraDevices
          = (cameraDevices g (askAll g (GPhotoFactory.create g l) qs)).1 ∧
        (ask g (cameraDevices g (askAll g (GPhotoFactory.create g l) qs)).2
            q).m_cameraDescriptions
          = (cameraDescriptions g (askAll g (GPhotoFactory.create g l) qs)).1 ∧
        (ask g (cameraDevices g (askAll g (GPhotoFactory.create g l) qs)).2
            q).m_defaultCameraDevice
          = (defaultCameraDevice g (askAll g (GPhotoFactory.create g l) qs)).1) := by
  have hF : Cached (askAll g (GPhotoFactory.create g l) qs) :=
    cached_askAll g qs _ (cached_create g l)
  have hU : Cached (updateDevices g (askAll g (GPhotoFactory.create g l) qs)) :=
    cached_updateDevices g _ hF
  have hD := descriptionLoop_spec id
    (updateDevices g (askAll g (GPhotoFactory.create g l) qs)).m_cameraDevices
    (updateDevices g (askAll g (GPhotoFactory.create g l) qs)).m_cameraDescriptions
    (updateDevices g (askAll g (GPhotoFactory.create g l) qs)).m_cameraDevices.length 0
    (by simp)
  refine ⟨fun n i f => ⟨(updateLoop_spec g n i f).1, (updateLoop_spec g n i f).2.1⟩, hF,
    hU.1, hU.2, ?_, ?_, ?_, ?_⟩
  · intro h
    show (updateDevices g _).m_defaultCameraDevice = ""
    have h0 : (updateDevices g (askAll g (GPhotoFactory.create g l) qs)).m_cameraDevices
        = [] := h
    rw [hU.2, h0]
    rfl
  · intro i hi hmin
    have h1 : (cameraDescription g id (askAll g (GPhotoFactory.create g l) qs)).1
        = (cameraDescriptions g (askAll g (GPhotoFactory.create g l) qs)).1[i]? :=
      hD.1 i (Nat.zero_le i) hi (fun j _ hj => hmin j hj)
    refine ⟨h1, ?_⟩
    rw [h1]
    have hlt : i < (updateDevices g
        (askAll g (GPhotoFactory.create g l) qs)).m_cameraDevices.length := by
      by_contra hge
      have hnone : (updateDevices g
          (askAll g (GPhotoFactory.create g l) qs)).m_cameraDevices[i]? = none :=
        List.getElem?_eq_none (by omega)
      have hi2 : (updateDevices g
          (askAll g (GPhotoFactory.create g l) qs)).m_cameraDevices[i]? = some id := hi
      rw [hnone] at hi2
      exact absurd hi2 (by simp)
    have hlt2 : i < (updateDevices g
        (askAll g (GPhotoFactory.create g l) qs)).m_cameraDescriptions.length := by
      rw [← hU.1]; exact hlt
    show ((updateDevices g
        (askAll g (GPhotoFactory.create g l) qs)).m_cameraDescriptions[i]?).isSome = true
    rw [List.getElem?_eq_getElem hlt2]
    rfl
  · intro hno
    exact hD.2 (fun k _ hk => hno (List.mem_iff_getElem?.mpr ⟨k, hk⟩))
  · intro q hne
    exact ask_of_cached g (updateDevices g (askAll g (GPhotoFactory.create g l) qs)) q hne

theorem C11_registry_lists_consistent_witness :
    (askAll ListMock.call (GPhotoFactory.create ListMock.call threeCameras)
        [Query.cameraAbilities "Nikon D90", Query.cameraDevices]).m_cameraDevices
      = ["Canon EOS 5D", "Nikon D90"] ∧
    (cameraDevices ListMock.call (askAll ListMock.call
        (GPhotoFactory.create ListMock.call threeCameras)
        [Query.cameraAbilities "Nikon D90", Query.cameraDevices])).1[1]?
      = some "Nikon D90" ∧
    (cameraDescription ListMock.call "Nikon D90" (askAll ListMock.call
        (GPhotoFactory.create ListMock.call threeCameras)
        [Query.cameraAbilities "Nikon D90", Query.cameraDevices])).1
      = some "usb:001,006" ∧
    (cameraDescription ListMock.call "Nikon D90" (askAll ListMock.call
        (GPhotoFactory.create ListMock.call threeCameras)
        [Query.cameraAbilities "Nikon D90", Query.cameraDevices])).1
      = (cameraDescriptions ListMock.call (askAll ListMock.call
        (GPhotoFactory.create ListMock.call threeCameras)
        [Query.cameraAbilities "Nikon D90", Query.cameraDevices])).1[1]? ∧
    (cameraDevices ListMock.call (askAll ListMock.call
        (GPhotoFactory.create ListMock.call noCameras) [Query.defaultCameraDevice])).1 = [] ∧
    (defaultCameraDevice ListMock.call (askAll ListMock.call
        (GPhotoFactory.create ListMock.call noCameras) [Query.defaultCameraDevice])).1 = "" :=
  ⟨by decide, by decide, by decide,
    ((C11_registry_lists_consistent ListMock.call threeCameras
      [Query.cameraAbilities "Nikon D90", Query.cameraDevices] "Nikon D90").2.2.2.2.2.1 1
      (by decide) (by decide)).1,
    by decide,
    (C11_registry_lists_consistent ListMock.call noCameras
      [Query.defaultCameraDevice] "").2.2.2.2.1 (by decide)⟩

end GPhoto
